import Mathlib

/-!
# Garagem: the vehicle domain model of the garage application

A shallow embedding of `public/JSS/manutencao.js`, `carro.js`,
`carroesportivo.js`, `caminhao.js`, of the record reconstruction and the
handlers of `garagem.js`, and of the vehicle routes and the token check of
`server.js` and `middleware/auth.js`.

Conventions of the embedding.

* JavaScript numbers are exact: integers are `Int`, other finite numbers are
  rationals, with `NaN` and the two infinities as separate values. Rounding of
  doubles and the sign of zero are not modelled. The first definitions of the
  vehicles keep capacity, load and speed as integers; the section `Duplo`
  follows the same methods with overflow to `Infinity` and with `NaN`, and the
  properties of the speed and of the increment of a truck are stated there.
* A `Date` object is its time value in milliseconds since the epoch,
  `none` standing for `NaN` (an invalid date).
* Methods that mutate `this` are functions from the vehicle to a `Saida`:
  the new vehicle, the returned value and the events raised (user notices
  and interface refreshes).
* Textual constructor parameters range over strings and the two missing
  values (`undefined`, `null`), as their JSDoc types say.
-/

namespace Garagem

/-! ## JavaScript values -/

/-- A JavaScript number: `NaN`, a finite value, `Infinity` or `-Infinity`. -/
inductive JSNum where
  | nan
  | fin (q : ℚ)
  | pinf
  | ninf
  deriving DecidableEq

/-- The JavaScript values that reach the model: the two missing values,
booleans, numbers, strings and `Date` objects (time value, `none` = `NaN`). -/
inductive JSVal where
  | undefined
  | null
  | bool (b : Bool)
  | num (x : JSNum)
  | str (s : String)
  | date (t : Option Int)
  deriving DecidableEq

/-- A textual argument: `undefined`, `null` or a string. -/
inductive Texto where
  | indefinido
  | nulo
  | texto (s : String)
  deriving DecidableEq

/-- An integer as a JavaScript number value. -/
def JSVal.int (n : Int) : JSVal := .num (.fin n)

/-- ToBoolean. -/
def JSVal.truthy : JSVal → Bool
  | .undefined => false
  | .null => false
  | .bool b => b
  | .num .nan => false
  | .num (.fin q) => decide (q ≠ 0)
  | .num _ => true
  | .str s => decide (s ≠ "")
  | .date _ => true

/-- ToBoolean on a textual argument. -/
def Texto.truthy : Texto → Bool
  | .texto s => decide (s ≠ "")
  | _ => false

/-- `String(x)` on a textual argument. -/
def Texto.paraString : Texto → String
  | .indefinido => "undefined"
  | .nulo => "null"
  | .texto s => s

/-- The white space and line terminator code points that `trim` and the
numeric parsers skip. -/
def jsEspaco (c : Char) : Bool :=
  let n := c.toNat
  n = 9 || n = 10 || n = 11 || n = 12 || n = 13 || n = 32 || n = 160 ||
  n = 5760 || (8192 ≤ n && n ≤ 8202) || n = 8232 || n = 8233 || n = 8239 ||
  n = 8287 || n = 12288 || n = 65279

/-- `String.prototype.trim`. -/
def jsTrim (s : String) : String :=
  ⟨(((s.data.dropWhile jsEspaco).reverse).dropWhile jsEspaco).reverse⟩

/-- `String.prototype.toUpperCase` on the ASCII letters (other characters are
left as they are). -/
def jsToUpperCase (s : String) : String :=
  ⟨s.data.map Char.toUpper⟩

/-- The value of a character as a digit (decimal digits and the letters
`a`..`f`, `A`..`F`). -/
def valorDigito (c : Char) : Option Nat :=
  let n := c.toNat
  if 48 ≤ n ∧ n ≤ 57 then some (n - 48)
  else if 97 ≤ n ∧ n ≤ 102 then some (n - 87)
  else if 65 ≤ n ∧ n ≤ 70 then some (n - 55)
  else none

/-- The longest run of digits of the given radix at the start of the text,
and what follows it. -/
def lerDigitosDe (radix : Nat) : List Char → List Nat × List Char
  | [] => ([], [])
  | c :: cs =>
    match valorDigito c with
    | some d =>
      if d < radix then ((lerDigitosDe radix cs).1.cons d, (lerDigitosDe radix cs).2)
      else ([], c :: cs)
    | none => ([], c :: cs)

/-- The number written by a list of digits. -/
def valorDe (radix : Nat) (ds : List Nat) : Nat :=
  ds.foldl (fun acc d => acc * radix + d) 0

/-- A leading sign: whether it is a minus, and the text after it. -/
def lerSinal : List Char → Bool × List Char
  | c :: cs => if c = '-' then (true, cs) else if c = '+' then (false, cs) else (false, c :: cs)
  | [] => (false, [])

/-- The `0x` or `0X` marker of `parseInt`: the radix and the text after it. -/
def lerRadix : List Char → Nat × List Char
  | a :: b :: cs => if a = '0' ∧ (b = 'x' ∨ b = 'X') then (16, cs) else (10, a :: b :: cs)
  | cs => (10, cs)

/-- `parseInt(s)` on a string, `none` standing for `NaN`: leading white space
is skipped, a sign and a `0x` marker are read, then the longest run of
digits; the rest of the text is ignored. -/
def parseIntTexto (s : List Char) : Option Int :=
  let s1 := lerSinal (s.dropWhile jsEspaco)
  let s2 := lerRadix s1.2
  let ds := (lerDigitosDe s2.1 s2.2).1
  if ds = [] then none
  else some (if s1.1 then -((valorDe s2.1 ds : Nat) : Int) else ((valorDe s2.1 ds : Nat) : Int))

/-- The first decimal digit of a natural number (`passos` bounds the number of
divisions by ten; the number itself is enough). -/
def digitoInicial : Nat → Nat → Nat
  | 0, n => n
  | passos + 1, n => if n < 10 then n else digitoInicial passos (n / 10)

/-- The first significant decimal digit of a positive rational below one
(`passos` bounds the number of multiplications by ten). -/
def digitoFracao : Nat → ℚ → Nat
  | 0, q => ⌊q⌋.toNat
  | passos + 1, q => if 1 ≤ q then ⌊q⌋.toNat else digitoFracao passos (q * 10)

/-- The first significant decimal digit of a positive rational. -/
def primeiroDigito (q : ℚ) : Nat :=
  if 1 ≤ q then digitoInicial ⌊q⌋.toNat ⌊q⌋.toNat
  else digitoFracao ⌈q⁻¹⌉.toNat q

/-- `parseInt` of the text of a non-negative number: numbers from `1e-6` up to
`1e21` are written positionally, so the digits before the point are read;
smaller and larger ones are written with an exponent, and only the first
digit is read. -/
def parseIntAbs (q : ℚ) : Nat :=
  if q = 0 then 0
  else if q < 1 / 1000000 then primeiroDigito q
  else if q < 10 ^ 21 then ⌊q⌋.toNat
  else primeiroDigito q

/-- `parseInt(x)` on a number (`parseInt` reads the text of its argument). -/
def parseIntNum : JSNum → Option Int
  | .fin q => some (if q < 0 then -((parseIntAbs (-q) : Nat) : Int) else ((parseIntAbs q : Nat) : Int))
  | _ => none

/-- `parseInt(v)`, `none` standing for `NaN`. The texts of `undefined`,
`null`, booleans and dates start with a letter. -/
def parseInt : JSVal → Option Int
  | .str s => parseIntTexto s.data
  | .num x => parseIntNum x
  | _ => none

/-- The digits of a decimal fraction or exponent, as a signed exponent part:
`e`, an optional sign and at least one digit; `0` when the part is absent or
incomplete. -/
def lerExpoente : List Char → Int
  | c :: cs =>
    if c = 'e' ∨ c = 'E' then
      let s := lerSinal cs
      let ds := (lerDigitosDe 10 s.2).1
      if ds = [] then 0
      else if s.1 then -((valorDe 10 ds : Nat) : Int) else ((valorDe 10 ds : Nat) : Int)
    else 0
  | [] => 0

/-- Whether the text starts with `Infinity`. -/
def comecaComInfinity : List Char → Bool
  | 'I' :: 'n' :: 'f' :: 'i' :: 'n' :: 'i' :: 't' :: 'y' :: _ => true
  | _ => false

/-- `parseFloat(s)` on a string: the longest leading decimal literal. -/
def parseFloatTexto (s : List Char) : JSNum :=
  let s1 := lerSinal (s.dropWhile jsEspaco)
  if comecaComInfinity s1.2 then (if s1.1 then .ninf else .pinf)
  else
    let i := lerDigitosDe 10 s1.2
    let f : List Nat × List Char :=
      match i.2 with
      | c :: cs => if c = '.' then lerDigitosDe 10 cs else ([], c :: cs)
      | [] => ([], [])
    if i.1 = [] ∧ f.1 = [] then .nan
    else
      let m : ℚ := (valorDe 10 i.1 : ℚ) + (valorDe 10 f.1 : ℚ) / 10 ^ f.1.length
      let v : ℚ := m * 10 ^ lerExpoente f.2
      .fin (if s1.1 then -v else v)

/-- `parseFloat(v)`: a number is read back from its own text unchanged. -/
def parseFloat : JSVal → JSNum
  | .str s => parseFloatTexto s.data
  | .num x => x
  | _ => .nan

/-- The expression `x || 0` on a number. -/
def JSNum.ouZero : JSNum → JSNum
  | .nan => .fin 0
  | x => x

/-- The comparison `x >= 0` on a number. -/
def JSNum.naoNegativo : JSNum → Bool
  | .fin q => decide (0 ≤ q)
  | .pinf => true
  | _ => false

/-- `Math.round`: the nearest integer, halves rounded up. -/
def arredondar (q : ℚ) : Int := ⌊q + 1 / 2⌋

/-! ## Dates -/

/-- The number of days from 1970-01-01 to the given day of the proleptic
Gregorian calendar (a day number past the end of its month runs on into the
next month). -/
def diasDesdeCivil (y m d : Int) : Int :=
  let y1 := if m ≤ 2 then y - 1 else y
  let era := y1 / 400
  let yoe := y1 - era * 400
  let mp := if 2 < m then m - 3 else m + 9
  let doy := (153 * mp + 2) / 5 + d - 1
  let doe := yoe * 365 + yoe / 4 - yoe / 100 + doy
  era * 146097 + doe - 719468

/-- The year, month and day of a day number counted from 1970-01-01: the day
is located in its cycle of 400 years, then in its century, its cycle of four
years and its year, all counted from the first of March. -/
def civilDeDias (z0 : Int) : Int × Int × Int :=
  let z := z0 + 719468
  let era := z / 146097
  let doe := z % 146097
  let c := min (doe / 36524) 3
  let doc := doe - c * 36524
  let q := doc / 1461
  let doq := doc % 1461
  let a := min (doq / 365) 3
  let doy := doq - a * 365
  let y := era * 400 + c * 100 + q * 4 + a
  let mp := (5 * doy + 2) / 153
  let d := doy - (153 * mp + 2) / 5 + 1
  let m := if mp < 10 then mp + 3 else mp - 9
  (if m ≤ 2 then y + 1 else y, m, d)

/-- Milliseconds in a day. -/
def msPorDia : Int := 86400000

/-- The largest magnitude of a time value. -/
def tempoMaximo : Int := 8640000000000000

/-- TimeClip: a time value out of range becomes `NaN`. -/
def timeClip (t : Int) : Option Int :=
  if -tempoMaximo ≤ t ∧ t ≤ tempoMaximo then some t else none

/-- The character of a decimal digit. -/
def digito (n : Nat) : Char := Char.ofNat (48 + n % 10)

/-- A number written with two digits. -/
def pad2 (n : Nat) : List Char := [digito (n / 10), digito n]

/-- A number written with three digits. -/
def pad3 (n : Nat) : List Char := [digito (n / 100), digito (n / 10), digito n]

/-- A number written with four digits. -/
def pad4 (n : Nat) : List Char :=
  [digito (n / 1000), digito (n / 100), digito (n / 10), digito n]

/-- A number written with six digits. -/
def pad6 (n : Nat) : List Char :=
  [digito (n / 100000), digito (n / 10000), digito (n / 1000), digito (n / 100),
   digito (n / 10), digito n]

/-- The year of an ISO string: four digits from 0 to 9999, otherwise a sign
and six digits. -/
def anoISO (y : Int) : List Char :=
  if 0 ≤ y ∧ y ≤ 9999 then pad4 y.toNat
  else (if y < 0 then '-' else '+') :: pad6 y.natAbs

/-- `Date.prototype.toISOString` of a valid time value:
`YYYY-MM-DDTHH:mm:ss.sssZ`. -/
def toISOString (t : Int) : String :=
  let c := civilDeDias (t / msPorDia)
  let ms := (t % msPorDia).toNat
  ⟨anoISO c.1 ++ '-' :: pad2 c.2.1.toNat ++ '-' :: pad2 c.2.2.toNat ++
    'T' :: pad2 (ms / 3600000) ++ ':' :: pad2 (ms / 60000 % 60) ++
    ':' :: pad2 (ms / 1000 % 60) ++ '.' :: pad3 (ms % 1000) ++ ['Z']⟩

/-- Exactly `n` decimal digits at the start of the text: their value (after
the digits already read, `acc`) and the rest. -/
def lerDigitos : Nat → Nat → List Char → Option (Nat × List Char)
  | 0, acc, cs => some (acc, cs)
  | _ + 1, _, [] => none
  | n + 1, acc, c :: cs =>
    if c.isDigit then lerDigitos n (acc * 10 + (c.toNat - 48)) cs else none

/-- The year of a date string: `YYYY`, `+YYYYYY` or `-YYYYYY` (the year
`-000000` is not allowed). -/
def lerAno : List Char → Option (Int × List Char)
  | [] => none
  | c :: cs =>
    if c = '+' then
      match lerDigitos 6 0 cs with
      | some (y, r) => some ((y : Int), r)
      | none => none
    else if c = '-' then
      match lerDigitos 6 0 cs with
      | some (y, r) => if y = 0 then none else some (-(y : Int), r)
      | none => none
    else
      match lerDigitos 4 0 (c :: cs) with
      | some (y, r) => some ((y : Int), r)
      | none => none

/-- The optional `-MM` and `-DD` of a date string; a missing part is `1`. -/
def lerMesDia : List Char → Option (Nat × Nat × List Char)
  | [] => some (1, 1, [])
  | c :: cs =>
    if c = '-' then
      match lerDigitos 2 0 cs with
      | some (mo, []) => some (mo, 1, [])
      | some (mo, c2 :: r) =>
        if c2 = '-' then
          match lerDigitos 2 0 r with
          | some (d, r2) => some (mo, d, r2)
          | none => none
        else some (mo, 1, c2 :: r)
      | none => none
    else some (1, 1, c :: cs)

/-- The optional `:ss` and `.sss` of a time: the milliseconds they add. -/
def lerSegundos : List Char → Option (Nat × List Char)
  | [] => some (0, [])
  | c :: cs =>
    if c = ':' then
      match lerDigitos 2 0 cs with
      | some (s, []) => if s ≤ 59 then some (s * 1000, []) else none
      | some (s, c2 :: r) =>
        if s ≤ 59 then
          if c2 = '.' then
            match lerDigitos 3 0 r with
            | some (f, r2) => some (s * 1000 + f, r2)
            | none => none
          else some (s * 1000, c2 :: r)
        else none
      | none => none
    else some (0, c :: cs)

/-- The time of day `HH:mm`, `HH:mm:ss` or `HH:mm:ss.sss` in milliseconds
(`24:00:00.000` is the end of the day). -/
def lerHora (cs : List Char) : Option (Nat × List Char) :=
  match lerDigitos 2 0 cs with
  | some (h, c :: r) =>
    if c = ':' then
      match lerDigitos 2 0 r with
      | some (mi, r2) =>
        match lerSegundos r2 with
        | some (s, r3) =>
          if (h ≤ 23 ∧ mi ≤ 59) ∨ (h = 24 ∧ mi = 0 ∧ s = 0) then
            some (h * 3600000 + mi * 60000 + s, r3)
          else none
        | none => none
      | none => none
    else none
  | _ => none

/-- The time zone at the end of a date-time: nothing (local time, `some none`),
`Z`, or `+HH:mm` / `-HH:mm` (the offset in minutes); `none` for anything
else. -/
def lerFuso : List Char → Option (Option Int)
  | [] => some none
  | c :: cs =>
    if c = 'Z' then (if cs = [] then some (some 0) else none)
    else if c = '+' ∨ c = '-' then
      match lerDigitos 2 0 cs with
      | some (h, c2 :: r) =>
        if c2 = ':' then
          match lerDigitos 2 0 r with
          | some (mi, []) =>
            if h ≤ 23 ∧ mi ≤ 59 then
              some (some (if c = '-' then -((h * 60 + mi : Nat) : Int) else ((h * 60 + mi : Nat) : Int)))
            else none
          | _ => none
        else none
      | _ => none
    else none

/-- `Date.parse` on the ECMAScript date-time string format, `none` standing
for `NaN`. A date alone is read as UTC; a date-time without a zone is read as
local time, `fuso` being the local offset from UTC in minutes. Text outside
the format (which an engine may hand to a fallback parser of its own) is
unrecognised. -/
def dateParse (fuso : Int) (s : List Char) : Option Int :=
  match lerAno s with
  | none => none
  | some (y, r1) =>
    match lerMesDia r1 with
    | none => none
    | some (mo, d, r2) =>
      if 1 ≤ mo ∧ mo ≤ 12 ∧ 1 ≤ d ∧ d ≤ 31 then
        match r2 with
        | [] => timeClip (diasDesdeCivil y mo d * msPorDia)
        | c :: r3 =>
          if c = 'T' then
            match lerHora r3 with
            | none => none
            | some (ms, r4) =>
              match lerFuso r4 with
              | none => none
              | some z =>
                timeClip (diasDesdeCivil y mo d * msPorDia + ms - (z.getD fuso) * 60000)
          else none
      else none

/-- The integer part of a rational (rounding toward zero). -/
def truncar (q : ℚ) : Int := if q < 0 then -⌊-q⌋ else ⌊q⌋

/-- The time value of `new Date(v)` for a value that is not a `Date`. -/
def novaData (fuso : Int) : JSVal → Option Int
  | .str s => dateParse fuso s.data
  | .num (.fin q) => timeClip (truncar q)
  | .num _ => none
  | .bool b => some (if b then 1 else 0)
  | .null => some 0
  | .undefined => none
  | .date t => t

/-! ## Manutencao (`manutencao.js`) -/

/-- A maintenance record: `data` is `null` (`none`) or a valid date. -/
structure Manutencao where
  data : Option Int
  tipo : String
  custo : JSNum
  descricao : String
  deriving DecidableEq

/-- The expression `String(x || '').trim()`. -/
def textoOuVazio (x : Texto) : String :=
  jsTrim (if x.truthy then x.paraString else "")

/-- The constructor `new Manutencao(d, t, c, desc)`: a `Date` argument is
kept, another truthy value goes through `new Date(d)`, and an invalid date
becomes `null`. -/
def Manutencao.criar (fuso : Int) (d : JSVal) (t : Texto) (c : JSVal) (desc : Texto) :
    Manutencao where
  data :=
    match d with
    | .date x => x
    | v => if v.truthy then novaData fuso v else none
  tipo := textoOuVazio t
  custo := (parseFloat c).ouZero
  descricao := textoOuVazio desc

/-- The method `validar()`. -/
def Manutencao.validar (m : Manutencao) : Bool :=
  m.data.isSome && decide (m.tipo ≠ "") && m.custo.naoNegativo

/-- The plain object that `Manutencao.toJSON` returns. -/
structure RegistroManutencao where
  data : JSVal
  tipo : Texto
  custo : JSVal
  descricao : Texto
  deriving DecidableEq

/-- The method `Manutencao.toJSON()`: `null` (`none`) when there is no date. -/
def Manutencao.toJSON (m : Manutencao) : Option RegistroManutencao :=
  match m.data with
  | none => none
  | some t =>
    some { data := .str (toISOString t), tipo := .texto m.tipo, custo := .num m.custo,
           descricao := .texto m.descricao }

/-- The sort key of the comparator of `adicionarManutencao`:
`x.data?.getTime() || 0`. -/
def Manutencao.chave (m : Manutencao) : Int := m.data.getD 0

/-! ## Vehicles (`carro.js`, `carroesportivo.js`, `caminhao.js`) -/

/-- The class of a vehicle with the fields its class adds. -/
inductive Variante where
  | carroBase
  | carroEsportivo (turboAtivado : Bool)
  | caminhao (capacidadeCarga : Int) (cargaAtual : Int)
  deriving DecidableEq

/-- A vehicle object. `ano` is `null` or a number; `dataVencimentoCNH` is
`null` (`none`) or a valid date. -/
structure Veiculo where
  id : String
  modelo : String
  cor : String
  imagemSrc : String
  placa : String
  ano : JSVal
  dataVencimentoCNH : Option Int
  ligado : Bool
  velocidade : Int
  historicoManutencao : List Manutencao
  variante : Variante
  deriving DecidableEq

/-- The field `tipoVeiculo` (`this.constructor.name`). -/
def Veiculo.tipoVeiculo (v : Veiculo) : String :=
  match v.variante with
  | .carroBase => "CarroBase"
  | .carroEsportivo _ => "CarroEsportivo"
  | .caminhao _ _ => "Caminhao"

/-- A default parameter value: used when the argument is `undefined`. -/
def Texto.padrao (x : Texto) (d : String) : Texto :=
  match x with
  | .indefinido => .texto d
  | y => y

/-- The value of `parseInt` as a number. -/
def numeroDe : Option Int → JSVal
  | some n => .int n
  | none => .num .nan

/-- The treatment of the CNH expiry date in the constructor of `CarroBase`: a
valid `Date` is kept; a non-blank string gets `T00:00:00Z` appended and is
parsed; anything else is `null`. -/
def lerCNH (fuso : Int) : JSVal → Option Int
  | .date (some t) => some t
  | .str s => if jsTrim s ≠ "" then dateParse fuso (s.data ++ "T00:00:00Z".data) else none
  | _ => none

/-- The constructor of `CarroBase`, run for the class `variante`; `none` when
it throws (`id` or `modelo` missing). -/
def construir (fuso : Int) (variante : Variante) (id modelo cor imagemSrc placa : Texto)
    (ano cnh : JSVal) : Option Veiculo :=
  if !id.truthy || !modelo.truthy then none
  else
    some
      { id := id.paraString
        modelo := modelo.paraString
        cor := (cor.padrao "").paraString
        imagemSrc :=
          if (imagemSrc.padrao "default_car.png").truthy then
            (imagemSrc.padrao "default_car.png").paraString
          else "default_car.png"
        placa := jsToUpperCase (placa.padrao "").paraString
        ano := if ano.truthy then numeroDe (parseInt ano) else .null
        dataVencimentoCNH := lerCNH fuso cnh
        ligado := false
        velocidade := 0
        historicoManutencao := []
        variante := variante }

/-- The expression `img || d` of the subclass constructors. -/
def Texto.ou (x : Texto) (d : String) : Texto :=
  if x.truthy then x else .texto d

/-- The constructor `new CarroBase(...)`. -/
def CarroBase.novo (fuso : Int) (id modelo cor imagemSrc placa : Texto) (ano cnh : JSVal) :
    Option Veiculo :=
  construir fuso .carroBase id modelo cor imagemSrc placa ano cnh

/-- The constructor `new CarroEsportivo(...)`. -/
def CarroEsportivo.novo (fuso : Int) (id modelo cor img placa : Texto) (ano cnh : JSVal) :
    Option Veiculo :=
  construir fuso (.carroEsportivo false) id modelo cor (img.ou "default_sport.png") placa ano cnh

/-- The constructor `new Caminhao(...)`: `capacidadeCarga` is
`parseInt(capCarga) || 0`, with `capCarga = 0` when it is not given. -/
def Caminhao.novo (fuso : Int) (id modelo cor img placa : Texto) (ano cnh capCarga : JSVal) :
    Option Veiculo :=
  construir fuso
    (.caminhao ((parseInt (if capCarga = .undefined then .int 0 else capCarga)).getD 0) 0)
    id modelo cor (img.ou "default_truck.png") placa ano cnh

/-- What a method does besides changing the vehicle: a notice shown to the
user (`notificarUsuario`) or a refresh of the interface
(`atualizarInformacoesUI`). -/
inductive Evento where
  | aviso (mensagem : String)
  | ui (origemAcao : String)
  deriving DecidableEq

/-- The outcome of a method call: the vehicle afterwards, the value returned
and the events raised. -/
structure Saida (α : Type) where
  veiculo : Veiculo
  retorno : α
  eventos : List Evento

/-- The method `ligar()`. -/
def Veiculo.ligar (v : Veiculo) : Saida Unit :=
  if !v.ligado then ⟨{ v with ligado := true }, (), [.ui "Ligou"]⟩
  else ⟨v, (), [.aviso "O carro já está ligado."]⟩

/-- The method `desligar()`. -/
def Veiculo.desligar (v : Veiculo) : Saida Unit :=
  if v.ligado then
    if v.velocidade = 0 then ⟨{ v with ligado := false }, (), [.ui "Desligou"]⟩
    else ⟨v, (), [.aviso "Pare o carro antes de desligar!"]⟩
  else ⟨v, (), [.aviso "O carro já está desligado."]⟩

/-- The speed increment of `Caminhao.acelerar`:
`Math.max(1, Math.round(8 * fatorCarga))` with
`fatorCarga = 1 - cargaAtual / (capacidadeCarga * 1.5 || 1)`. -/
def Caminhao.incremento (capacidadeCarga cargaAtual : Int) : Int :=
  let divisor : ℚ := if (capacidadeCarga : ℚ) * (3 / 2) = 0 then 1 else (capacidadeCarga : ℚ) * (3 / 2)
  let fatorCarga : ℚ := 1 - (cargaAtual : ℚ) / divisor
  max 1 (arredondar (8 * fatorCarga))

/-- The method `acelerar()`, as overridden by each class. -/
def Veiculo.acelerar (v : Veiculo) : Saida Unit :=
  match v.variante with
  | .carroBase =>
    if v.ligado then ⟨{ v with velocidade := min (v.velocidade + 10) 180 }, (), [.ui "Acelerou"]⟩
    else ⟨v, (), [.aviso "Ligue o carro para acelerar!"]⟩
  | .carroEsportivo turboAtivado =>
    if v.ligado then
      ⟨{ v with velocidade := min (v.velocidade + (if turboAtivado then 25 else 15)) 250 }, (),
        [.ui "Acelerou"]⟩
    else ⟨v, (), [.aviso "Ligue o carro para acelerar!"]⟩
  | .caminhao capacidadeCarga cargaAtual =>
    if v.ligado then
      ⟨{ v with velocidade := min (v.velocidade + Caminhao.incremento capacidadeCarga cargaAtual) 140 },
        (), [.ui "Acelerou"]⟩
    else ⟨v, (), [.aviso "Ligue o caminhão para acelerar!"]⟩

/-- The method `frear()`. -/
def Veiculo.frear (v : Veiculo) : Saida Unit :=
  if 0 < v.velocidade then ⟨{ v with velocidade := max 0 (v.velocidade - 15) }, (), [.ui "Freou"]⟩
  else ⟨v, (), []⟩

/-- The method `buzinar()`. -/
def Veiculo.buzinar (v : Veiculo) : Saida Unit :=
  ⟨v, (), [.aviso (v.modelo ++ " buzinou! (som não implementado)")]⟩

/-- The method `ativarTurbo()` of `CarroEsportivo`; the other classes have no
such method, the call throws and changes nothing. -/
def Veiculo.ativarTurbo (v : Veiculo) : Saida Unit :=
  match v.variante with
  | .carroEsportivo turboAtivado =>
    if v.ligado then ⟨{ v with variante := .carroEsportivo (!turboAtivado) }, (), [.ui "Turbo"]⟩
    else ⟨v, (), [.aviso "Ligue o carro para ativar o turbo!"]⟩
  | _ => ⟨v, (), []⟩

/-- The text of an integer. -/
def textoDeInt (n : Int) : String := toString n

/-- The method `carregar(peso)` of `Caminhao`; the other classes have no such
method, the call throws and changes nothing. -/
def Veiculo.carregar (v : Veiculo) (peso : JSVal) : Saida Unit :=
  match v.variante with
  | .caminhao capacidadeCarga cargaAtual =>
    match parseInt peso with
    | none => ⟨v, (), [.aviso "Peso inválido para carregar. Use um número positivo."]⟩
    | some numPeso =>
      if numPeso ≤ 0 then
        ⟨v, (), [.aviso "Peso inválido para carregar. Use um número positivo."]⟩
      else if cargaAtual + numPeso ≤ capacidadeCarga then
        ⟨{ v with variante := .caminhao capacidadeCarga (cargaAtual + numPeso) }, (),
          [.ui "Carregou"]⟩
      else
        ⟨v, (), [.aviso ("Não pode carregar " ++ textoDeInt numPeso ++ "kg. Capacidade (" ++
          textoDeInt capacidadeCarga ++ "kg) excedida!")]⟩
  | _ => ⟨v, (), []⟩

/-- The argument of `adicionarManutencao`: an instance of `Manutencao` or any
other value. -/
inductive Argumento where
  | outro (v : JSVal)
  | manutencao (m : Manutencao)
  deriving DecidableEq

/-- The order the comparator of `adicionarManutencao` sorts by: the key of `a`
is not below the key of `b` (`a` is not older than `b`). -/
def naoMaisAntiga (a b : Manutencao) : Prop := b.chave ≤ a.chave

instance : DecidableRel naoMaisAntiga :=
  fun a b => inferInstanceAs (Decidable (b.chave ≤ a.chave))

instance : IsTotal Manutencao naoMaisAntiga :=
  ⟨fun a b => le_total b.chave a.chave⟩

instance : IsTrans Manutencao naoMaisAntiga :=
  ⟨fun _ _ _ hab hbc => le_trans hbc hab⟩

/-- The sort of `adicionarManutencao`: `Array.prototype.sort` is stable, and
the comparator `(b.data?.getTime() || 0) - (a.data?.getTime() || 0)` puts the
larger key first. -/
def ordenarHistorico (h : List Manutencao) : List Manutencao :=
  h.insertionSort naoMaisAntiga

/-- The test `typeof salvarGaragem === 'function' && salvarGaragem()`:
`salvarGaragem` is `none` when no such global function exists, otherwise the
truth of what it returns. -/
def salvou (salvarGaragem : Option Bool) : Bool := salvarGaragem.getD false

/-- The method `adicionarManutencao(manutencao)`. -/
def Veiculo.adicionarManutencao (v : Veiculo) (salvarGaragem : Option Bool) (a : Argumento) :
    Saida Bool :=
  match a with
  | .manutencao m =>
    if m.validar then
      if salvou salvarGaragem then
        ⟨{ v with historicoManutencao := ordenarHistorico (v.historicoManutencao ++ [m]) }, true,
          [.ui "Manutenção Adicionada"]⟩
      else
        ⟨{ v with historicoManutencao := (ordenarHistorico (v.historicoManutencao ++ [m])).dropLast },
          false, [.aviso "Erro ao salvar a garagem após adicionar manutenção. Alteração desfeita."]⟩
    else ⟨v, false, [.aviso "Dados de manutenção inválidos."]⟩
  | .outro _ => ⟨v, false, [.aviso "Dados de manutenção inválidos."]⟩

/-- The method `limparHistoricoManutencao()`. -/
def Veiculo.limparHistoricoManutencao (v : Veiculo) (salvarGaragem : Option Bool) : Saida Unit :=
  if salvou salvarGaragem then ⟨{ v with historicoManutencao := [] }, (), [.ui "Histórico Limpo"]⟩
  else
    ⟨{ v with historicoManutencao := [] }, (),
      [.aviso "Erro ao salvar a garagem após limpar histórico. Tente recarregar a página."]⟩

/-- The calls a user can make on a vehicle to drive it. -/
inductive Operacao where
  | ligar
  | desligar
  | acelerar
  | frear
  | buzinar
  | ativarTurbo
  | carregar (peso : JSVal)
  deriving DecidableEq

/-- The vehicle after one call. -/
def Veiculo.executar (v : Veiculo) : Operacao → Veiculo
  | .ligar => v.ligar.veiculo
  | .desligar => v.desligar.veiculo
  | .acelerar => v.acelerar.veiculo
  | .frear => v.frear.veiculo
  | .buzinar => v.buzinar.veiculo
  | .ativarTurbo => v.ativarTurbo.veiculo
  | .carregar peso => (v.carregar peso).veiculo

/-- The vehicle after a sequence of calls. -/
def Veiculo.executarTodas (v : Veiculo) (ops : List Operacao) : Veiculo :=
  ops.foldl Veiculo.executar v

/-! ## Stored records (`toJSON` and `carregarGaragem`) -/

/-- A vehicle record: the plain object that `toJSON` returns (with `id`) and
the stored document that `carregarGaragem` reads (with `_id`). A field that
is absent is `undefined` or `none`. -/
structure Registro where
  _id : Texto
  id : Texto
  modelo : Texto
  cor : Texto
  imagemSrc : Texto
  placa : Texto
  ano : JSVal
  dataVencimentoCNH : JSVal
  ligado : Option Bool
  velocidade : Option Int
  historicoManutencao : Option (List RegistroManutencao)
  tipoVeiculo : Texto
  turboAtivado : Option Bool
  capacidadeCarga : JSVal
  cargaAtual : Option Int
  deriving DecidableEq

/-- The method `toJSON()` of a vehicle. -/
def Veiculo.toJSON (v : Veiculo) : Registro where
  _id := .indefinido
  id := .texto v.id
  modelo := .texto v.modelo
  cor := .texto v.cor
  imagemSrc := .texto v.imagemSrc
  placa := .texto v.placa
  ano := v.ano
  dataVencimentoCNH :=
    match v.dataVencimentoCNH with
    | some t => .str (toISOString t)
    | none => .null
  ligado := some v.ligado
  velocidade := some v.velocidade
  historicoManutencao := some (v.historicoManutencao.filterMap Manutencao.toJSON)
  tipoVeiculo := .texto v.tipoVeiculo
  turboAtivado :=
    match v.variante with
    | .carroEsportivo turboAtivado => some turboAtivado
    | _ => none
  capacidadeCarga :=
    match v.variante with
    | .caminhao capacidadeCarga _ => .int capacidadeCarga
    | _ => .undefined
  cargaAtual :=
    match v.variante with
    | .caminhao _ cargaAtual => some cargaAtual
    | _ => none

/-- The record as stored: its `id` is the `_id` of the document. -/
def Registro.armazenado (d : Registro) : Registro :=
  { d with _id := d.id }

/-- The assignment `veiculoInstance.turboAtivado = x`. -/
def Veiculo.comTurbo (v : Veiculo) (x : Bool) : Veiculo :=
  match v.variante with
  | .carroEsportivo _ => { v with variante := .carroEsportivo x }
  | _ => v

/-- The assignment `veiculoInstance.cargaAtual = x`. -/
def Veiculo.comCarga (v : Veiculo) (x : Int) : Veiculo :=
  match v.variante with
  | .caminhao capacidadeCarga _ => { v with variante := .caminhao capacidadeCarga x }
  | _ => v

/-- The body of the loop of `carregarGaragem` for one stored document: the
vehicle put into the garage under `d._id`, or `none` when the document is
skipped. -/
def reconstruir (fuso : Int) (d : Registro) : Option Veiculo :=
  if !d._id.truthy || !d.modelo.truthy || !d.tipoVeiculo.truthy then none
  else
    let histRecriado :=
      (d.historicoManutencao.getD []).map
        (fun m => Manutencao.criar fuso m.data m.tipo m.custo m.descricao)
    let veiculoInstance :=
      if d.tipoVeiculo = .texto "CarroEsportivo" then
        (CarroEsportivo.novo fuso d._id d.modelo d.cor d.imagemSrc d.placa d.ano
          d.dataVencimentoCNH).map (fun v => v.comTurbo (d.turboAtivado.getD false))
      else if d.tipoVeiculo = .texto "Caminhao" then
        (Caminhao.novo fuso d._id d.modelo d.cor d.imagemSrc d.placa d.ano d.dataVencimentoCNH
          (if d.capacidadeCarga.truthy then d.capacidadeCarga else .int 0)).map
          (fun v => v.comCarga (d.cargaAtual.getD 0))
      else CarroBase.novo fuso d._id d.modelo d.cor d.imagemSrc d.placa d.ano d.dataVencimentoCNH
    veiculoInstance.map (fun v => { v with historicoManutencao := histRecriado })

/-! ## Predicates used to state the properties -/

/-- A vehicle that is off stands still. -/
def Veiculo.desligadoParado (v : Veiculo) : Prop :=
  v.ligado = false → v.velocidade = 0

/-- The load of a truck is not negative and not above its capacity, or zero
when the capacity is negative; other vehicles carry no load. -/
def Veiculo.cargaOk (v : Veiculo) : Prop :=
  match v.variante with
  | .caminhao capacidadeCarga cargaAtual => 0 ≤ cargaAtual ∧ cargaAtual ≤ max capacidadeCarga 0
  | _ => True

/-- The load of a truck is between zero and its capacity; other vehicles
carry no load. -/
def Veiculo.cargaDentroDaCapacidade (v : Veiculo) : Prop :=
  match v.variante with
  | .caminhao capacidadeCarga cargaAtual => 0 ≤ cargaAtual ∧ cargaAtual ≤ capacidadeCarga
  | _ => True

/-- The capacity of a truck. -/
def Veiculo.capacidadeCarga (v : Veiculo) : Option Int :=
  match v.variante with
  | .caminhao capacidadeCarga _ => some capacidadeCarga
  | _ => none

/-- The load of a truck. -/
def Veiculo.cargaAtual (v : Veiculo) : Option Int :=
  match v.variante with
  | .caminhao _ cargaAtual => some cargaAtual
  | _ => none

/-- A truck as `new Caminhao("v1", "Scania", "", undefined, "", undefined,
undefined, capCarga)` builds it, with the given capacity. -/
def caminhaoExemplo (capacidadeCarga : Int) : Veiculo where
  id := "v1"
  modelo := "Scania"
  cor := ""
  imagemSrc := "default_truck.png"
  placa := ""
  ano := .null
  dataVencimentoCNH := none
  ligado := false
  velocidade := 0
  historicoManutencao := []
  variante := .caminhao capacidadeCarga 0

/-- A car as `new CarroBase("v2", "Fusca")` builds it. -/
def carroExemplo : Veiculo where
  id := "v2"
  modelo := "Fusca"
  cor := ""
  imagemSrc := "default_car.png"
  placa := ""
  ano := .null
  dataVencimentoCNH := none
  ligado := false
  velocidade := 0
  historicoManutencao := []
  variante := .carroBase

/-- A maintenance record dated 1970-01-02 (day 1). -/
def manutencaoDia1 : Manutencao where
  data := some 86400000
  tipo := "Troca de óleo"
  custo := .fin 0
  descricao := ""

/-- A maintenance record dated 1970-01-03 (day 2). -/
def manutencaoDia2 : Manutencao where
  data := some 172800000
  tipo := "Revisão"
  custo := .fin 150
  descricao := ""

/-- A maintenance record with an empty `tipo`, as
`new Manutencao("1970-01-02", "", 0)` builds it. -/
def manutencaoSemTipo : Manutencao where
  data := some 86400000
  tipo := ""
  custo := .fin 0
  descricao := ""

/-- Whether a value is a number greater than zero. -/
def JSVal.numeroPositivo : JSVal → Bool
  | .num (.fin q) => decide (0 < q)
  | .num .pinf => true
  | _ => false

/-- A maintenance record as `adicionarManutencao` accepts it and the
constructor builds it: it passes `validar()`, its date is within the range of
time values, and its texts are trimmed. -/
def Manutencao.bemFormada (m : Manutencao) : Bool :=
  m.validar &&
  (match m.data with
   | some t => decide (-tempoMaximo ≤ t ∧ t ≤ tempoMaximo)
   | none => false) &&
  decide (jsTrim m.tipo = m.tipo) && decide (jsTrim m.descricao = m.descricao)

/-- A year as the constructor stores it from a year number: `null`, or an
integer other than zero that is written without an exponent. -/
def anoBemFormado : JSVal → Bool
  | .null => true
  | .num (.fin q) => decide (q.den = 1 ∧ q.num ≠ 0 ∧ -10 ^ 21 < q.num ∧ q.num < 10 ^ 21)
  | _ => false

/-- The capacity of a truck is written without an exponent. -/
def varianteBemFormada : Variante → Bool
  | .caminhao capacidadeCarga _ => decide (-10 ^ 21 < capacidadeCarga ∧ capacidadeCarga < 10 ^ 21)
  | _ => true

/-- A valid vehicle: `id`, `modelo` and `imagemSrc` are not empty, the plate
is in upper case, the year is `null` or a non-zero integer, the records of the
history are well formed and the numbers are written without an exponent. -/
def Veiculo.bemFormado (v : Veiculo) : Bool :=
  decide (v.id ≠ "") && decide (v.modelo ≠ "") && decide (v.imagemSrc ≠ "") &&
  decide (jsToUpperCase v.placa = v.placa) && anoBemFormado v.ano &&
  v.historicoManutencao.all Manutencao.bemFormada && varianteBemFormada v.variante

/-- A truck that is on, at speed 30, carrying 40 of 100, with a plate, a year
and two maintenance records. -/
def caminhaoEmUso : Veiculo where
  id := "v1"
  modelo := "Scania"
  cor := "azul"
  imagemSrc := "default_truck.png"
  placa := "ABC1D23"
  ano := .int 2020
  dataVencimentoCNH := none
  ligado := true
  velocidade := 30
  historicoManutencao := [manutencaoDia2, manutencaoDia1]
  variante := .caminhao 100 40

/-- A car whose CNH expires on 2025-01-01, as
`new CarroBase("v2", "Fusca", undefined, undefined, undefined, undefined,
"2025-01-01")` builds it. -/
def carroComCNH : Veiculo :=
  { carroExemplo with dataVencimentoCNH := some 1735689600000 }

/-- A textual argument that is empty or missing: `undefined`, `null` or the
empty string. -/
def Texto.vazioOuAusente (x : Texto) : Prop :=
  x = .indefinido ∨ x = .nulo ∨ x = .texto ""

/-- A maintenance record with a negative cost, as
`new Manutencao("1970-01-02", "Troca de óleo", -5)` builds it. -/
def manutencaoCustoNegativo : Manutencao where
  data := some 86400000
  tipo := "Troca de óleo"
  custo := .fin (-5)
  descricao := ""

/-! ## The CNH status and a stored truck record -/

/-- The CNH status shown by `atualizarInformacoesUI`. -/
inductive StatusCNH where
  | semData
  | vencida
  | venceBreve (diffDays : Int)
  | emDia
  deriving DecidableEq

/-- The call `d.setHours(0, 0, 0, 0)`: midnight, in local time, of the local
day of the instant `t`; `fuso` is the local offset from UTC in minutes. -/
def meiaNoiteLocal (fuso t : Int) : Int :=
  (t + fuso * 60000) / msPorDia * msPorDia - fuso * 60000

/-- `Math.ceil(x / d)` for integers, `d` positive. -/
def tetoDiv (x d : Int) : Int := -((-x) / d)

/-- The CNH block of `atualizarInformacoesUI`: the status of the expiry date
`cnh` at the instant `agora`. -/
def statusCNH (fuso agora : Int) (cnh : Option Int) : StatusCNH :=
  match cnh with
  | none => .semData
  | some t =>
    let hoje := meiaNoiteLocal fuso agora
    let vencimento := meiaNoiteLocal fuso t
    if vencimento < hoje then .vencida
    else
      let diffDays := tetoDiv (vencimento - hoje) msPorDia
      if diffDays ≤ 30 then .venceBreve diffDays else .emDia

/-- The local calendar day (counted from 1970-01-01) of the instant `t`. -/
def diaLocal (fuso t : Int) : Int := (t + fuso * 60000) / msPorDia

/-- A stored truck record with a negative capacity and a load of 150. -/
def registroCapacidadeNegativa : Registro where
  _id := .texto "v1"
  id := .indefinido
  modelo := .texto "Scania"
  cor := .texto ""
  imagemSrc := .texto "default_truck.png"
  placa := .texto ""
  ano := .null
  dataVencimentoCNH := .null
  ligado := none
  velocidade := none
  historicoManutencao := some []
  tipoVeiculo := .texto "Caminhao"
  turboAtivado := none
  capacidadeCarga := .int (-100)
  cargaAtual := some 150

/-! ## The garage and the page (`garagem.js`) -/

/-- The object `garagem`: the vehicles under their keys, in the order in which
the keys were created. -/
abbrev Colecao := List (String × Veiculo)

/-- The lookup `garagem[id]` (`none` for `undefined`). -/
def Colecao.obter (g : Colecao) (id : String) : Option Veiculo :=
  match g with
  | [] => none
  | (k, v) :: r => if k = id then some v else Colecao.obter r id

/-- The assignment `garagem[id] = v`: an existing key keeps its place. -/
def Colecao.atribuir (g : Colecao) (id : String) (v : Veiculo) : Colecao :=
  match g with
  | [] => [(id, v)]
  | (k, w) :: r => if k = id then (k, v) :: r else (k, w) :: Colecao.atribuir r id v

/-- The statement `delete garagem[id]`. -/
def Colecao.remover (g : Colecao) (id : String) : Colecao :=
  g.filter (fun p => decide (p.1 ≠ id))

/-- The value of a key that is an array index: a decimal numeral without
leading zeros, at most `2^32 - 2`. -/
def indiceDe (k : String) : Option Nat :=
  match k.data with
  | [] => none
  | c :: cs =>
    if (c :: cs).all Char.isDigit ∧ (c ≠ '0' ∨ cs = []) then
      if valorDe 10 ((c :: cs).map (fun x => x.toNat - 48)) ≤ 4294967294 then
        some (valorDe 10 ((c :: cs).map (fun x => x.toNat - 48)))
      else none
    else none

/-- `Object.keys(garagem)`: the keys that are array indices in ascending
order, then the other keys in the order of their creation. -/
def Colecao.chaves (g : Colecao) : List String :=
  (((g.map Prod.fst).filter (fun k => (indiceDe k).isSome)).insertionSort
      (fun a b => (indiceDe a).getD 0 ≤ (indiceDe b).getD 0)) ++
    (g.map Prod.fst).filter (fun k => (indiceDe k).isNone)

/-- The loop of `carregarGaragem` over the stored documents, starting from an
empty garage: a document that is not skipped is stored under its `_id`. -/
def carregarVeiculos (fuso : Int) (ds : List Registro) : Colecao :=
  ds.foldl
    (fun g d =>
      match reconstruir fuso d with
      | some v => g.atribuir d._id.paraString v
      | none => g)
    []

/-- The part of the page that the selection depends on: the garage, the
display area (`none` when the element is missing, otherwise its
`dataset.veiculoId`, `none` when unset) and whether the vehicle template
exists. The menu and its buttons are not part of it: `atualizarMenuVeiculos`
and `marcarBotaoAtivo`, which touch nothing else, leave it as it is. -/
structure Pagina where
  garagem : Colecao
  displayArea : Option (Option String)
  temTemplate : Bool
  deriving DecidableEq

/-- The active vehicle: `displayArea.dataset.veiculoId`. -/
def Pagina.veiculoId (p : Pagina) : Option String :=
  match p.displayArea with
  | some veiculoId => veiculoId
  | none => none

/-- How a run of statements ends: `ok` with the page it leaves, or `error`
when an exception was thrown, with the page as it was at that point. -/
abbrev Execucao := Except Pagina Pagina

/-- A call of a global function that no script of the repository defines: it
throws a `ReferenceError`, and the statements after it are not run. -/
def chamadaIndefinida (p : Pagina) : Execucao := .error p

/-- The call `handleTrocarAba(aba)`: the function is defined in no file. -/
def handleTrocarAba (p : Pagina) : Execucao := chamadaIndefinida p

/-- The call `atualizarExibicaoAgendamentosFuturos()`: the function is defined
in no file. -/
def atualizarExibicaoAgendamentosFuturos (p : Pagina) : Execucao := chamadaIndefinida p

/-- The call `verificarVencimentoCNH()`: the function is defined in no file. -/
def verificarVencimentoCNH (p : Pagina) : Execucao := chamadaIndefinida p

/-- The call `verificarAgendamentosProximos()`: the function is defined in no
file. -/
def verificarAgendamentosProximos (p : Pagina) : Execucao := chamadaIndefinida p

/-- The statement `try { ... } catch (e) { alert(...) }` around a run: the
page afterwards, whether or not an exception was thrown. -/
def capturar : Execucao → Pagina
  | .ok p => p
  | .error p => p

/-- The function `renderizarVeiculo(veiculoId)`. -/
def renderizarVeiculo (p : Pagina) (veiculoId : String) : Pagina :=
  match p.garagem.obter veiculoId, p.displayArea with
  | some _, some _ => if p.temTemplate then { p with displayArea := some (some veiculoId) } else p
  | _, _ => p

/-- The function `limparAreaDisplay`. -/
def limparAreaDisplay (p : Pagina) : Pagina :=
  match p.displayArea with
  | some _ => { p with displayArea := some none }
  | none => p

/-- The function `atualizarInterfaceCompleta`: the three calls after
`atualizarMenuVeiculos()` come before the selection is looked at. -/
def atualizarInterfaceCompleta (p : Pagina) : Execucao := do
  let p ← atualizarExibicaoAgendamentosFuturos p
  let p ← verificarVencimentoCNH p
  let p ← verificarAgendamentosProximos p
  match p.garagem.chaves with
  | [] => pure (limparAreaDisplay p)
  | primeiroId :: _ =>
    match p.veiculoId with
    | some idVeiculoAtual =>
      if idVeiculoAtual ≠ "" ∧ (p.garagem.obter idVeiculoAtual).isSome then
        pure (renderizarVeiculo p idVeiculoAtual)
      else if primeiroId ≠ "" then pure (renderizarVeiculo p primeiroId)
      else pure (limparAreaDisplay p)
    | none =>
      if primeiroId ≠ "" then pure (renderizarVeiculo p primeiroId)
      else pure (limparAreaDisplay p)

/-- The function `handleExcluirVeiculo(veiculoId)`: `confirmou` is the answer
to `confirm`, `respostaOk` whether the server answered the `DELETE` with
success. The deletion and the refresh of the interface are inside the `try`
of the handler. -/
def handleExcluirVeiculo (p : Pagina) (veiculoId : String) (confirmou respostaOk : Bool) :
    Pagina :=
  match p.garagem.obter veiculoId with
  | none => p
  | some _ =>
    if confirmou then
      if respostaOk then
        capturar (atualizarInterfaceCompleta { p with garagem := p.garagem.remover veiculoId })
      else p
    else p

/-- The values read from the form of a new vehicle. -/
structure Formulario where
  modelo : String
  cor : String
  placa : String
  ano : String
  tipo : String
  capacidadeCarga : String
  cnh : String
  imagem : Option String

/-- The text of a natural number. -/
def textoDeNat (n : Nat) : String := toString n

/-- The function `handleAdicionarVeiculo`, with the image already read:
`agora` is `Date.now()`, and `resposta` is the `_id` of the saved document
when the server answered the `POST` with success, `none` otherwise. After the
vehicle is stored, `handleTrocarAba('tab-garagem')` is called before
`marcarBotaoAtivo` and `renderizarVeiculo`, all inside the `try` of the
handler. -/
def handleAdicionarVeiculo (fuso : Int) (p : Pagina) (f : Formulario) (agora : Nat)
    (resposta : Option String) : Pagina :=
  if jsTrim f.modelo = "" ∨ f.tipo = "" then p
  else
    let nId := Texto.texto ("v" ++ textoDeNat agora)
    let mod := Texto.texto (jsTrim f.modelo)
    let cor := Texto.texto (jsTrim f.cor)
    let plc := Texto.texto (jsToUpperCase (jsTrim f.placa))
    let img : Texto := match f.imagem with
      | some s => .texto s
      | none => .nulo
    let cnh : JSVal := if f.cnh ≠ "" then .str f.cnh else .null
    let nV :=
      if f.tipo = "CarroEsportivo" then
        CarroEsportivo.novo fuso nId mod cor img plc (.str f.ano) cnh
      else if f.tipo = "Caminhao" then
        Caminhao.novo fuso nId mod cor img plc (.str f.ano) cnh (.str f.capacidadeCarga)
      else CarroBase.novo fuso nId mod cor img plc (.str f.ano) cnh
    match nV, resposta with
    | some v, some idSalvo =>
      capturar (do
        let q ← handleTrocarAba { p with garagem := p.garagem.atribuir idSalvo v }
        pure (renderizarVeiculo q idSalvo))
    | _, _ => p

/-- A stored car record with an `_id` and a `modelo` and no `tipoVeiculo`. -/
def registroSemEtiqueta : Registro where
  _id := .texto "v9"
  id := .indefinido
  modelo := .texto "Gol"
  cor := .texto "prata"
  imagemSrc := .indefinido
  placa := .texto "ABC1D23"
  ano := .int 2015
  dataVencimentoCNH := .null
  ligado := none
  velocidade := none
  historicoManutencao := some []
  tipoVeiculo := .indefinido
  turboAtivado := none
  capacidadeCarga := .undefined
  cargaAtual := none

/-- The form of a new vehicle filled with the model `Fusca` and the type
`CarroBase`, the other fields left empty and no image chosen. -/
def formularioFusca : Formulario where
  modelo := "Fusca"
  cor := ""
  placa := ""
  ano := ""
  tipo := "CarroBase"
  capacidadeCarga := ""
  cnh := ""
  imagem := none

/-- A page with an empty garage and nothing selected. -/
def paginaVazia : Pagina where
  garagem := []
  displayArea := some none
  temTemplate := true

/-- A page with two vehicles, the first of which, `v1`, is the active one. -/
def paginaDoisVeiculos : Pagina where
  garagem := [("v1", caminhaoExemplo 100), ("v2", carroExemplo)]
  displayArea := some (some "v1")
  temTemplate := true

/-! ## The server (`server.js`, `middleware/auth.js`) -/

/-- A signed token, abstractly: the `user.id` of its payload, the secret it
was signed with and the time (in seconds) at which it expires. A signature is
taken to verify exactly under the secret that made it. -/
structure Token where
  userId : String
  segredo : String
  expira : Int
  deriving DecidableEq

/-- The call `jwt.sign({ user: { id } }, segredo, { expiresIn: '1h' })` at the
time `agora` (in seconds). -/
def jwtSign (userId segredo : String) (agora : Int) : Token :=
  { userId := userId, segredo := segredo, expira := agora + 3600 }

/-- The call `jwt.verify(token, segredo)`: the `user.id` of the payload, or
`none` when it throws (no secret given, another secret, or an expired
token). -/
def jwtVerify (t : Token) (segredo : Option String) (agora : Int) : Option String :=
  match segredo with
  | none => none
  | some s => if s ≠ "" ∧ t.segredo = s ∧ agora < t.expira then some t.userId else none

/-- The token that `POST /api/auth/login` issues on success: it is signed
with `process.env.JWT_SECRET || 'SEU_SEGREDO_SUPER_SECRETO'`. -/
def loginToken (jwtSecret : Option String) (userId : String) (agora : Int) : Token :=
  jwtSign userId
    (match jwtSecret with
     | some s => if s ≠ "" then s else "SEU_SEGREDO_SUPER_SECRETO"
     | none => "SEU_SEGREDO_SUPER_SECRETO")
    agora

/-- The `Authorization` header of a request: missing, `Bearer` followed by a
token, or anything else. -/
inductive Autorizacao where
  | ausente
  | bearer (t : Token)
  | outro (texto : String)
  deriving DecidableEq

/-- The middleware of `middleware/auth.js`: `req.user.id` when the request
goes on to the route, `none` when it is answered with 401. The token is
verified with `process.env.JWT_SECRET`. -/
def authMiddleware (jwtSecret : Option String) (h : Autorizacao) (agora : Int) : Option String :=
  match h with
  | .bearer t => jwtVerify t jwtSecret agora
  | _ => none

/-- A document of the vehicle store; `owner` is the text of the owner's
ObjectId. -/
structure Documento where
  _id : String
  owner : String
  registro : Registro
  deriving DecidableEq

/-- The `owner` field of a request body, as the schema casts it: missing, a
value that does not cast to an ObjectId, or the ObjectId it casts to. -/
inductive CampoOwner where
  | ausente
  | invalido
  | objectId (hex : String)
  deriving DecidableEq

/-- The body of a request: the vehicle fields (taken to be of the types of
the schema) and the `owner` field. -/
structure Corpo where
  registro : Registro
  owner : CampoOwner
  deriving DecidableEq

/-- The lookup `VeiculoGaragem.findById(id)`. -/
def findById (store : List Documento) (id : String) : Option Documento :=
  store.find? (fun d => decide (d._id = id))

/-- The route `POST /api/garagem/veiculos` for the caller `usuario`
(`req.user.id`): the store afterwards and the status of the answer. The
document is built from the body with `_id` and `owner` set after it; saving
fails when a required field is empty or the `_id` is taken. -/
def postVeiculo (store : List Documento) (usuario : String) (corpo : Corpo) :
    List Documento × Nat :=
  if corpo.registro.id.truthy ∧ corpo.registro.modelo.truthy ∧
      corpo.registro.tipoVeiculo.truthy ∧
      (findById store corpo.registro.id.paraString).isNone then
    (store ++ [{ _id := corpo.registro.id.paraString, owner := usuario,
                 registro := corpo.registro }], 201)
  else (store, 500)

/-- The update `findByIdAndUpdate(id, req.body)` on one document: every field
that the body has replaces the stored one, `owner` included. -/
def atualizarDocumento (d : Documento) (corpo : Corpo) : Documento :=
  { d with
    owner := match corpo.owner with
      | .objectId hex => hex
      | _ => d.owner
    registro :=
      { d.registro with
        modelo := if corpo.registro.modelo = .indefinido then d.registro.modelo
          else corpo.registro.modelo
        cor := if corpo.registro.cor = .indefinido then d.registro.cor else corpo.registro.cor
        imagemSrc := if corpo.registro.imagemSrc = .indefinido then d.registro.imagemSrc
          else corpo.registro.imagemSrc
        placa := if corpo.registro.placa = .indefinido then d.registro.placa
          else corpo.registro.placa
        ano := if corpo.registro.ano = .undefined then d.registro.ano else corpo.registro.ano
        dataVencimentoCNH := if corpo.registro.dataVencimentoCNH = .undefined then
          d.registro.dataVencimentoCNH else corpo.registro.dataVencimentoCNH
        historicoManutencao := match corpo.registro.historicoManutencao with
          | some h => some h
          | none => d.registro.historicoManutencao
        tipoVeiculo := if corpo.registro.tipoVeiculo = .indefinido then d.registro.tipoVeiculo
          else corpo.registro.tipoVeiculo
        turboAtivado := match corpo.registro.turboAtivado with
          | some t => some t
          | none => d.registro.turboAtivado
        capacidadeCarga := if corpo.registro.capacidadeCarga = .undefined then
          d.registro.capacidadeCarga else corpo.registro.capacidadeCarga
        cargaAtual := match corpo.registro.cargaAtual with
          | some c => some c
          | none => d.registro.cargaAtual } }

/-- The route `PUT /api/garagem/veiculos/:id` for the caller `usuario`: the
update throws, and the answer is 500, when the `owner` of the body does not
cast or a required text of the body is empty. -/
def putVeiculo (store : List Documento) (usuario id : String) (corpo : Corpo) :
    List Documento × Nat :=
  match findById store id with
  | none => (store, 404)
  | some veiculo =>
    if veiculo.owner ≠ usuario then (store, 401)
    else if corpo.owner = .invalido ∨
        (corpo.registro.modelo ≠ .indefinido ∧ corpo.registro.modelo.truthy = false) ∨
        (corpo.registro.tipoVeiculo ≠ .indefinido ∧ corpo.registro.tipoVeiculo.truthy = false) then
      (store, 500)
    else (store.map (fun d => if d._id = id then atualizarDocumento d corpo else d), 200)

/-- The route `DELETE /api/garagem/veiculos/:id` for the caller `usuario`. -/
def deleteVeiculo (store : List Documento) (usuario id : String) : List Documento × Nat :=
  match findById store id with
  | none => (store, 404)
  | some veiculo =>
    if veiculo.owner ≠ usuario then (store, 401)
    else (store.filter (fun d => decide (d._id ≠ id)), 200)

/-- The stored document of the truck `v1`, owned by the account
`64b7f0c2a1d3e4f5a6b7c8d9`. -/
def documentoExemplo : Documento where
  _id := "v1"
  owner := "64b7f0c2a1d3e4f5a6b7c8d9"
  registro := (caminhaoExemplo 100).toJSON.armazenado

/-- A request body that holds nothing but
`owner: "64b7f0c2a1d3e4f5a6b7c8da"`, the id of another account. -/
def corpoTrocaDono : Corpo where
  registro :=
    { _id := .indefinido, id := .indefinido, modelo := .indefinido, cor := .indefinido,
      imagemSrc := .indefinido, placa := .indefinido, ano := .undefined,
      dataVencimentoCNH := .undefined, ligado := none, velocidade := none,
      historicoManutencao := none, tipoVeiculo := .indefinido, turboAtivado := none,
      capacidadeCarga := .undefined, cargaAtual := none }
  owner := .objectId "64b7f0c2a1d3e4f5a6b7c8da"

/-- A page whose only vehicle, `v2`, is the active one. -/
def paginaUmVeiculo : Pagina where
  garagem := [("v2", carroExemplo)]
  displayArea := some (some "v2")
  temTemplate := true

/-! ## Numbers with overflow: `Infinity` and `NaN` in the driving operations

The definitions above keep the numbers of a vehicle exact. The ones below
follow the same methods with the special values of a JavaScript number: a
result too large for a double is `Infinity`, and `NaN` spreads through the
arithmetic. Inside the range a result is still exact (rounding to 53 bits and
the sign of zero are not modelled). Only the vehicle after a call is kept
here; the notices and refreshes are those of the definitions above. -/

/-- The least magnitude that is `Infinity` as a Number value:
`2^1024 - 2^970`, half a step above the largest double. -/
def limiteInfinito : ℚ := 2 ^ 1024 - 2 ^ 970

/-- The Number value of an exact result: `Infinity` or `-Infinity` when it is
out of the range of a double. -/
def JSNum.deExato (q : ℚ) : JSNum :=
  if limiteInfinito ≤ q then .pinf else if q ≤ -limiteInfinito then .ninf else .fin q

/-- The expression `-x`. -/
def JSNum.oposto : JSNum → JSNum
  | .nan => .nan
  | .fin q => .fin (-q)
  | .pinf => .ninf
  | .ninf => .pinf

/-- The expression `x + y`. -/
def JSNum.mais (x y : JSNum) : JSNum :=
  match x, y with
  | .fin a, .fin b => .deExato (a + b)
  | .fin _, .pinf => .pinf
  | .fin _, .ninf => .ninf
  | .pinf, .fin _ => .pinf
  | .pinf, .pinf => .pinf
  | .ninf, .fin _ => .ninf
  | .ninf, .ninf => .ninf
  | _, _ => .nan

/-- The expression `x - y`. -/
def JSNum.menos (x y : JSNum) : JSNum := x.mais y.oposto

/-- The expression `x * y`. -/
def JSNum.vezes (x y : JSNum) : JSNum :=
  match x, y with
  | .fin a, .fin b => .deExato (a * b)
  | .fin a, .pinf => if a = 0 then .nan else if 0 < a then .pinf else .ninf
  | .fin a, .ninf => if a = 0 then .nan else if 0 < a then .ninf else .pinf
  | .pinf, .fin b => if b = 0 then .nan else if 0 < b then .pinf else .ninf
  | .ninf, .fin b => if b = 0 then .nan else if 0 < b then .ninf else .pinf
  | .pinf, .pinf => .pinf
  | .pinf, .ninf => .ninf
  | .ninf, .pinf => .ninf
  | .ninf, .ninf => .pinf
  | _, _ => .nan

/-- The expression `x / y` (a zero divisor is taken as `+0`). -/
def JSNum.dividido (x y : JSNum) : JSNum :=
  match x, y with
  | .fin a, .fin b =>
    if b = 0 then (if a = 0 then .nan else if 0 < a then .pinf else .ninf)
    else .deExato (a / b)
  | .fin _, .pinf => .fin 0
  | .fin _, .ninf => .fin 0
  | .pinf, .fin b => if 0 ≤ b then .pinf else .ninf
  | .ninf, .fin b => if 0 ≤ b then .ninf else .pinf
  | _, _ => .nan

/-- The expression `x || y` on numbers: `y` when `x` is `NaN` or zero. -/
def JSNum.ou (x y : JSNum) : JSNum :=
  if (JSVal.num x).truthy then x else y

/-- `Math.round(x)`. -/
def JSNum.arredondado : JSNum → JSNum
  | .fin q => .fin (arredondar q)
  | x => x

/-- `Math.max(x, y)`. -/
def JSNum.maximo (x y : JSNum) : JSNum :=
  match x, y with
  | .fin a, .fin b => .fin (max a b)
  | .fin a, .ninf => .fin a
  | .ninf, .fin b => .fin b
  | .ninf, .ninf => .ninf
  | .fin _, .pinf => .pinf
  | .pinf, .fin _ => .pinf
  | .pinf, .pinf => .pinf
  | .pinf, .ninf => .pinf
  | .ninf, .pinf => .pinf
  | _, _ => .nan

/-- `Math.min(x, y)`. -/
def JSNum.minimo (x y : JSNum) : JSNum :=
  match x, y with
  | .fin a, .fin b => .fin (min a b)
  | .fin a, .pinf => .fin a
  | .pinf, .fin b => .fin b
  | .pinf, .pinf => .pinf
  | .fin _, .ninf => .ninf
  | .ninf, .fin _ => .ninf
  | .ninf, .ninf => .ninf
  | .pinf, .ninf => .ninf
  | .ninf, .pinf => .ninf
  | _, _ => .nan

/-- The comparison `x <= y`: false when either side is `NaN`. -/
def JSNum.menorOuIgual (x y : JSNum) : Bool :=
  match x, y with
  | .fin a, .fin b => decide (a ≤ b)
  | .fin _, .pinf => true
  | .ninf, .fin _ => true
  | .ninf, .pinf => true
  | .ninf, .ninf => true
  | .pinf, .pinf => true
  | _, _ => false

/-- The comparison `x < y`: false when either side is `NaN`. -/
def JSNum.menor (x y : JSNum) : Bool :=
  match x, y with
  | .fin a, .fin b => decide (a < b)
  | .fin _, .pinf => true
  | .ninf, .fin _ => true
  | .ninf, .pinf => true
  | _, _ => false

/-- The comparison `x === y` on numbers: `NaN` is not equal to itself. -/
def JSNum.igual (x y : JSNum) : Bool :=
  match x, y with
  | .fin a, .fin b => decide (a = b)
  | .pinf, .pinf => true
  | .ninf, .ninf => true
  | _, _ => false

namespace Duplo

/-- `parseInt(v)` as a Number value: the integer that is read, `Infinity` or
`-Infinity` when it is out of the range of a double, `NaN` when no digit is
read. -/
def parseInt (v : JSVal) : JSNum :=
  match Garagem.parseInt v with
  | some n => .deExato n
  | none => .nan

/-- The class of a vehicle with the fields its class adds. -/
inductive Variante where
  | carroBase
  | carroEsportivo (turboAtivado : Bool)
  | caminhao (capacidadeCarga : JSNum) (cargaAtual : JSNum)
  deriving DecidableEq

/-- A vehicle object. `ano` is `null` or a number; `dataVencimentoCNH` is
`null` (`none`) or a valid date. -/
structure Veiculo where
  id : String
  modelo : String
  cor : String
  imagemSrc : String
  placa : String
  ano : JSVal
  dataVencimentoCNH : Option Int
  ligado : Bool
  velocidade : JSNum
  historicoManutencao : List Manutencao
  variante : Variante
  deriving DecidableEq

/-- The maximum speed of the class of the vehicle. -/
def Veiculo.velocidadeMaxima (v : Veiculo) : ℚ :=
  match v.variante with
  | .carroBase => 180
  | .carroEsportivo _ => 250
  | .caminhao _ _ => 140

/-- The constructor of `CarroBase`, run for the class `variante`; `none` when
it throws (`id` or `modelo` missing). -/
def construir (fuso : Int) (variante : Variante) (id modelo cor imagemSrc placa : Texto)
    (ano cnh : JSVal) : Option Veiculo :=
  if !id.truthy || !modelo.truthy then none
  else
    some
      { id := id.paraString
        modelo := modelo.paraString
        cor := (cor.padrao "").paraString
        imagemSrc :=
          if (imagemSrc.padrao "default_car.png").truthy then
            (imagemSrc.padrao "default_car.png").paraString
          else "default_car.png"
        placa := jsToUpperCase (placa.padrao "").paraString
        ano := if ano.truthy then .num (parseInt ano) else .null
        dataVencimentoCNH := lerCNH fuso cnh
        ligado := false
        velocidade := .fin 0
        historicoManutencao := []
        variante := variante }

/-- The constructor `new CarroBase(...)`. -/
def CarroBase.novo (fuso : Int) (id modelo cor imagemSrc placa : Texto) (ano cnh : JSVal) :
    Option Veiculo :=
  construir fuso .carroBase id modelo cor imagemSrc placa ano cnh

/-- The constructor `new CarroEsportivo(...)`. -/
def CarroEsportivo.novo (fuso : Int) (id modelo cor img placa : Texto) (ano cnh : JSVal) :
    Option Veiculo :=
  construir fuso (.carroEsportivo false) id modelo cor (img.ou "default_sport.png") placa ano cnh

/-- The constructor `new Caminhao(...)`: `capacidadeCarga` is
`parseInt(capCarga) || 0`, with `capCarga = 0` when it is not given. -/
def Caminhao.novo (fuso : Int) (id modelo cor img placa : Texto) (ano cnh capCarga : JSVal) :
    Option Veiculo :=
  construir fuso
    (.caminhao ((parseInt (if capCarga = .undefined then .int 0 else capCarga)).ou (.fin 0))
      (.fin 0))
    id modelo cor (img.ou "default_truck.png") placa ano cnh

/-- The method `ligar()`. -/
def Veiculo.ligar (v : Veiculo) : Veiculo :=
  if !v.ligado then { v with ligado := true } else v

/-- The method `desligar()`. -/
def Veiculo.desligar (v : Veiculo) : Veiculo :=
  if v.ligado then
    if v.velocidade.igual (.fin 0) then { v with ligado := false } else v
  else v

/-- The load factor of `Caminhao.acelerar`:
`1 - (cargaAtual / (capacidadeCarga * 1.5 || 1))`. -/
def Caminhao.fatorCarga (capacidadeCarga cargaAtual : JSNum) : JSNum :=
  (JSNum.fin 1).menos (cargaAtual.dividido ((capacidadeCarga.vezes (.fin (3 / 2))).ou (.fin 1)))

/-- The speed increment of `Caminhao.acelerar`:
`Math.max(1, Math.round(8 * fatorCarga))`. -/
def Caminhao.incremento (capacidadeCarga cargaAtual : JSNum) : JSNum :=
  (JSNum.fin 1).maximo
    ((JSNum.fin 8).vezes (Caminhao.fatorCarga capacidadeCarga cargaAtual)).arredondado

/-- The method `acelerar()`, as overridden by each class. -/
def Veiculo.acelerar (v : Veiculo) : Veiculo :=
  match v.variante with
  | .carroBase =>
    if v.ligado then { v with velocidade := (v.velocidade.mais (.fin 10)).minimo (.fin 180) }
    else v
  | .carroEsportivo turboAtivado =>
    if v.ligado then
      { v with
        velocidade :=
          (v.velocidade.mais (.fin (if turboAtivado then 25 else 15))).minimo (.fin 250) }
    else v
  | .caminhao capacidadeCarga cargaAtual =>
    if v.ligado then
      { v with
        velocidade :=
          (v.velocidade.mais (Caminhao.incremento capacidadeCarga cargaAtual)).minimo
            (.fin 140) }
    else v

/-- The method `frear()`. -/
def Veiculo.frear (v : Veiculo) : Veiculo :=
  if (JSNum.fin 0).menor v.velocidade then
    { v with velocidade := (JSNum.fin 0).maximo (v.velocidade.menos (.fin 15)) }
  else v

/-- The method `buzinar()`. -/
def Veiculo.buzinar (v : Veiculo) : Veiculo := v

/-- The method `ativarTurbo()` of `CarroEsportivo`; the other classes have no
such method, the call throws and changes nothing. -/
def Veiculo.ativarTurbo (v : Veiculo) : Veiculo :=
  match v.variante with
  | .carroEsportivo turboAtivado =>
    if v.ligado then { v with variante := .carroEsportivo (!turboAtivado) } else v
  | _ => v

/-- The method `carregar(peso)` of `Caminhao`; the other classes have no such
method, the call throws and changes nothing. -/
def Veiculo.carregar (v : Veiculo) (peso : JSVal) : Veiculo :=
  match v.variante with
  | .caminhao capacidadeCarga cargaAtual =>
    if parseInt peso = .nan ∨ (parseInt peso).menorOuIgual (.fin 0) = true then v
    else if (cargaAtual.mais (parseInt peso)).menorOuIgual capacidadeCarga = true then
      { v with variante := .caminhao capacidadeCarga (cargaAtual.mais (parseInt peso)) }
    else v
  | _ => v

/-- The vehicle after one call. -/
def Veiculo.executar (v : Veiculo) : Operacao → Veiculo
  | .ligar => v.ligar
  | .desligar => v.desligar
  | .acelerar => v.acelerar
  | .frear => v.frear
  | .buzinar => v.buzinar
  | .ativarTurbo => v.ativarTurbo
  | .carregar peso => v.carregar peso

/-- The vehicle after a sequence of calls. -/
def Veiculo.executarTodas (v : Veiculo) (ops : List Operacao) : Veiculo :=
  ops.foldl Veiculo.executar v

/-- The load of the vehicle is `Infinity`. -/
def Veiculo.cargaInfinita (v : Veiculo) : Bool :=
  match v.variante with
  | .caminhao _ .pinf => true
  | _ => false

/-- The capacity of a truck. -/
def Veiculo.capacidadeCarga (v : Veiculo) : Option JSNum :=
  match v.variante with
  | .caminhao capacidadeCarga _ => some capacidadeCarga
  | _ => none

/-- The speed is a number within the limits of the class of the vehicle. -/
def Veiculo.velocidadeOk (v : Veiculo) : Prop :=
  ∃ x : ℚ, v.velocidade = .fin x ∧ 0 ≤ x ∧ x ≤ v.velocidadeMaxima

/-- The load of a truck is a number that is not negative, or it is `Infinity`
and so is the capacity; other vehicles carry no load. -/
def Veiculo.cargaOk (v : Veiculo) : Prop :=
  match v.variante with
  | .caminhao capacidadeCarga cargaAtual =>
    (∃ g : ℚ, cargaAtual = .fin g ∧ 0 ≤ g) ∨ (cargaAtual = .pinf ∧ capacidadeCarga = .pinf)
  | _ => True

/-- What every call keeps: the load is as `cargaOk` says, and while it is not
`Infinity` the speed is within the limits. -/
def Veiculo.invariante (v : Veiculo) : Prop :=
  v.cargaOk ∧ (v.cargaInfinita = false → v.velocidadeOk)

/-- The increment of a truck as the specification writes it:
`max(1, round(8 * (1 - cargaAtual / d)))` with `d = 1.5 * capacidadeCarga`,
or `d = 1` when `capacidadeCarga` is 0. -/
def incrementoEspecificado (capacidadeCarga cargaAtual : JSNum) : JSNum :=
  (JSNum.fin 1).maximo
    ((JSNum.fin 8).vezes
      ((JSNum.fin 1).menos
        (cargaAtual.dividido
          (if capacidadeCarga = .fin 0 then .fin 1
           else (JSNum.fin (3 / 2)).vezes capacidadeCarga)))).arredondado

/-- The text of `10^400 - 1`: four hundred digits `9`. -/
def quatrocentosNoves : String := ⟨List.replicate 400 '9'⟩

/-- A truck as `new Caminhao("v1", "Scania", "", undefined, "", undefined,
undefined, capCarga)` builds it, with the given capacity. -/
def caminhaoExemplo (capacidadeCarga : JSNum) : Veiculo where
  id := "v1"
  modelo := "Scania"
  cor := ""
  imagemSrc := "default_truck.png"
  placa := ""
  ano := .null
  dataVencimentoCNH := none
  ligado := false
  velocidade := .fin 0
  historicoManutencao := []
  variante := .caminhao capacidadeCarga (.fin 0)

/-- A truck that is on, at speed 30, carrying 40 of 100. -/
def caminhaoEmUso : Veiculo :=
  { caminhaoExemplo (.fin 100) with
    ligado := true, velocidade := .fin 30, variante := .caminhao (.fin 100) (.fin 40) }

/-- A truck of capacity `Infinity` that is on, standing still, with the load
`Infinity`. -/
def caminhaoSemLimite : Veiculo :=
  { caminhaoExemplo .pinf with ligado := true, variante := .caminhao .pinf .pinf }

end Duplo

end Garagem

/-! # Properties -/

namespace Garagem

/-! ## Invariants of the driving operations -/

/-- A property kept by every call holds after any sequence of calls. -/
theorem executarTodas_preserva (P : Veiculo → Prop)
    (passo : ∀ v op, P v → P (v.executar op)) (ops : List Operacao) :
    ∀ v, P v → P (v.executarTodas ops) := by
  induction ops with
  | nil => intro v hv; simpa [Veiculo.executarTodas] using hv
  | cons op ops ih =>
    intro v hv
    have := ih (v.executar op) (passo v op hv)
    simpa [Veiculo.executarTodas] using this

/-- What a constructor returns: off, standing still, with an empty history
and of the class asked for. -/
theorem construir_some {fuso : Int} {var : Variante} {id modelo cor img placa : Texto}
    {ano cnh : JSVal} {v : Veiculo}
    (h : construir fuso var id modelo cor img placa ano cnh = some v) :
    v.ligado = false ∧ v.velocidade = 0 ∧ v.historicoManutencao = [] ∧ v.variante = var := by
  unfold construir at h
  by_cases hc : (!id.truthy || !modelo.truthy) = true
  · rw [if_pos hc] at h
    cases h
  · rw [if_neg hc] at h
    cases h
    exact ⟨rfl, rfl, rfl, rfl⟩

/-- Any of the three constructors returns a vehicle that is off and standing
still; a truck starts empty. -/
theorem novo_inicial {fuso : Int} {id modelo cor img placa : Texto} {ano cnh capCarga : JSVal}
    {v : Veiculo}
    (h : CarroBase.novo fuso id modelo cor img placa ano cnh = some v ∨
      CarroEsportivo.novo fuso id modelo cor img placa ano cnh = some v ∨
      Caminhao.novo fuso id modelo cor img placa ano cnh capCarga = some v) :
    v.ligado = false ∧ v.velocidade = 0 ∧
      (v.variante = .carroBase ∨ v.variante = .carroEsportivo false ∨
        ∃ cap, v.variante = .caminhao cap 0) := by
  rcases h with h | h | h
  · obtain ⟨a, b, _, d⟩ := construir_some h
    exact ⟨a, b, Or.inl d⟩
  · obtain ⟨a, b, _, d⟩ := construir_some h
    exact ⟨a, b, Or.inr (Or.inl d)⟩
  · obtain ⟨a, b, _, d⟩ := construir_some h
    exact ⟨a, b, Or.inr (Or.inr ⟨_, d⟩)⟩

/-- What `carregar` does to the vehicle: nothing, or a positive weight that
fits is added to the load of a truck. -/
theorem carregar_veiculo (v : Veiculo) (peso : JSVal) :
    (v.carregar peso).veiculo = v ∨
      ∃ cap carga n, v.variante = .caminhao cap carga ∧ parseInt peso = some n ∧ 0 < n ∧
        carga + n ≤ cap ∧
        (v.carregar peso).veiculo = { v with variante := .caminhao cap (carga + n) } := by
  unfold Veiculo.carregar
  cases hv : v.variante with
  | carroBase => exact Or.inl rfl
  | carroEsportivo t => exact Or.inl rfl
  | caminhao cap carga =>
    cases hp : parseInt peso with
    | none => exact Or.inl rfl
    | some n =>
      by_cases h1 : n ≤ 0
      · simp only [h1, if_true]; exact Or.inl trivial
      · by_cases h2 : carga + n ≤ cap
        · simp only [h1, h2, if_true, if_false]
          exact Or.inr ⟨cap, carga, n, rfl, rfl, by omega, h2, rfl⟩
        · simp only [h1, h2, if_false]; exact Or.inl trivial

/-- Every call keeps a vehicle that is off standing still. -/
theorem desligadoParado_executar (v : Veiculo) (op : Operacao) (h : v.desligadoParado) :
    (v.executar op).desligadoParado := by
  cases op with
  | carregar peso =>
    rcases carregar_veiculo v peso with e | ⟨cap, carga, n, hv, _, hn, hc, e⟩
    · simpa only [Veiculo.executar, e] using h
    · simpa only [Veiculo.executar, e, Veiculo.desligadoParado] using h
  | _ =>
    rcases v with ⟨id, modelo, cor, img, placa, ano, cnh, ligado, vel, hist, var⟩
    cases var <;> cases ligado <;>
      simp only [Veiculo.executar, Veiculo.ligar, Veiculo.desligar, Veiculo.acelerar,
        Veiculo.frear, Veiculo.buzinar, Veiculo.ativarTurbo, Veiculo.desligadoParado] at h ⊢
    all_goals first
      | exact h
      | (split_ifs <;> dsimp only <;> intro hl <;>
          first
            | exact h hl
            | exact absurd hl (by decide)
            | assumption
            | (have hz := h trivial; omega)
            | contradiction)

/-- Every call keeps the load of a truck within its bounds. -/
theorem cargaOk_executar (v : Veiculo) (op : Operacao) (h : v.cargaOk) :
    (v.executar op).cargaOk := by
  cases op with
  | carregar peso =>
    rcases carregar_veiculo v peso with e | ⟨cap, carga, n, hv, _, hn, hc, e⟩
    · simpa only [Veiculo.executar, e] using h
    · simp only [Veiculo.executar, e, Veiculo.cargaOk]
      simp only [Veiculo.cargaOk, hv] at h
      omega
  | _ =>
    rcases v with ⟨id, modelo, cor, img, placa, ano, cnh, ligado, vel, hist, var⟩
    cases var <;> cases ligado <;>
      simp only [Veiculo.executar, Veiculo.ligar, Veiculo.desligar, Veiculo.acelerar,
        Veiculo.frear, Veiculo.buzinar, Veiculo.ativarTurbo, Veiculo.cargaOk] at h ⊢
    all_goals first
      | exact h
      | trivial
      | (split_ifs <;> exact h)

/-- No call changes the capacity of a vehicle. -/
theorem capacidadeCarga_executar (v : Veiculo) (op : Operacao) :
    (v.executar op).capacidadeCarga = v.capacidadeCarga := by
  cases op with
  | carregar peso =>
    rcases carregar_veiculo v peso with e | ⟨cap, carga, n, hv, _, hn, hc, e⟩
    · simp only [Veiculo.executar, e]
    · simp only [Veiculo.executar, e, Veiculo.capacidadeCarga, hv]
  | _ =>
    rcases v with ⟨id, modelo, cor, img, placa, ano, cnh, ligado, vel, hist, var⟩
    cases var <;> cases ligado <;>
      simp only [Veiculo.executar, Veiculo.ligar, Veiculo.desligar, Veiculo.acelerar,
        Veiculo.frear, Veiculo.buzinar, Veiculo.ativarTurbo, Veiculo.capacidadeCarga]
    all_goals first
      | rfl
      | (split_ifs <;> rfl)

/-- C2, as stated, fails: `new Caminhao("v1", "Scania", "", undefined, "",
undefined, undefined, "-100")` has `capacidadeCarga = -100` and
`cargaAtual = 0`, so the load is above the capacity before any call. -/
theorem carga_dentro_da_capacidade_contraexemplo :
    Caminhao.novo 0 (.texto "v1") (.texto "Scania") (.texto "") .indefinido (.texto "")
        .undefined .undefined (.str "-100") = some (caminhaoExemplo (-100)) ∧
      (caminhaoExemplo (-100)).capacidadeCarga = some (-100) ∧
      (caminhaoExemplo (-100)).cargaAtual = some 0 ∧
      ¬ (caminhaoExemplo (-100)).cargaDentroDaCapacidade := by
  refine ⟨by decide, rfl, rfl, ?_⟩
  simp only [Veiculo.cargaDentroDaCapacidade, caminhaoExemplo]
  omega

/-- C2, amended. Whatever capacity argument the constructor of `Caminhao` was
given, and after any sequence of calls, `capacidadeCarga` is still
`parseInt(capCarga) || 0` and `0 <= cargaAtual <= max(capacidadeCarga, 0)`; so
`cargaAtual <= capacidadeCarga` whenever the capacity is not negative. -/
theorem carga_dentro_da_capacidade_corrigida (fuso : Int) (id modelo cor img placa : Texto)
    (ano cnh capCarga : JSVal) (v : Veiculo)
    (h : Caminhao.novo fuso id modelo cor img placa ano cnh capCarga = some v)
    (ops : List Operacao) :
    ∃ carga : Int,
      (v.executarTodas ops).variante =
        .caminhao ((parseInt (if capCarga = .undefined then .int 0 else capCarga)).getD 0) carga ∧
      0 ≤ carga ∧
      carga ≤ max ((parseInt (if capCarga = .undefined then .int 0 else capCarga)).getD 0) 0 ∧
      (0 ≤ (parseInt (if capCarga = .undefined then .int 0 else capCarga)).getD 0 →
        (v.executarTodas ops).cargaDentroDaCapacidade) := by
  obtain ⟨_, _, _, hvar⟩ := construir_some h
  have hcap : (v.executarTodas ops).capacidadeCarga = v.capacidadeCarga :=
    executarTodas_preserva (fun w => w.capacidadeCarga = v.capacidadeCarga)
      (fun w op hw => (capacidadeCarga_executar w op).trans hw) ops v rfl
  have hok : (v.executarTodas ops).cargaOk :=
    executarTodas_preserva Veiculo.cargaOk cargaOk_executar ops v (by
      simp only [Veiculo.cargaOk, hvar]
      omega)
  simp only [Veiculo.capacidadeCarga, hvar] at hcap
  cases hw : (v.executarTodas ops).variante with
  | carroBase => simp [hw] at hcap
  | carroEsportivo t => simp [hw] at hcap
  | caminhao cap carga =>
    simp only [hw, Option.some.injEq] at hcap
    subst hcap
    simp only [Veiculo.cargaOk, hw] at hok
    refine ⟨carga, rfl, hok.1, hok.2, fun h0 => ?_⟩
    simp only [Veiculo.cargaDentroDaCapacidade, hw]
    omega

/-- C2, amended, at a truck of capacity 100 that is loaded with 60, then
refused another 60 and a weight of -5: it carries 60, within its capacity. -/
theorem carga_dentro_da_capacidade_corrigida_witness :
    Caminhao.novo 0 (.texto "v1") (.texto "Scania") (.texto "") .indefinido (.texto "")
        .undefined .undefined (.str "100") = some (caminhaoExemplo 100) ∧
      ((caminhaoExemplo 100).executarTodas
        [.carregar (.str "60"), .carregar (.str "60"), .carregar (.str "-5")]).cargaAtual =
        some 60 ∧
      ((caminhaoExemplo 100).executarTodas
        [.carregar (.str "60"), .carregar (.str "60"),
          .carregar (.str "-5")]).cargaDentroDaCapacidade :=
  ⟨by decide, by decide,
    Exists.elim
      (carga_dentro_da_capacidade_corrigida 0 (.texto "v1") (.texto "Scania") (.texto "")
        .indefinido (.texto "") .undefined .undefined (.str "100") (caminhaoExemplo 100)
        (by decide) [.carregar (.str "60"), .carregar (.str "60"), .carregar (.str "-5")])
      (fun _ h => h.2.2.2 (by decide))⟩

/-- C3. In every state reached from a newly built vehicle of any class by any
sequence of calls, a vehicle that is off has speed 0; and `desligar` on a
vehicle whose speed is above 0 is refused: the vehicle is on and stays
exactly as it was. -/
theorem desligado_implica_parado (fuso : Int) (id modelo cor img placa : Texto)
    (ano cnh capCarga : JSVal) (v : Veiculo)
    (h : CarroBase.novo fuso id modelo cor img placa ano cnh = some v ∨
      CarroEsportivo.novo fuso id modelo cor img placa ano cnh = some v ∨
      Caminhao.novo fuso id modelo cor img placa ano cnh capCarga = some v)
    (ops : List Operacao) :
    ((v.executarTodas ops).ligado = false → (v.executarTodas ops).velocidade = 0) ∧
      (0 < (v.executarTodas ops).velocidade →
        (v.executarTodas ops).ligado = true ∧
        (v.executarTodas ops).desligar.veiculo = v.executarTodas ops ∧
        (v.executarTodas ops).desligar.eventos = [.aviso "Pare o carro antes de desligar!"]) := by
  obtain ⟨hlig, hvel, _⟩ := novo_inicial h
  have hinv : (v.executarTodas ops).desligadoParado :=
    executarTodas_preserva Veiculo.desligadoParado desligadoParado_executar ops v
      (fun _ => hvel)
  refine ⟨hinv, fun hpos => ?_⟩
  have hon : (v.executarTodas ops).ligado = true := by
    cases hl : (v.executarTodas ops).ligado with
    | true => rfl
    | false => have := hinv hl; omega
  have hne : ¬ (v.executarTodas ops).velocidade = 0 := by omega
  refine ⟨hon, ?_, ?_⟩ <;> simp only [Veiculo.desligar, hon, hne, if_true, if_false]

/-- C3, at the example of the specification: a base car is switched on and
accelerated to speed 10, and then `desligar` is refused; once it has braked to
a stop and is switched off, its speed is 0. -/
theorem desligado_implica_parado_witness :
    (carroExemplo.executarTodas [.ligar, .acelerar]).velocidade = 10 ∧
      ((carroExemplo.executarTodas [.ligar, .acelerar]).ligado = true ∧
        (carroExemplo.executarTodas [.ligar, .acelerar]).desligar.veiculo =
          carroExemplo.executarTodas [.ligar, .acelerar] ∧
        (carroExemplo.executarTodas [.ligar, .acelerar]).desligar.eventos =
          [.aviso "Pare o carro antes de desligar!"]) ∧
      (carroExemplo.executarTodas [.ligar, .acelerar, .frear, .desligar]).ligado = false ∧
      (carroExemplo.executarTodas [.ligar, .acelerar, .frear, .desligar]).velocidade = 0 :=
  ⟨by decide,
    (desligado_implica_parado 0 (.texto "v2") (.texto "Fusca") .indefinido .indefinido
      .indefinido .undefined .undefined .undefined carroExemplo (Or.inl (by decide))
      [.ligar, .acelerar]).2 (by decide),
    by decide,
    (desligado_implica_parado 0 (.texto "v2") (.texto "Fusca") .indefinido .indefinido
      .indefinido .undefined .undefined .undefined carroExemplo (Or.inl (by decide))
      [.ligar, .acelerar, .frear, .desligar]).1 (by decide)⟩

/-! ## Maintenance history -/

/-- The sort of the history returns a rearrangement of it. -/
theorem ordenarHistorico_perm (h : List Manutencao) : (ordenarHistorico h).Perm h :=
  List.perm_insertionSort _ h

/-- The sort of the history puts the records from the most recent to the
oldest. -/
theorem ordenarHistorico_sorted (h : List Manutencao) :
    (ordenarHistorico h).Pairwise naoMaisAntiga :=
  List.sorted_insertionSort naoMaisAntiga h

/-- C6, the defect. With the history `[day 1]` and a failing save, adding a
valid record dated day 2 returns `false` but leaves the history `[day 2]`: the
sort has put the new record first, and `pop` removes the record of day 1. -/
theorem adicionarManutencao_falha_nao_desfaz :
    manutencaoDia2.validar = true ∧
      ({ carroExemplo with historicoManutencao := [manutencaoDia1] }.adicionarManutencao
          (some false) (.manutencao manutencaoDia2)).retorno = false ∧
      ({ carroExemplo with historicoManutencao := [manutencaoDia1] }.adicionarManutencao
          (some false) (.manutencao manutencaoDia2)).veiculo.historicoManutencao =
        [manutencaoDia2] ∧
      ({ carroExemplo with historicoManutencao := [manutencaoDia1] }.adicionarManutencao
          none (.manutencao manutencaoDia2)).veiculo.historicoManutencao =
        [manutencaoDia2] := by
  decide

/-- C7, as stated, fails: with the history `[day 1]` and a failing save,
`limparHistoricoManutencao` leaves the history empty. -/
theorem limparHistorico_contraexemplo :
    ({ carroExemplo with historicoManutencao := [manutencaoDia1] }.limparHistoricoManutencao
        (some false)).veiculo.historicoManutencao = [] ∧
      ({ carroExemplo with historicoManutencao := [manutencaoDia1] }.limparHistoricoManutencao
        none).veiculo.historicoManutencao = [] ∧
      { carroExemplo with historicoManutencao := [manutencaoDia1] }.historicoManutencao ≠ [] := by
  decide

/-- C7, amended. `limparHistoricoManutencao` leaves the history empty and
every other field as it was, whether the save succeeds, fails or is absent;
a save that fails or is absent only raises a notice. -/
theorem limparHistorico_sempre_esvazia (v : Veiculo) (salvarGaragem : Option Bool) :
    (v.limparHistoricoManutencao salvarGaragem).veiculo = { v with historicoManutencao := [] } ∧
      (v.limparHistoricoManutencao salvarGaragem).eventos =
        if salvou salvarGaragem then [.ui "Histórico Limpo"]
        else [.aviso
          "Erro ao salvar a garagem após limpar histórico. Tente recarregar a página."] := by
  unfold Veiculo.limparHistoricoManutencao
  split_ifs <;> exact ⟨rfl, rfl⟩

/-- C8. When the save succeeds, adding a valid record returns `true`, and the
new history is a rearrangement of the old one plus the record, ordered from
the most recent date to the oldest (a record without a date counting as the
epoch, as in the comparator). -/
theorem adicionarManutencao_ordena (v : Veiculo) (salvarGaragem : Option Bool) (m : Manutencao)
    (hm : m.validar = true) (hs : salvou salvarGaragem = true) :
    (v.adicionarManutencao salvarGaragem (.manutencao m)).retorno = true ∧
      ((v.adicionarManutencao salvarGaragem (.manutencao m)).veiculo.historicoManutencao).Perm
        (v.historicoManutencao ++ [m]) ∧
      ((v.adicionarManutencao salvarGaragem (.manutencao m)).veiculo.historicoManutencao).Pairwise
        (fun a b => b.data.getD 0 ≤ a.data.getD 0) ∧
      (v.adicionarManutencao salvarGaragem (.manutencao m)).veiculo =
        { v with historicoManutencao :=
            (v.adicionarManutencao salvarGaragem (.manutencao m)).veiculo.historicoManutencao } := by
  simp only [Veiculo.adicionarManutencao, hm, hs, if_true]
  exact ⟨trivial, ordenarHistorico_perm _, ordenarHistorico_sorted _, trivial⟩

/-- C8, at the example of the specification: the record of day 2 is added,
then the record of day 1, and the history is `[day 2, day 1]`. -/
theorem adicionarManutencao_ordena_witness :
    (carroExemplo.adicionarManutencao (some true) (.manutencao manutencaoDia2)).veiculo.historicoManutencao =
        [manutencaoDia2] ∧
      (({ carroExemplo with historicoManutencao := [manutencaoDia2] }.adicionarManutencao
        (some true) (.manutencao manutencaoDia1)).veiculo.historicoManutencao = [manutencaoDia2, manutencaoDia1]) ∧
      ({ carroExemplo with historicoManutencao := [manutencaoDia2] }.adicionarManutencao
        (some true) (.manutencao manutencaoDia1)).retorno = true :=
  ⟨by decide, by decide,
    (adicionarManutencao_ordena { carroExemplo with historicoManutencao := [manutencaoDia2] }
      (some true) manutencaoDia1 (by decide) (by decide)).1⟩

/-- C9. For an argument that is not a `Manutencao` passing `validar()`,
`adicionarManutencao` returns `false` and leaves the vehicle, its history
included, as it was, whether a save function exists or not. -/
theorem adicionarManutencao_invalida (v : Veiculo) (salvarGaragem : Option Bool) (a : Argumento)
    (h : ∀ m, a = .manutencao m → m.validar = false) :
    (v.adicionarManutencao salvarGaragem a).retorno = false ∧
      (v.adicionarManutencao salvarGaragem a).veiculo = v ∧
      (v.adicionarManutencao salvarGaragem a).eventos = [.aviso "Dados de manutenção inválidos."] := by
  cases a with
  | outro x => exact ⟨rfl, rfl, rfl⟩
  | manutencao m =>
    have hm := h m rfl
    simp only [Veiculo.adicionarManutencao, hm]
    exact ⟨rfl, rfl, rfl⟩

/-- C9, at a record with an empty `tipo` and a save that would succeed. -/
theorem adicionarManutencao_invalida_witness :
    manutencaoSemTipo.validar = false ∧
      ({ carroExemplo with historicoManutencao := [manutencaoDia1] }.adicionarManutencao
        (some true) (.manutencao manutencaoSemTipo)).retorno = false ∧
      ({ carroExemplo with historicoManutencao := [manutencaoDia1] }.adicionarManutencao
        (some true) (.manutencao manutencaoSemTipo)).veiculo.historicoManutencao =
        [manutencaoDia1] :=
  have h := adicionarManutencao_invalida { carroExemplo with historicoManutencao := [manutencaoDia1] }
    (some true) (.manutencao manutencaoSemTipo)
    (fun m hm => by cases hm; decide)
  ⟨by decide, h.1, by rw [h.2.1]⟩

/-! ## Loading a truck -/

/-- `parseInt` of a number that is not greater than zero is `NaN` or not
greater than zero. -/
theorem parseInt_nao_positivo (x : JSNum) (h : (JSVal.num x).numeroPositivo = false) :
    parseInt (.num x) = none ∨ ∃ n, parseInt (.num x) = some n ∧ n ≤ 0 := by
  cases x with
  | nan => exact Or.inl rfl
  | pinf => simp [JSVal.numeroPositivo] at h
  | ninf => exact Or.inl rfl
  | fin q =>
    right
    simp only [JSVal.numeroPositivo, decide_eq_false_iff_not, not_lt] at h
    by_cases hq : q < 0
    · refine ⟨-((parseIntAbs (-q) : Nat) : Int), ?_, by omega⟩
      simp only [parseInt, parseIntNum, hq, if_true]
    · have h0 : q = 0 := le_antisymm h (not_lt.mp hq)
      refine ⟨((parseIntAbs q : Nat) : Int), ?_, ?_⟩
      · simp only [parseInt, parseIntNum, hq, if_false]
      · simp [parseIntAbs, h0]

/-- C10, as stated, fails: the text `5abc` is not a number, yet
`carregar("5abc")` on an empty truck of capacity 100 raises the load to 5. -/
theorem carregar_texto_contraexemplo :
    (JSVal.str "5abc").numeroPositivo = false ∧
      (caminhaoExemplo 100).cargaAtual = some 0 ∧
      ((caminhaoExemplo 100).carregar (.str "5abc")).veiculo.cargaAtual = some 5 ∧
      ((caminhaoExemplo 100).carregar (.str "5abc")).eventos = [.ui "Carregou"] := by
  decide

/-- C10, amended. On a truck, a weight that is a number not greater than zero
(negative, zero, `NaN`), or any value that `parseInt` reads as `NaN` or as an
integer not greater than zero (such as the texts `abc`, `-5`, `0`), leaves
every field of the truck unchanged and raises the notice of an invalid
weight. The method returns nothing, on refusal as on success. -/
theorem carregar_peso_recusado (v : Veiculo) (cap carga : Int)
    (hv : v.variante = .caminhao cap carga) (peso : JSVal)
    (h : (∃ x, peso = .num x ∧ peso.numeroPositivo = false) ∨ parseInt peso = none ∨
      ∃ n, parseInt peso = some n ∧ n ≤ 0) :
    (v.carregar peso).veiculo = v ∧
      (v.carregar peso).eventos =
        [.aviso "Peso inválido para carregar. Use um número positivo."] := by
  have h2 : parseInt peso = none ∨ ∃ n, parseInt peso = some n ∧ n ≤ 0 := by
    rcases h with ⟨x, rfl, hx⟩ | h | h
    · exact parseInt_nao_positivo x hx
    · exact Or.inl h
    · exact Or.inr h
  unfold Veiculo.carregar
  rcases h2 with e | ⟨n, e, hn⟩
  · simp only [hv, e]
    exact ⟨trivial, trivial⟩
  · simp only [hv, e, hn, if_true]
    exact ⟨trivial, trivial⟩

/-- C10, amended, at the weights `-5`, `0` and `"abc"` on a truck of capacity
100 carrying 40. -/
theorem carregar_peso_recusado_witness :
    ({ caminhaoExemplo 100 with variante := .caminhao 100 40 }.carregar (.int (-5))).veiculo =
        { caminhaoExemplo 100 with variante := .caminhao 100 40 } ∧
      ({ caminhaoExemplo 100 with variante := .caminhao 100 40 }.carregar (.int 0)).veiculo =
        { caminhaoExemplo 100 with variante := .caminhao 100 40 } ∧
      ({ caminhaoExemplo 100 with variante := .caminhao 100 40 }.carregar (.str "abc")).veiculo =
        { caminhaoExemplo 100 with variante := .caminhao 100 40 } :=
  ⟨(carregar_peso_recusado { caminhaoExemplo 100 with variante := .caminhao 100 40 } 100 40 rfl
      (.int (-5)) (Or.inl ⟨_, rfl, by simp [JSVal.int, JSVal.numeroPositivo]⟩)).1,
    (carregar_peso_recusado { caminhaoExemplo 100 with variante := .caminhao 100 40 } 100 40 rfl
      (.int 0) (Or.inl ⟨_, rfl, by simp [JSVal.int, JSVal.numeroPositivo]⟩)).1,
    (carregar_peso_recusado { caminhaoExemplo 100 with variante := .caminhao 100 40 } 100 40 rfl
      (.str "abc") (Or.inr (Or.inl (by decide)))).1⟩

/-! ## Dates written and read back -/

/-- The character of a digit is a digit. -/
theorem digito_isDigit (n : Nat) : (digito n).isDigit = true := by
  unfold digito
  have h : n % 10 < 10 := Nat.mod_lt _ (by decide)
  generalize n % 10 = k at h
  interval_cases k <;> decide

/-- The character of a digit has the value of the digit. -/
theorem digito_toNat (n : Nat) : (digito n).toNat - 48 = n % 10 := by
  unfold digito
  have h : n % 10 < 10 := Nat.mod_lt _ (by decide)
  generalize n % 10 = k at h
  interval_cases k <;> decide

/-- The character of a digit is not a plus sign. -/
theorem digito_ne_mais (n : Nat) : ¬ digito n = '+' := by
  unfold digito
  have h : n % 10 < 10 := Nat.mod_lt _ (by decide)
  generalize n % 10 = k at h
  interval_cases k <;> decide

/-- The character of a digit is not a minus sign. -/
theorem digito_ne_menos (n : Nat) : ¬ digito n = '-' := by
  unfold digito
  have h : n % 10 < 10 := Nat.mod_lt _ (by decide)
  generalize n % 10 = k at h
  interval_cases k <;> decide

/-- Two written digits are read back. -/
theorem lerDigitos_pad2 (n : Nat) (h : n < 100) (r : List Char) :
    lerDigitos 2 0 (pad2 n ++ r) = some (n, r) := by
  simp only [pad2, lerDigitos, List.cons_append, List.nil_append, digito_isDigit, digito_toNat, if_true]
  congr 2
  omega

/-- Three written digits are read back. -/
theorem lerDigitos_pad3 (n : Nat) (h : n < 1000) (r : List Char) :
    lerDigitos 3 0 (pad3 n ++ r) = some (n, r) := by
  simp only [pad3, lerDigitos, List.cons_append, List.nil_append, digito_isDigit, digito_toNat, if_true]
  congr 2
  omega

/-- Four written digits are read back. -/
theorem lerDigitos_pad4 (n : Nat) (h : n < 10000) (r : List Char) :
    lerDigitos 4 0 (pad4 n ++ r) = some (n, r) := by
  simp only [pad4, lerDigitos, List.cons_append, List.nil_append, digito_isDigit, digito_toNat, if_true]
  congr 2
  omega

/-- Six written digits are read back. -/
theorem lerDigitos_pad6 (n : Nat) (h : n < 1000000) (r : List Char) :
    lerDigitos 6 0 (pad6 n ++ r) = some (n, r) := by
  simp only [pad6, lerDigitos, List.cons_append, List.nil_append, digito_isDigit, digito_toNat, if_true]
  congr 2
  omega

/-- A written year is read back. -/
theorem lerAno_anoISO (y : Int) (h0 : -999999 ≤ y) (h1 : y ≤ 999999) (r : List Char) :
    lerAno (anoISO y ++ r) = some (y, r) := by
  unfold anoISO
  by_cases hy : 0 ≤ y ∧ y ≤ 9999
  · rw [if_pos hy]
    have e : pad4 y.toNat ++ r = digito (y.toNat / 1000) :: ([digito (y.toNat / 100), digito (y.toNat / 10), digito y.toNat] ++ r) := rfl
    rw [e, lerAno, if_neg (digito_ne_mais _), if_neg (digito_ne_menos _)]
    have e2 : digito (y.toNat / 1000) :: ([digito (y.toNat / 100), digito (y.toNat / 10), digito y.toNat] ++ r) = pad4 y.toNat ++ r := rfl
    rw [e2, lerDigitos_pad4 _ (by omega)]
    simp only [Option.some.injEq, Prod.mk.injEq, and_true]
    omega
  · rw [if_neg hy]
    by_cases hn : y < 0
    · rw [if_pos hn, List.cons_append, lerAno, if_neg (by decide), if_pos rfl,
        lerDigitos_pad6 _ (by omega)]
      simp only
      rw [if_neg (by omega)]
      simp only [Option.some.injEq, Prod.mk.injEq, and_true]
      omega
    · rw [if_neg hn, List.cons_append, lerAno, if_pos rfl, lerDigitos_pad6 _ (by omega)]
      simp only [Option.some.injEq, Prod.mk.injEq, and_true]
      omega

/-- A written month and day are read back. -/
theorem lerMesDia_pad (m d : Nat) (hm : m < 100) (hd : d < 100) (r : List Char) :
    lerMesDia ('-' :: (pad2 m ++ '-' :: (pad2 d ++ r))) = some (m, d, r) := by
  rw [lerMesDia, if_pos rfl, lerDigitos_pad2 _ hm]
  simp only
  rw [if_pos trivial, lerDigitos_pad2 _ hd]

/-- Written seconds and milliseconds are read back. -/
theorem lerSegundos_pad (s f : Nat) (hs : s ≤ 59) (hf : f < 1000) (r : List Char) :
    lerSegundos (':' :: (pad2 s ++ '.' :: (pad3 f ++ r))) = some (s * 1000 + f, r) := by
  rw [lerSegundos, if_pos rfl, lerDigitos_pad2 _ (by omega)]
  simp only
  rw [if_pos hs, if_pos trivial, lerDigitos_pad3 _ hf]

/-- A written time of day is read back. -/
theorem lerHora_pad (h mi s f : Nat) (hh : h ≤ 23) (hmi : mi ≤ 59) (hs : s ≤ 59) (hf : f < 1000)
    (r : List Char) :
    lerHora (pad2 h ++ ':' :: (pad2 mi ++ ':' :: (pad2 s ++ '.' :: (pad3 f ++ r)))) =
      some (h * 3600000 + mi * 60000 + (s * 1000 + f), r) := by
  rw [lerHora, lerDigitos_pad2 _ (by omega)]
  simp only
  rw [if_pos trivial, lerDigitos_pad2 _ (by omega)]
  simp only
  rw [lerSegundos_pad _ _ hs hf]
  simp only
  rw [if_pos (Or.inl ⟨hh, hmi⟩)]

/-- The year, month and day of a day number are a month from 1 to 12 and a day
from 1 to 31 that give the day number back; day numbers within the range of
time values fall in years of at most six digits. -/
theorem civil_volta (z : Int) :
    1 ≤ (civilDeDias z).2.1 ∧ (civilDeDias z).2.1 ≤ 12 ∧ 1 ≤ (civilDeDias z).2.2 ∧
      (civilDeDias z).2.2 ≤ 31 ∧
      diasDesdeCivil (civilDeDias z).1 (civilDeDias z).2.1 (civilDeDias z).2.2 = z ∧
      (-100000000 ≤ z → z ≤ 100000000 →
        -999999 ≤ (civilDeDias z).1 ∧ (civilDeDias z).1 ≤ 999999) := by
  simp only [civilDeDias, diasDesdeCivil]
  generalize hera : (z + 719468) / 146097 = era
  generalize hdoe : (z + 719468) % 146097 = doe
  have h1 : z + 719468 = era * 146097 + doe ∧ 0 ≤ doe ∧ doe ≤ 146096 := by omega
  clear hera hdoe
  generalize hc : min (doe / 36524) 3 = c
  have h2 : 0 ≤ c ∧ c ≤ 3 ∧ 0 ≤ doe - c * 36524 ∧ doe - c * 36524 ≤ 36524 := by omega
  clear hc
  generalize hdoc : doe - c * 36524 = doc at h2 ⊢
  generalize hq : doc / 1461 = q
  generalize hdoq : doc % 1461 = doq
  have h3 : doc = q * 1461 + doq ∧ 0 ≤ doq ∧ doq ≤ 1460 ∧ 0 ≤ q ∧ q ≤ 24 := by omega
  clear hq hdoq
  generalize ha : min (doq / 365) 3 = a
  have h4 : 0 ≤ a ∧ a ≤ 3 ∧ 0 ≤ doq - a * 365 ∧ doq - a * 365 ≤ 365 := by omega
  clear ha
  generalize hdoy : doq - a * 365 = doy at h4 ⊢
  generalize hmp : (5 * doy + 2) / 153 = mp
  have h5 : 0 ≤ mp ∧ mp ≤ 11 := by omega
  generalize hd : (153 * mp + 2) / 5 = dm
  have h6 : 1 ≤ doy - dm + 1 ∧ doy - dm + 1 ≤ 31 := by omega
  have hy : (era * 400 + (c * 100 + q * 4 + a)) / 400 = era ∧
      (c * 100 + q * 4 + a) / 4 = 25 * c + q ∧ (c * 100 + q * 4 + a) / 100 = c := by
    omega
  have e1 : era * 400 + c * 100 + q * 4 + a + 1 - 1 = era * 400 + (c * 100 + q * 4 + a) := by
    ring
  have e2 : era * 400 + c * 100 + q * 4 + a = era * 400 + (c * 100 + q * 4 + a) := by ring
  have e3 : era * 400 + (c * 100 + q * 4 + a) - era * 400 = c * 100 + q * 4 + a := by ring
  split_ifs <;> refine ⟨by omega, by omega, by omega, by omega, ?_, by omega⟩
  all_goals first
    | omega
    | (try simp only [e1]
       simp only [e2, hy.1, e3, hy.2.1, hy.2.2]
       omega)

/-- `Date.parse` reads the ISO string of a valid time value back, in every
time zone. -/
theorem dateParse_toISOString (fuso t : Int) (h0 : -tempoMaximo ≤ t) (h1 : t ≤ tempoMaximo) :
    dateParse fuso (toISOString t).data = some t := by
  unfold tempoMaximo at h0 h1
  obtain ⟨hm1, hm12, hd1, hd31, hvolta, hano⟩ := civil_volta (t / msPorDia)
  have hz : -100000000 ≤ t / msPorDia ∧ t / msPorDia ≤ 100000000 := by
    unfold msPorDia; omega
  obtain ⟨hy0, hy1⟩ := hano hz.1 hz.2
  have hms : 0 ≤ t % msPorDia ∧ t % msPorDia < 86400000 := by
    unfold msPorDia; omega
  generalize hc : civilDeDias (t / msPorDia) = c at *
  obtain ⟨y, m, d⟩ := c
  simp only at hm1 hm12 hd1 hd31 hvolta hy0 hy1
  unfold toISOString dateParse
  simp only [hc, List.append_assoc, List.cons_append, List.nil_append]
  rw [lerAno_anoISO y hy0 hy1]
  simp only
  rw [lerMesDia_pad _ _ (by omega) (by omega)]
  simp only
  rw [if_pos (by omega), if_pos trivial]
  rw [lerHora_pad _ _ _ _ (by omega) (by omega) (by omega) (by omega)]
  have hf : lerFuso ['Z'] = some (some 0) := by decide
  simp only [hf, Option.getD_some]
  have hm : ((m.toNat : Nat) : Int) = m := Int.toNat_of_nonneg (by omega)
  have hd : ((d.toNat : Nat) : Int) = d := Int.toNat_of_nonneg (by omega)
  rw [hm, hd, hvolta]
  unfold timeClip tempoMaximo
  have hv : t / msPorDia * msPorDia +
      (((t % msPorDia).toNat / 3600000 * 3600000 + (t % msPorDia).toNat / 60000 % 60 * 60000 +
        ((t % msPorDia).toNat / 1000 % 60 * 1000 + (t % msPorDia).toNat % 1000) : Nat) : Int) -
      0 * 60000 = t := by
    unfold msPorDia at hms ⊢
    omega
  rw [hv, if_pos ⟨h0, h1⟩]

/-! ## Records written and read back -/

/-- `parseInt` reads a natural number below `1e21` back from its text. -/
theorem parseIntAbs_natCast (k : Nat) (h : k < 10 ^ 21) : parseIntAbs (k : ℚ) = k := by
  unfold parseIntAbs
  by_cases h0 : k = 0
  · subst h0; simp
  · have hk : (1 : ℚ) ≤ (k : ℚ) := by exact_mod_cast Nat.one_le_iff_ne_zero.mpr h0
    have h1 : ¬ (k : ℚ) = 0 := by exact_mod_cast h0
    have h2 : ¬ (k : ℚ) < 1 / 1000000 := by
      intro hlt
      have : (1 : ℚ) / 1000000 < 1 := by norm_num
      linarith
    have h3 : (k : ℚ) < 10 ^ 21 := by exact_mod_cast h
    rw [if_neg h1, if_neg h2, if_pos h3]
    simp

/-- `parseInt` reads an integer between `-1e21` and `1e21` back from its text. -/
theorem parseInt_int (n : Int) (h0 : -10 ^ 21 < n) (h1 : n < 10 ^ 21) :
    parseInt (.int n) = some n := by
  simp only [JSVal.int, parseInt, parseIntNum]
  by_cases hn : n < 0
  · have hq : ((n : ℚ)) < 0 := by exact_mod_cast hn
    rw [if_pos hq]
    have e : -(n : ℚ) = (((-n).toNat : Nat) : ℚ) := by
      rw [← Int.cast_natCast, Int.toNat_of_nonneg (by omega), Int.cast_neg]
    rw [e, parseIntAbs_natCast _ (by omega)]
    congr 1
    omega
  · have hq : ¬ ((n : ℚ)) < 0 := by
      intro hlt
      exact hn (by exact_mod_cast hlt)
    rw [if_neg hq]
    have e : (n : ℚ) = ((n.toNat : Nat) : ℚ) := by
      rw [← Int.cast_natCast, Int.toNat_of_nonneg (by omega)]
    rw [e, parseIntAbs_natCast _ (by omega)]
    congr 1
    omega

/-- On a string, `String(x || '').trim()` is `x.trim()`. -/
theorem textoOuVazio_texto (s : String) : textoOuVazio (.texto s) = jsTrim s := by
  unfold textoOuVazio
  by_cases h : s = ""
  · subst h; rfl
  · simp [Texto.truthy, Texto.paraString, h]

/-- An ISO string is not empty. -/
theorem toISOString_ne_vazio (t : Int) : toISOString t ≠ "" := by
  unfold toISOString
  intro h
  have h2 := congrArg String.data h
  simp at h2

/-- A well-formed maintenance record is serialised, and the constructor rebuilds
it from its serialised fields. -/
theorem criar_toJSON (fuso : Int) (m : Manutencao) (h : m.bemFormada = true) :
    ∃ r, m.toJSON = some r ∧ Manutencao.criar fuso r.data r.tipo r.custo r.descricao = m := by
  rcases m with ⟨data, tipo, custo, descricao⟩
  simp only [Manutencao.bemFormada, Manutencao.validar, Bool.and_eq_true, decide_eq_true_eq] at h
  obtain ⟨⟨⟨⟨⟨_, _⟩, hc⟩, hd⟩, ht⟩, hdesc⟩ := h
  cases data with
  | none => simp at hd
  | some t =>
    simp only [decide_eq_true_eq] at hd
    refine ⟨_, rfl, ?_⟩
    have hcusto : custo.ouZero = custo := by
      cases custo <;> simp_all [JSNum.ouZero, JSNum.naoNegativo]
    simp only [Manutencao.criar, JSVal.truthy, toISOString_ne_vazio, ne_eq, not_false_eq_true,
      decide_True, if_true, novaData, dateParse_toISOString fuso t hd.1 hd.2, textoOuVazio_texto,
      ht, hdesc, parseFloat, hcusto]

/-- A history of well-formed records is rebuilt from its serialisation, in the
same order. -/
theorem historico_volta (fuso : Int) (h : List Manutencao)
    (hh : h.all Manutencao.bemFormada = true) :
    (h.filterMap Manutencao.toJSON).map
      (fun r => Manutencao.criar fuso r.data r.tipo r.custo r.descricao) = h := by
  induction h with
  | nil => rfl
  | cons m l ih =>
    simp only [List.all_cons, Bool.and_eq_true] at hh
    obtain ⟨r, hr, hc⟩ := criar_toJSON fuso m hh.1
    rw [List.filterMap_cons_some hr, List.map_cons, hc, ih hh.2]

/-- The constructor stores a well-formed year unchanged. -/
theorem ano_volta (ano : JSVal) (h : anoBemFormado ano = true) :
    (if ano.truthy then numeroDe (parseInt ano) else .null) = ano := by
  cases ano with
  | null => rfl
  | num x =>
    cases x with
    | fin q =>
      simp only [anoBemFormado, decide_eq_true_eq] at h
      obtain ⟨hden, hnum, h0, h1⟩ := h
      have hq : q = (q.num : ℚ) := (Rat.coe_int_num_of_den_eq_one hden).symm
      have hne : q ≠ 0 := by
        intro hz
        exact hnum (by rw [hz]; rfl)
      have hp := parseInt_int q.num h0 h1
      simp only [JSVal.int] at hp
      rw [← hq] at hp
      simp only [JSVal.truthy, hne, ne_eq, not_false_eq_true, decide_True, if_true, hp, numeroDe,
        JSVal.int]
      rw [← hq]
    | _ => simp [anoBemFormado] at h
  | _ => simp [anoBemFormado] at h

/-- What `carregarGaragem` rebuilds from the record of a valid vehicle: the same
vehicle, switched off and standing still, with the CNH date that the
constructor reads from the serialised one. -/
theorem reconstruir_toJSON (fuso : Int) (v : Veiculo) (hv : v.bemFormado = true) :
    reconstruir fuso v.toJSON.armazenado =
      some { v with
        ligado := false
        velocidade := 0
        dataVencimentoCNH := lerCNH fuso v.toJSON.dataVencimentoCNH } := by
  rcases v with ⟨id, modelo, cor, img, placa, ano, cnh, ligado, vel, hist, var⟩
  simp only [Veiculo.bemFormado, Bool.and_eq_true, decide_eq_true_eq] at hv
  obtain ⟨⟨⟨⟨⟨⟨hid, hmod⟩, himg⟩, hplaca⟩, hano⟩, hhist⟩, hvar⟩ := hv
  have hh := historico_volta fuso hist hhist
  have ha := ano_volta ano hano
  cases var with
  | carroBase =>
    simp [reconstruir, Veiculo.toJSON, Registro.armazenado, Veiculo.tipoVeiculo, Texto.truthy,
      CarroBase.novo, construir, Texto.padrao, Texto.paraString, hid, hmod, himg, hplaca, ha, hh]
  | carroEsportivo t =>
    simp [reconstruir, Veiculo.toJSON, Registro.armazenado, Veiculo.tipoVeiculo, Texto.truthy,
      CarroEsportivo.novo, construir, Texto.padrao, Texto.paraString, Texto.ou, Veiculo.comTurbo,
      hid, hmod, himg, hplaca, ha, hh]
  | caminhao cap carga =>
    simp only [varianteBemFormada, decide_eq_true_eq] at hvar
    have hcap : (parseInt (if (JSVal.int cap).truthy then JSVal.int cap else JSVal.int 0)).getD 0 = cap := by
      by_cases hz : cap = 0
      · subst hz
        simp only [JSVal.int, JSVal.truthy]
        have := parseInt_int 0 (by norm_num) (by norm_num)
        simp only [JSVal.int, Int.cast_zero] at this
        simp [this]
      · have hq : ((cap : ℚ)) ≠ 0 := by exact_mod_cast hz
        simp only [JSVal.int, JSVal.truthy, hq, ne_eq, not_false_eq_true, decide_True, if_true]
        have := parseInt_int cap hvar.1 hvar.2
        simp only [JSVal.int] at this
        simp [this]
    simp [reconstruir, Veiculo.toJSON, Registro.armazenado, Veiculo.tipoVeiculo, Texto.truthy,
      Caminhao.novo, construir, Texto.padrao, Texto.paraString, Texto.ou, Veiculo.comCarga,
      hid, hmod, himg, hplaca, ha, hh]
    have hne : (if (JSVal.int cap).truthy = true then JSVal.int cap else JSVal.int 0) ≠
        JSVal.undefined := by
      split_ifs <;> simp [JSVal.int]
    rw [if_neg hne]
    exact hcap

/-- The constructor reads no CNH date from an ISO string written by
`toISOString`: with `T00:00:00Z` appended the text has two time parts. -/
theorem lerCNH_toISOString (fuso t : Int) (h0 : -tempoMaximo ≤ t) (h1 : t ≤ tempoMaximo) :
    lerCNH fuso (.str (toISOString t)) = none := by
  simp only [lerCNH]
  split_ifs
  · unfold tempoMaximo at h0 h1
    obtain ⟨hm1, hm12, hd1, hd31, _, hano⟩ := civil_volta (t / msPorDia)
    have hz : -100000000 ≤ t / msPorDia ∧ t / msPorDia ≤ 100000000 := by
      unfold msPorDia; omega
    obtain ⟨hy0, hy1⟩ := hano hz.1 hz.2
    have hms : 0 ≤ t % msPorDia ∧ t % msPorDia < 86400000 := by
      unfold msPorDia; omega
    generalize hc : civilDeDias (t / msPorDia) = c at *
    obtain ⟨y, m, d⟩ := c
    simp only at hm1 hm12 hd1 hd31 hy0 hy1
    unfold toISOString dateParse
    simp only [hc, List.append_assoc, List.cons_append, List.nil_append]
    rw [lerAno_anoISO y hy0 hy1]
    simp only
    rw [lerMesDia_pad _ _ (by omega) (by omega)]
    simp only
    rw [if_pos (by omega), if_pos trivial]
    rw [lerHora_pad _ _ _ _ (by omega) (by omega) (by omega) (by omega)]
    have hf : lerFuso ('Z' :: "T00:00:00Z".data) = none := by decide
    simp only [hf]
  · rfl

/-- C5, the defect. A car whose CNH expires on 2025-01-01 serialises the date
as `2025-01-01T00:00:00.000Z`; the constructor, given that string, appends
`T00:00:00Z`, fails to parse the result and stores `null`. The car rebuilt by
`carregarGaragem` has no CNH date. -/
theorem cnh_perdida :
    CarroBase.novo 0 (.texto "v2") (.texto "Fusca") .indefinido .indefinido .indefinido
        .undefined (.str "2025-01-01") = some carroComCNH ∧
      carroComCNH.dataVencimentoCNH = some 1735689600000 ∧
      carroComCNH.toJSON.dataVencimentoCNH = .str "2025-01-01T00:00:00.000Z" ∧
      CarroBase.novo 0 (.texto "v2") (.texto "Fusca") .indefinido .indefinido .indefinido
        .undefined carroComCNH.toJSON.dataVencimentoCNH = some carroExemplo ∧
      carroExemplo.dataVencimentoCNH = none ∧
      reconstruir 0 carroComCNH.toJSON.armazenado = some carroExemplo := by
  decide

/-- C4, as stated, fails: a valid truck that is on at speed 30 is rebuilt from
its record switched off and at speed 0. -/
theorem reconstruir_contraexemplo :
    caminhaoEmUso.bemFormado = true ∧ caminhaoEmUso.ligado = true ∧
      caminhaoEmUso.velocidade = 30 ∧
      reconstruir 0 caminhaoEmUso.toJSON.armazenado =
        some { caminhaoEmUso with ligado := false, velocidade := 0 } := by
  decide!

/-- C4, amended. For every valid vehicle, rebuilding it from its `toJSON()`
record as `carregarGaragem` does gives a vehicle of the same class with the
same `id`, `modelo`, `cor`, `imagemSrc`, `placa`, `ano`, maintenance history
and class fields (`turboAtivado`; `capacidadeCarga` and `cargaAtual`); it is
always off and at speed 0, and a vehicle without a CNH date is rebuilt
without one. -/
theorem reconstruir_toJSON_corrigido (fuso : Int) (v : Veiculo) (hv : v.bemFormado = true) :
    ∃ w, reconstruir fuso v.toJSON.armazenado = some w ∧
      w.tipoVeiculo = v.tipoVeiculo ∧ w.id = v.id ∧ w.modelo = v.modelo ∧ w.cor = v.cor ∧
      w.imagemSrc = v.imagemSrc ∧ w.placa = v.placa ∧ w.ano = v.ano ∧
      w.historicoManutencao = v.historicoManutencao ∧ w.variante = v.variante ∧
      w.ligado = false ∧ w.velocidade = 0 ∧
      (v.dataVencimentoCNH = none → w.dataVencimentoCNH = none) := by
  refine ⟨_, reconstruir_toJSON fuso v hv, rfl, rfl, rfl, rfl, rfl, rfl, rfl, rfl, rfl, rfl, rfl,
    fun h => ?_⟩
  simp only [Veiculo.toJSON, h, lerCNH]

/-- C4, amended, at a truck that is on at speed 30 with a load, a plate, a year
and two maintenance records, in a time zone three hours behind UTC. -/
theorem reconstruir_toJSON_corrigido_witness :
    ∃ w, reconstruir (-180) caminhaoEmUso.toJSON.armazenado = some w ∧
      w.tipoVeiculo = caminhaoEmUso.tipoVeiculo ∧ w.id = caminhaoEmUso.id ∧
      w.modelo = caminhaoEmUso.modelo ∧ w.cor = caminhaoEmUso.cor ∧
      w.imagemSrc = caminhaoEmUso.imagemSrc ∧ w.placa = caminhaoEmUso.placa ∧
      w.ano = caminhaoEmUso.ano ∧
      w.historicoManutencao = caminhaoEmUso.historicoManutencao ∧
      w.variante = caminhaoEmUso.variante ∧ w.ligado = false ∧ w.velocidade = 0 ∧
      (caminhaoEmUso.dataVencimentoCNH = none → w.dataVencimentoCNH = none) :=
  reconstruir_toJSON_corrigido (-180) caminhaoEmUso (by decide!)

/-! ## Acceleration and load by class -/

/-- `parseInt` of a positive number that JavaScript writes without an exponent
(from `1e-6` up to `1e21`) is its integer part. -/
theorem parseInt_positional (q : ℚ) (h0 : 1 / 1000000 ≤ q) (h1 : q < 10 ^ 21) :
    parseInt (.num (.fin q)) = some ⌊q⌋ := by
  have hpos : 0 < q := lt_of_lt_of_le (by norm_num) h0
  have hn : ¬ q < 0 := not_lt.mpr hpos.le
  have hz : ¬ q = 0 := ne_of_gt hpos
  have hs : ¬ q < 1 / 1000000 := not_lt.mpr h0
  simp only [parseInt, parseIntNum, parseIntAbs, if_neg hn, if_neg hz, if_neg hs, if_pos h1]
  congr 1
  exact Int.toNat_of_nonneg (Int.floor_nonneg.mpr hpos.le)

/-- C11, as stated, fails: on an empty truck of capacity 100, `carregar(2.5)`
raises the load by 2 and `carregar(0.5)` is refused although it fits; with a
load of 98, `carregar(2.5)` does not fit and still raises the load to 100. -/
theorem carregar_numero_contraexemplo :
    Caminhao.novo 0 (.texto "v1") (.texto "Scania") (.texto "") .indefinido (.texto "")
        .undefined .undefined (.int 100) = some (caminhaoExemplo 100) ∧
      ((caminhaoExemplo 100).carregar (.num (.fin (5 / 2)))).veiculo.cargaAtual = some 2 ∧
      ((caminhaoExemplo 100).carregar (.num (.fin (1 / 2)))).veiculo.cargaAtual = some 0 ∧
      ({ caminhaoExemplo 100 with variante := .caminhao 100 98 }.carregar
        (.num (.fin (5 / 2)))).veiculo.cargaAtual = some 100 := by
  decide!

/-- C11, amended. On a truck, for a positive number weight `w` from `1e-6` up
to `1e21`, `carregar(w)` works with `n = floor(w)`, the integer that
`parseInt` reads: when `n >= 1` and `cargaAtual + n <= capacidadeCarga` the
load grows by exactly `n`, otherwise the truck is unchanged. For an integer
weight `n` is the weight itself. -/
theorem carregar_numero_positivo (v : Veiculo) (cap carga : Int)
    (hv : v.variante = .caminhao cap carga) (q : ℚ) (h0 : 1 / 1000000 ≤ q) (h1 : q < 10 ^ 21) :
    (v.carregar (.num (.fin q))).veiculo =
      if 1 ≤ ⌊q⌋ ∧ carga + ⌊q⌋ ≤ cap then { v with variante := .caminhao cap (carga + ⌊q⌋) }
      else v := by
  unfold Veiculo.carregar
  simp only [hv, parseInt_positional q h0 h1]
  by_cases hq : ⌊q⌋ ≤ 0
  · rw [if_pos hq, if_neg (by omega)]
  · rw [if_neg hq]
    by_cases hc : carga + ⌊q⌋ ≤ cap
    · rw [if_pos hc, if_pos ⟨by omega, hc⟩]
    · rw [if_neg hc, if_neg (fun h => hc h.2)]

/-- C12, as stated, fails: a truck of capacity 100 loaded with 100, switched on
and accelerated once does not have speed 1. -/
theorem caminhao_cheio_contraexemplo :
    ((caminhaoExemplo 100).executarTodas [.carregar (.int 100), .ligar, .acelerar]).cargaAtual =
        some 100 ∧
      ((caminhaoExemplo 100).executarTodas [.carregar (.int 100), .ligar, .acelerar]).velocidade ≠
        1 := by
  decide!

/-- C12, amended. A truck built with capacity 100, loaded to 100, then switched
on and accelerated once has speed 3: the load factor is `1 - 100 / 150`, a
third, and `round(8 / 3)` is 3. -/
theorem caminhao_cheio_acelera_tres :
    Caminhao.novo 0 (.texto "v1") (.texto "Scania") (.texto "") .indefinido (.texto "")
        .undefined .undefined (.int 100) = some (caminhaoExemplo 100) ∧
      ((caminhaoExemplo 100).executarTodas [.carregar (.int 100)]).variante = .caminhao 100 100 ∧
      Caminhao.incremento 100 100 = 3 ∧
      ((caminhaoExemplo 100).executarTodas [.carregar (.int 100), .ligar, .acelerar]).velocidade =
        3 := by
  decide!

/-- C14. For a sports car that is on, `acelerar` sets the speed to
`min(velocidade + 25, 250)` with the turbo and to `min(velocidade + 15, 250)`
without it; from speed 0 that is 25 and 15; and a sports car with the turbo,
starting at the same speed, is never slower afterwards. -/
theorem esportivo_acelerar_formula (v : Veiculo) (turbo : Bool)
    (hv : v.variante = .carroEsportivo turbo) (hl : v.ligado = true) :
    v.acelerar.veiculo.velocidade = min (v.velocidade + (if turbo then 25 else 15)) 250 ∧
      (v.velocidade = 0 → v.acelerar.veiculo.velocidade = if turbo then 25 else 15) ∧
      (∀ w : Veiculo, w.variante = .carroEsportivo true → w.ligado = true →
        w.velocidade = v.velocidade → v.acelerar.veiculo.velocidade ≤ w.acelerar.veiculo.velocidade) := by
  have e : ∀ (u : Veiculo) (t : Bool), u.variante = .carroEsportivo t → u.ligado = true →
      u.acelerar.veiculo.velocidade = min (u.velocidade + (if t then 25 else 15)) 250 := by
    intro u t hu hlu
    unfold Veiculo.acelerar
    simp only [hu, hlu, if_true]
  refine ⟨e v turbo hv hl, fun h0 => ?_, fun w hw hlw hvel => ?_⟩
  · rw [e v turbo hv hl, h0]
    cases turbo <;> decide
  · rw [e v turbo hv hl, e w true hw hlw, hvel]
    cases turbo <;> simp only [if_true, Bool.false_eq_true, if_false] <;> omega

/-- C11, amended, at the weights 2.5 and 60 on an empty truck of capacity
100: the first loads 2, the second loads 60. -/
theorem carregar_numero_positivo_witness :
    ((caminhaoExemplo 100).carregar (.num (.fin (5 / 2)))).veiculo =
        { caminhaoExemplo 100 with variante := .caminhao 100 2 } ∧
      ((caminhaoExemplo 100).carregar (.num (.fin 60))).veiculo =
        { caminhaoExemplo 100 with variante := .caminhao 100 60 } :=
  ⟨(carregar_numero_positivo (caminhaoExemplo 100) 100 0 rfl (5 / 2) (by norm_num)
      (by norm_num)).trans (by decide!),
    (carregar_numero_positivo (caminhaoExemplo 100) 100 0 rfl 60 (by norm_num)
      (by norm_num)).trans (by decide!)⟩

/-- C14, at the example of the specification: of two sports cars that are on
at speed 0, the one with the turbo reaches 25 and the other 15. -/
theorem esportivo_acelerar_formula_witness :
    { carroExemplo with ligado := true, variante := .carroEsportivo true }.acelerar.veiculo.velocidade =
        25 ∧
      { carroExemplo with ligado := true, variante := .carroEsportivo false }.acelerar.veiculo.velocidade =
        15 ∧
      { carroExemplo with ligado := true, variante := .carroEsportivo false }.acelerar.veiculo.velocidade ≤
        { carroExemplo with ligado := true, variante := .carroEsportivo true }.acelerar.veiculo.velocidade :=
  ⟨(esportivo_acelerar_formula { carroExemplo with ligado := true, variante := .carroEsportivo true }
      true rfl rfl).2.1 rfl,
    (esportivo_acelerar_formula { carroExemplo with ligado := true, variante := .carroEsportivo false }
      false rfl rfl).2.1 rfl,
    (esportivo_acelerar_formula { carroExemplo with ligado := true, variante := .carroEsportivo false }
      false rfl rfl).2.2 { carroExemplo with ligado := true, variante := .carroEsportivo true }
      rfl rfl rfl⟩

/-! ## Constructors and serialisation of maintenance records -/

/-- A text trimmed at both ends has nothing left to trim at its start. -/
theorem dropWhile_rdropWhile (p : Char → Bool) (l : List Char) :
    List.dropWhile p (List.rdropWhile p (List.dropWhile p l)) =
      List.rdropWhile p (List.dropWhile p l) := by
  rw [List.dropWhile_eq_self_iff]
  intro hl
  obtain ⟨t, ht⟩ := List.rdropWhile_prefix p (l := List.dropWhile p l)
  have hd : List.dropWhile p (List.dropWhile p l) = List.dropWhile p l :=
    List.dropWhile_idempotent p l
  rw [List.dropWhile_eq_self_iff] at hd
  generalize hr : List.rdropWhile p (List.dropWhile p l) = r at hl ht ⊢
  cases r with
  | nil => simp at hl
  | cons a r =>
    rw [← ht] at hd
    simpa using hd (by simp)

/-- Trimming a trimmed text changes nothing. -/
theorem jsTrim_idem (s : String) : jsTrim (jsTrim s) = jsTrim s := by
  have e : ∀ x : String, jsTrim x = ⟨List.rdropWhile jsEspaco (List.dropWhile jsEspaco x.data)⟩ :=
    fun _ => rfl
  rw [e (jsTrim s), e s]
  simp only [dropWhile_rdropWhile, List.rdropWhile_idempotent]

/-- C15. For a record built by the constructor from any inputs, `validar()` is
true exactly when `data` is a date (not `null`; the constructor stores no
invalid date), `tipo` is not empty after trimming and `custo >= 0`. -/
theorem validar_criar (fuso : Int) (d : JSVal) (t : Texto) (c : JSVal) (desc : Texto) :
    (Manutencao.criar fuso d t c desc).validar = true ↔
      (∃ ts, (Manutencao.criar fuso d t c desc).data = some ts) ∧
      jsTrim (Manutencao.criar fuso d t c desc).tipo ≠ "" ∧
      (Manutencao.criar fuso d t c desc).custo.naoNegativo = true := by
  have ht : jsTrim (Manutencao.criar fuso d t c desc).tipo = (Manutencao.criar fuso d t c desc).tipo := by
    simp only [Manutencao.criar, textoOuVazio, jsTrim_idem]
  rw [ht]
  simp only [Manutencao.validar, Bool.and_eq_true, decide_eq_true_eq, Option.isSome_iff_exists,
    and_assoc]

/-- C16, as stated, fails: `new Manutencao("1970-01-02", "Troca de óleo", -5)`
has `custo = -5`, which is below 0. -/
theorem custo_negativo_contraexemplo :
    Manutencao.criar 0 (.str "1970-01-02") (.texto "Troca de óleo") (.int (-5)) .indefinido =
        manutencaoCustoNegativo ∧
      manutencaoCustoNegativo.custo = .fin (-5) ∧
      manutencaoCustoNegativo.custo.naoNegativo = false := by
  decide!

/-- C16, amended. The constructor stores `parseFloat(c) || 0`: the cost is never
`NaN`; a missing cost, `NaN` and text that is not a number become 0; a number
is kept as it is, so a negative number stays negative, and the record then
fails `validar()`. -/
theorem custo_construido (fuso : Int) (d : JSVal) (t : Texto) (c : JSVal) (desc : Texto) :
    (Manutencao.criar fuso d t c desc).custo ≠ .nan ∧
      (parseFloat c = .nan → (Manutencao.criar fuso d t c desc).custo = .fin 0) ∧
      (c = .undefined ∨ c = .null ∨ c = .num .nan →
        (Manutencao.criar fuso d t c desc).custo = .fin 0) ∧
      (∀ q : ℚ, c = .num (.fin q) → (Manutencao.criar fuso d t c desc).custo = .fin q) ∧
      (∀ q : ℚ, c = .num (.fin q) → q < 0 →
        (Manutencao.criar fuso d t c desc).custo.naoNegativo = false ∧
        (Manutencao.criar fuso d t c desc).validar = false) := by
  have e : (Manutencao.criar fuso d t c desc).custo = (parseFloat c).ouZero := rfl
  refine ⟨?_, ?_, ?_, ?_, ?_⟩
  · rw [e]; cases parseFloat c <;> simp [JSNum.ouZero]
  · intro h; rw [e, h]; rfl
  · rintro (h | h | h) <;> rw [e, h] <;> rfl
  · intro q h; rw [e, h]; rfl
  · intro q h hq
    have hc : (Manutencao.criar fuso d t c desc).custo = .fin q := by rw [e, h]; rfl
    have hn : (Manutencao.criar fuso d t c desc).custo.naoNegativo = false := by
      rw [hc]
      simp only [JSNum.naoNegativo, decide_eq_false_iff_not, not_le]
      exact hq
    refine ⟨hn, ?_⟩
    simp only [Manutencao.validar, hn, Bool.and_false]

/-- C16, amended, at the costs `"abc"`, missing and `-5`. -/
theorem custo_construido_witness :
    (Manutencao.criar 0 (.str "1970-01-02") (.texto "Troca de óleo") (.str "abc")
        .indefinido).custo = .fin 0 ∧
      (Manutencao.criar 0 (.str "1970-01-02") (.texto "Troca de óleo") .undefined
        .indefinido).custo = .fin 0 ∧
      (Manutencao.criar 0 (.str "1970-01-02") (.texto "Troca de óleo") (.num (.fin (-5)))
        .indefinido).custo = .fin (-5) ∧
      (Manutencao.criar 0 (.str "1970-01-02") (.texto "Troca de óleo") (.num (.fin (-5)))
        .indefinido).validar = false :=
  ⟨(custo_construido 0 (.str "1970-01-02") (.texto "Troca de óleo") (.str "abc") .indefinido).2.1
      (by decide),
    (custo_construido 0 (.str "1970-01-02") (.texto "Troca de óleo") .undefined .indefinido).2.2.1
      (Or.inl rfl),
    (custo_construido 0 (.str "1970-01-02") (.texto "Troca de óleo") (.num (.fin (-5)))
      .indefinido).2.2.2.1 (-5) rfl,
    ((custo_construido 0 (.str "1970-01-02") (.texto "Troca de óleo") (.num (.fin (-5)))
      .indefinido).2.2.2.2 (-5) rfl (by norm_num)).2⟩

/-- C17, the defect. The record `new Manutencao("1970-01-02", "")` has an empty
`tipo` and fails `validar()`, yet `Manutencao.toJSON` returns an object for
it, since it only looks at the date, and `toJSON()` of a vehicle holding it
serialises it. The same holds for a record with a negative cost. -/
theorem historico_invalido_serializado :
    Manutencao.criar 0 (.str "1970-01-02") (.texto "") .undefined .indefinido =
        manutencaoSemTipo ∧
      manutencaoSemTipo.validar = false ∧
      manutencaoSemTipo.toJSON =
        some { data := .str "1970-01-02T00:00:00.000Z", tipo := .texto "", custo := .num (.fin 0),
               descricao := .texto "" } ∧
      { carroExemplo with historicoManutencao := [manutencaoSemTipo] }.toJSON.historicoManutencao =
        some [{ data := .str "1970-01-02T00:00:00.000Z", tipo := .texto "", custo := .num (.fin 0),
                descricao := .texto "" }] ∧
      manutencaoCustoNegativo.validar = false ∧
      manutencaoCustoNegativo.toJSON ≠ none := by
  decide!

/-- The constructor of `CarroBase` throws exactly when `id` or `modelo` is empty
or missing. -/
theorem construir_none_iff (fuso : Int) (var : Variante) (id modelo cor img placa : Texto)
    (ano cnh : JSVal) :
    construir fuso var id modelo cor img placa ano cnh = none ↔
      id.vazioOuAusente ∨ modelo.vazioOuAusente := by
  have ht : ∀ x : Texto, x.truthy = false ↔ x.vazioOuAusente := by
    intro x
    cases x with
    | indefinido => simp [Texto.truthy, Texto.vazioOuAusente]
    | nulo => simp [Texto.truthy, Texto.vazioOuAusente]
    | texto s => simp [Texto.truthy, Texto.vazioOuAusente]
  unfold construir
  rw [← ht id, ← ht modelo]
  cases hi : id.truthy <;> cases hm : modelo.truthy <;> simp

/-- C18. Each of the three constructors fails exactly when `id` or `modelo` is
empty or missing (`undefined`, `null` or the empty string); a vehicle that is
built is off, has speed 0 and an empty maintenance history. -/
theorem construtor_falha_sse (fuso : Int) (id modelo cor img placa : Texto)
    (ano cnh capCarga : JSVal) :
    (CarroBase.novo fuso id modelo cor img placa ano cnh = none ↔
        id.vazioOuAusente ∨ modelo.vazioOuAusente) ∧
      (CarroEsportivo.novo fuso id modelo cor img placa ano cnh = none ↔
        id.vazioOuAusente ∨ modelo.vazioOuAusente) ∧
      (Caminhao.novo fuso id modelo cor img placa ano cnh capCarga = none ↔
        id.vazioOuAusente ∨ modelo.vazioOuAusente) ∧
      ∀ v : Veiculo,
        CarroBase.novo fuso id modelo cor img placa ano cnh = some v ∨
          CarroEsportivo.novo fuso id modelo cor img placa ano cnh = some v ∨
          Caminhao.novo fuso id modelo cor img placa ano cnh capCarga = some v →
        v.ligado = false ∧ v.velocidade = 0 ∧ v.historicoManutencao = [] := by
  refine ⟨construir_none_iff _ _ _ _ _ _ _ _ _, construir_none_iff _ _ _ _ _ _ _ _ _,
    construir_none_iff _ _ _ _ _ _ _ _ _, fun v h => ?_⟩
  rcases h with h | h | h <;>
    exact ⟨(construir_some h).1, (construir_some h).2.1, (construir_some h).2.2.1⟩

/-- C18, at an empty `id`, a missing `modelo`, and two constructions that
succeed. -/
theorem construtor_falha_sse_witness :
    CarroBase.novo 0 (.texto "") (.texto "Fusca") .indefinido .indefinido .indefinido .undefined
        .undefined = none ∧
      Caminhao.novo 0 (.texto "v1") .indefinido .indefinido .indefinido .indefinido .undefined
        .undefined (.str "100") = none ∧
      CarroEsportivo.novo 0 (.texto "v3") (.texto "Ferrari") .indefinido .indefinido .indefinido
        .undefined .undefined ≠ none ∧
      carroExemplo.ligado = false ∧ carroExemplo.velocidade = 0 ∧
      carroExemplo.historicoManutencao = [] :=
  ⟨(construtor_falha_sse 0 (.texto "") (.texto "Fusca") .indefinido .indefinido .indefinido
      .undefined .undefined .undefined).1.mpr (Or.inl (Or.inr (Or.inr rfl))),
    (construtor_falha_sse 0 (.texto "v1") .indefinido .indefinido .indefinido .indefinido
      .undefined .undefined (.str "100")).2.2.1.mpr (Or.inr (Or.inl rfl)),
    fun h =>
      absurd
        ((construtor_falha_sse 0 (.texto "v3") (.texto "Ferrari") .indefinido .indefinido
          .indefinido .undefined .undefined .undefined).2.1.mp h)
        (by simp [Texto.vazioOuAusente]),
    (construtor_falha_sse 0 (.texto "v2") (.texto "Fusca") .indefinido .indefinido .indefinido
      .undefined .undefined .undefined).2.2.2 carroExemplo (Or.inl (by decide))⟩

/-- C19, the defect. With the year `"abc"` the constructors store
`parseInt("abc")`, which is `NaN`: neither `null` nor an integer. -/
theorem ano_nan :
    CarroBase.novo 0 (.texto "v2") (.texto "Fusca") .indefinido .indefinido .indefinido
        (.str "abc") .undefined = some { carroExemplo with ano := .num .nan } ∧
      Caminhao.novo 0 (.texto "v1") (.texto "Scania") (.texto "") .indefinido (.texto "")
        (.str "abc") .undefined (.str "abc") =
        some { caminhaoExemplo 0 with ano := .num .nan } ∧
      (JSVal.num .nan ≠ .null ∧ ∀ n : Int, JSVal.num .nan ≠ .int n) := by
  refine ⟨by decide, by decide, by decide, fun n => ?_⟩
  simp [JSVal.int]

/-- C20, as stated, fails: `new Caminhao(..., -5)` has `capacidadeCarga = -5`. -/
theorem capacidade_negativa_contraexemplo :
    Caminhao.novo 0 (.texto "v1") (.texto "Scania") (.texto "") .indefinido (.texto "")
        .undefined .undefined (.int (-5)) = some (caminhaoExemplo (-5)) ∧
      (caminhaoExemplo (-5)).capacidadeCarga = some (-5) ∧ ¬ (0 : Int) ≤ -5 := by
  decide!

/-- C20, amended. A new truck has `cargaAtual = 0` and
`capacidadeCarga = parseInt(capCarga) || 0`: 0 when `parseInt` gives `NaN`
(text that is not a number, a missing argument), otherwise the integer that
`parseInt` reads, which is not negative for a number that is not negative and
is negative for a negative integer. -/
theorem capacidade_construida (fuso : Int) (id modelo cor img placa : Texto)
    (ano cnh capCarga : JSVal) (v : Veiculo)
    (h : Caminhao.novo fuso id modelo cor img placa ano cnh capCarga = some v) :
    v.cargaAtual = some 0 ∧
      v.capacidadeCarga =
        some ((parseInt (if capCarga = .undefined then .int 0 else capCarga)).getD 0) ∧
      (parseInt capCarga = none → v.capacidadeCarga = some 0) ∧
      (∀ n : Int, parseInt capCarga = some n → v.capacidadeCarga = some n) ∧
      (∀ q : ℚ, capCarga = .num (.fin q) → 0 ≤ q →
        ∃ n : Int, v.capacidadeCarga = some n ∧ 0 ≤ n) := by
  obtain ⟨_, _, _, hvar⟩ := construir_some h
  have hu : capCarga = .undefined → parseInt capCarga = none := fun e => by rw [e]; rfl
  have h0 : parseInt (JSVal.int 0) = some 0 := by
    have := parseInt_int 0 (by norm_num) (by norm_num)
    simpa using this
  have hcap : v.capacidadeCarga = some ((parseInt capCarga).getD 0) := by
    simp only [Veiculo.capacidadeCarga, hvar]
    by_cases e : capCarga = .undefined
    · rw [if_pos e, h0, hu e]; rfl
    · rw [if_neg e]
  refine ⟨by simp only [Veiculo.cargaAtual, hvar], by simp only [Veiculo.capacidadeCarga, hvar],
    fun hn => by rw [hcap, hn]; rfl, fun n hn => by rw [hcap, hn]; rfl, fun q hq hq0 => ?_⟩
  rw [hcap, hq]
  have hneg : ¬ q < 0 := not_lt.mpr hq0
  exact ⟨((parseIntAbs q : Nat) : Int),
    by simp only [parseInt, parseIntNum, if_neg hneg, Option.getD_some], Int.ofNat_nonneg _⟩

/-- C20, amended, at the capacities 12.7, `"abc"` and `"-5"`: the trucks have
capacity 12, 0 and -5, and no load. -/
theorem capacidade_construida_witness :
    ((caminhaoExemplo 12).cargaAtual = some 0 ∧
        ∃ n : Int, (caminhaoExemplo 12).capacidadeCarga = some n ∧ 0 ≤ n) ∧
      (caminhaoExemplo 0).capacidadeCarga = some 0 ∧
      (caminhaoExemplo (-5)).capacidadeCarga = some (-5) :=
  ⟨⟨(capacidade_construida 0 (.texto "v1") (.texto "Scania") (.texto "") .indefinido (.texto "")
        .undefined .undefined (.num (.fin (127 / 10))) (caminhaoExemplo 12) (by decide!)).1,
      (capacidade_construida 0 (.texto "v1") (.texto "Scania") (.texto "") .indefinido
        (.texto "") .undefined .undefined (.num (.fin (127 / 10))) (caminhaoExemplo 12)
        (by decide!)).2.2.2.2 (127 / 10) rfl (by norm_num)⟩,
    (capacidade_construida 0 (.texto "v1") (.texto "Scania") (.texto "") .indefinido (.texto "")
      .undefined .undefined (.str "abc") (caminhaoExemplo 0) (by decide)).2.2.1 (by decide),
    (capacidade_construida 0 (.texto "v1") (.texto "Scania") (.texto "") .indefinido (.texto "")
      .undefined .undefined (.str "-5") (caminhaoExemplo (-5)) (by decide)).2.2.2.1 (-5)
      (by decide)⟩

/-! ## The CNH status, the load factor, the garage page and the server -/

/-- At or east of UTC the status of an expiry date stored as midnight UTC of
the day `dia` depends only on the difference between `dia` and the local day
of today. -/
theorem statusCNH_leste (fuso agora dia : Int) (h0 : 0 ≤ fuso) (h1 : fuso < 1440) :
    statusCNH fuso agora (some (dia * msPorDia)) =
      if dia - diaLocal fuso agora < 0 then .vencida
      else if dia - diaLocal fuso agora ≤ 30 then .venceBreve (dia - diaLocal fuso agora)
      else .emDia := by
  have hv : meiaNoiteLocal fuso (dia * msPorDia) = dia * msPorDia - fuso * 60000 := by
    unfold meiaNoiteLocal msPorDia
    omega
  have hh : meiaNoiteLocal fuso agora = diaLocal fuso agora * msPorDia - fuso * 60000 := rfl
  have hd : tetoDiv (dia * msPorDia - fuso * 60000 - (diaLocal fuso agora * msPorDia - fuso * 60000))
      msPorDia = dia - diaLocal fuso agora := by
    unfold tetoDiv msPorDia
    omega
  simp only [statusCNH, hv, hh, hd]
  generalize diaLocal fuso agora = l
  unfold msPorDia
  split_ifs <;> first | rfl | omega

/-- West of UTC the status of an expiry date stored as midnight UTC of the day
`dia` is that of the day before `dia`. -/
theorem statusCNH_oeste (fuso agora dia : Int) (h0 : -1440 < fuso) (h1 : fuso < 0) :
    statusCNH fuso agora (some (dia * msPorDia)) =
      if dia - 1 - diaLocal fuso agora < 0 then .vencida
      else if dia - 1 - diaLocal fuso agora ≤ 30 then
        .venceBreve (dia - 1 - diaLocal fuso agora)
      else .emDia := by
  have hv : meiaNoiteLocal fuso (dia * msPorDia) = (dia - 1) * msPorDia - fuso * 60000 := by
    unfold meiaNoiteLocal msPorDia
    omega
  have hh : meiaNoiteLocal fuso agora = diaLocal fuso agora * msPorDia - fuso * 60000 := rfl
  have hd : tetoDiv ((dia - 1) * msPorDia - fuso * 60000 -
      (diaLocal fuso agora * msPorDia - fuso * 60000)) msPorDia =
      dia - 1 - diaLocal fuso agora := by
    unfold tetoDiv msPorDia
    omega
  simp only [statusCNH, hv, hh, hd]
  generalize diaLocal fuso agora = l
  unfold msPorDia
  split_ifs <;> first | rfl | omega

/-- C21, the defect: at 12:00 on 2025-01-01 in a zone three hours west of UTC,
a CNH that expires on 2025-01-01 (0 days from today) is shown as expired and
one that expires 31 days later is shown as expiring in 30 days; in UTC the
same two dates are shown as expiring in 0 days and as in order. -/
theorem cnh_status_fuso_oeste :
    dateParse (-180) "2025-01-01T12:00".data = some 1735743600000 ∧
      diaLocal (-180) 1735743600000 = 20089 ∧
      lerCNH (-180) (.str "2025-01-01") = some (20089 * msPorDia) ∧
      statusCNH (-180) 1735743600000 (some (20089 * msPorDia)) = .vencida ∧
      statusCNH (-180) 1735743600000 (some ((20089 + 31) * msPorDia)) = .venceBreve 30 ∧
      statusCNH 0 1735732800000 (some (20089 * msPorDia)) = .venceBreve 0 ∧
      statusCNH 0 1735732800000 (some ((20089 + 31) * msPorDia)) = .emDia := by
  decide

/-- After `garagem[id] = v` the lookup of `id` gives `v`. -/
theorem obter_atribuir (g : Colecao) (id : String) (v : Veiculo) :
    (g.atribuir id v).obter id = some v := by
  induction g with
  | nil => simp [Colecao.atribuir, Colecao.obter]
  | cons p r ih =>
    obtain ⟨k, w⟩ := p
    by_cases h : k = id
    · simp [Colecao.atribuir, Colecao.obter, h]
    · simp [Colecao.atribuir, Colecao.obter, h, ih]

/-- A lookup succeeds exactly for the keys of the garage. -/
theorem obter_isSome_iff (g : Colecao) (id : String) :
    (g.obter id).isSome = true ↔ id ∈ g.map Prod.fst := by
  induction g with
  | nil => simp [Colecao.obter]
  | cons p r ih =>
    obtain ⟨k, w⟩ := p
    by_cases h : k = id
    · simp [Colecao.obter, h]
    · have h2 : ¬ id = k := fun e => h e.symm
      simp [Colecao.obter, h, h2, ih]

/-- After `delete garagem[id]` the lookup of `id` gives nothing. -/
theorem obter_remover (g : Colecao) (id : String) : (g.remover id).obter id = none := by
  have h : ¬ ((g.remover id).obter id).isSome = true := by
    rw [obter_isSome_iff]
    simp [Colecao.remover]
  cases ho : (g.remover id).obter id with
  | none => rfl
  | some v => rw [ho] at h; simp at h

/-- Deleting one key leaves the lookups of the other keys as they were. -/
theorem obter_remover_ne (g : Colecao) (id k : String) (h : k ≠ id) :
    (g.remover id).obter k = g.obter k := by
  induction g with
  | nil => rfl
  | cons p r ih =>
    obtain ⟨a, w⟩ := p
    unfold Colecao.remover at ih ⊢
    by_cases ha : a = id
    · have h2 : ¬ a = k := fun e => h (e.symm.trans ha)
      rw [List.filter_cons_of_neg (by simpa using ha), ih]
      simp only [Colecao.obter, if_neg h2]
    · rw [List.filter_cons_of_pos (by simpa using ha)]
      simp only [Colecao.obter, ih]

/-- `Object.keys` lists exactly the keys of the garage. -/
theorem mem_chaves (g : Colecao) (k : String) : k ∈ g.chaves ↔ k ∈ g.map Prod.fst := by
  unfold Colecao.chaves
  rw [List.mem_append, (List.perm_insertionSort _ _).mem_iff, List.mem_filter, List.mem_filter]
  constructor
  · rintro (h | h) <;> exact h.1
  · intro h
    cases hi : indiceDe k with
    | none => exact Or.inr ⟨h, by simp [hi]⟩
    | some n => exact Or.inl ⟨h, by simp [hi]⟩

/-- The base constructor succeeds on a non-empty `id` and `modelo`, and the
vehicle has the given variant and id. -/
theorem construir_truthy (fuso : Int) (var : Variante) (id modelo cor img placa : Texto)
    (ano cnh : JSVal) (hid : id.truthy = true) (hmod : modelo.truthy = true) :
    ∃ v, construir fuso var id modelo cor img placa ano cnh = some v ∧ v.variante = var ∧
      v.id = id.paraString := by
  unfold construir
  rw [if_neg (by simp [hid, hmod])]
  exact ⟨_, rfl, rfl, rfl⟩

/-- The loop of `carregarGaragem` over one more document. -/
theorem carregarVeiculos_append (fuso : Int) (ds : List Registro) (d : Registro) :
    carregarVeiculos fuso (ds ++ [d]) =
      match reconstruir fuso d with
      | some v => (carregarVeiculos fuso ds).atribuir d._id.paraString v
      | none => carregarVeiculos fuso ds := by
  simp only [carregarVeiculos, List.foldl_append, List.foldl_cons, List.foldl_nil]

/-- C22, as stated, fails: the stored record `v9` with the model `Gol` and no
`tipoVeiculo` is skipped, and so is the same record with an empty tag; the
garage loaded from it is empty. -/
theorem etiqueta_ausente_contraexemplo :
    registroSemEtiqueta._id = .texto "v9" ∧ registroSemEtiqueta.modelo = .texto "Gol" ∧
      registroSemEtiqueta.tipoVeiculo = .indefinido ∧
      reconstruir 0 registroSemEtiqueta = none ∧
      carregarVeiculos 0 [registroSemEtiqueta] = [] ∧
      reconstruir 0 { registroSemEtiqueta with tipoVeiculo := .texto "" } = none := by
  decide

/-- C22, amended: for a stored record with a non-empty `_id` and `modelo`,
`carregarGaragem` stores under the `_id` a `CarroEsportivo` when the tag is
`CarroEsportivo`, a `Caminhao` when it is `Caminhao` and a `CarroBase` for
every other non-empty tag; a record whose tag is missing or empty is skipped
and the garage stays as it was. -/
theorem carregarVeiculos_etiqueta (fuso : Int) (ds : List Registro) (d : Registro)
    (hid : d._id.truthy = true) (hmod : d.modelo.truthy = true) :
    (d.tipoVeiculo.truthy = true →
        ∃ v, reconstruir fuso d = some v ∧
          (carregarVeiculos fuso (ds ++ [d])).obter d._id.paraString = some v ∧
          v.id = d._id.paraString ∧
          v.tipoVeiculo =
            (if d.tipoVeiculo = .texto "CarroEsportivo" then "CarroEsportivo"
             else if d.tipoVeiculo = .texto "Caminhao" then "Caminhao"
             else "CarroBase")) ∧
      (d.tipoVeiculo.vazioOuAusente →
        reconstruir fuso d = none ∧
          carregarVeiculos fuso (ds ++ [d]) = carregarVeiculos fuso ds) := by
  constructor
  · intro htag
    have hg : ¬ ((!d._id.truthy || !d.modelo.truthy || !d.tipoVeiculo.truthy) = true) := by
      simp [hid, hmod, htag]
    have key : ∃ v, reconstruir fuso d = some v ∧ v.id = d._id.paraString ∧
        v.tipoVeiculo =
          (if d.tipoVeiculo = .texto "CarroEsportivo" then "CarroEsportivo"
           else if d.tipoVeiculo = .texto "Caminhao" then "Caminhao"
           else "CarroBase") := by
      unfold reconstruir
      rw [if_neg hg]
      by_cases h1 : d.tipoVeiculo = .texto "CarroEsportivo"
      · obtain ⟨v, hv, hvar, hvid⟩ := construir_truthy fuso
              (.carroEsportivo false) _ _
              d.cor
              (d.imagemSrc.ou "default_sport.png")
              d.placa d.ano
              d.dataVencimentoCNH hid hmod
        simp only [if_pos h1, CarroEsportivo.novo, hv, Option.map_some']
        refine ⟨_, rfl, ?_, ?_⟩
        · simp only [Veiculo.comTurbo, hvar, hvid]
        · simp only [Veiculo.comTurbo, hvar, Veiculo.tipoVeiculo]
      · by_cases h2 : d.tipoVeiculo = .texto "Caminhao"
        · obtain ⟨v, hv, hvar, hvid⟩ := construir_truthy fuso
              (.caminhao ((parseInt (if (if d.capacidadeCarga.truthy then d.capacidadeCarga
              else JSVal.int 0) = .undefined then .int 0 else
              (if d.capacidadeCarga.truthy then d.capacidadeCarga else JSVal.int 0))).getD 0) 0) _ _
              d.cor
              (d.imagemSrc.ou "default_truck.png")
              d.placa d.ano
              d.dataVencimentoCNH hid hmod
          simp only [if_neg h1, if_pos h2, Caminhao.novo, hv, Option.map_some']
          refine ⟨_, rfl, ?_, ?_⟩
          · simp only [Veiculo.comCarga, hvar, hvid]
          · simp only [Veiculo.comCarga, hvar, Veiculo.tipoVeiculo]
        · obtain ⟨v, hv, hvar, hvid⟩ := construir_truthy fuso
              .carroBase _ _
              d.cor
              d.imagemSrc
              d.placa d.ano
              d.dataVencimentoCNH hid hmod
          simp only [if_neg h1, if_neg h2, CarroBase.novo, hv, Option.map_some']
          refine ⟨_, rfl, hvid, ?_⟩
          simp only [hvar, Veiculo.tipoVeiculo]
    obtain ⟨v, hv, hvid, htipo⟩ := key
    refine ⟨v, hv, ?_, hvid, htipo⟩
    rw [carregarVeiculos_append, hv]
    exact obter_atribuir _ _ _
  · intro htag
    have ht : d.tipoVeiculo.truthy = false := by
      rcases htag with h | h | h <;> rw [h] <;> rfl
    have hr : reconstruir fuso d = none := by
      unfold reconstruir
      rw [if_pos (by simp [ht])]
    refine ⟨hr, ?_⟩
    rw [carregarVeiculos_append, hr]

/-- After `garagem[id] = v` the lookup of another key gives what it gave
before. -/
theorem obter_atribuir_ne (g : Colecao) (id k : String) (v : Veiculo) (h : k ≠ id) :
    (g.atribuir id v).obter k = g.obter k := by
  have h2 : ¬ id = k := fun e => h e.symm
  induction g with
  | nil => simp [Colecao.atribuir, Colecao.obter, h2]
  | cons p r ih =>
    obtain ⟨a, w⟩ := p
    by_cases ha : a = id
    · subst ha
      simp [Colecao.atribuir, Colecao.obter, h2]
    · by_cases hk : a = k
      · subst hk
        simp [Colecao.atribuir, Colecao.obter, ha]
      · simp [Colecao.atribuir, Colecao.obter, ha, hk, ih]

/-- A vehicle that is added with success is stored under the id the server
gave, and nothing else on the page changes: the call of `handleTrocarAba`
throws before the vehicle is rendered. -/
theorem handleAdicionarVeiculo_sucesso (fuso : Int) (p : Pagina) (f : Formulario) (agora : Nat)
    (idSalvo : String) (hm : jsTrim f.modelo ≠ "") (htipo : f.tipo ≠ "") :
    ∃ v, handleAdicionarVeiculo fuso p f agora (some idSalvo) =
      { p with garagem := p.garagem.atribuir idSalvo v } := by
  have hid : (Texto.texto ("v" ++ textoDeNat agora)).truthy = true := by
    simp only [Texto.truthy, decide_eq_true_eq]
    intro h
    have h2 := congrArg String.length h
    simp only [String.length_append] at h2
    have h3 : "v".length = 1 := by decide
    have h4 : "".length = 0 := by decide
    omega
  have hmod : (Texto.texto (jsTrim f.modelo)).truthy = true := by
    simp only [Texto.truthy, decide_eq_true_eq]
    exact hm
  unfold handleAdicionarVeiculo
  rw [if_neg (by simp [hm, htipo])]
  by_cases h1 : f.tipo = "CarroEsportivo"
  · obtain ⟨v, hv, _⟩ := construir_truthy fuso
              (.carroEsportivo false) _ _
              (.texto (jsTrim f.cor))
              ((match f.imagem with | some s => Texto.texto s | none => Texto.nulo).ou
              "default_sport.png")
              (.texto (jsToUpperCase (jsTrim f.placa))) (.str f.ano)
              (if f.cnh ≠ "" then .str f.cnh else .null) hid hmod
    simp only [if_pos h1, CarroEsportivo.novo, hv]
    exact ⟨v, rfl⟩
  · by_cases h2 : f.tipo = "Caminhao"
    · obtain ⟨v, hv, _⟩ := construir_truthy fuso
              (.caminhao ((parseInt (if JSVal.str f.capacidadeCarga = .undefined then .int 0
              else .str f.capacidadeCarga)).getD 0) 0) _ _
              (.texto (jsTrim f.cor))
              ((match f.imagem with | some s => Texto.texto s | none => Texto.nulo).ou
              "default_truck.png")
              (.texto (jsToUpperCase (jsTrim f.placa))) (.str f.ano)
              (if f.cnh ≠ "" then .str f.cnh else .null) hid hmod
      simp only [if_neg h1, if_pos h2, Caminhao.novo, hv]
      exact ⟨v, rfl⟩
    · obtain ⟨v, hv, _⟩ := construir_truthy fuso
              .carroBase _ _
              (.texto (jsTrim f.cor))
              ((match f.imagem with | some s => Texto.texto s | none => Texto.nulo))
              (.texto (jsToUpperCase (jsTrim f.placa))) (.str f.ano)
              (if f.cnh ≠ "" then .str f.cnh else .null) hid hmod
      simp only [if_neg h1, if_neg h2, CarroBase.novo, hv]
      exact ⟨v, rfl⟩

/-- C23: when a vehicle is created with success by `handleAdicionarVeiculo`
(the form has a model and a type and the server answers the `POST` with
success) while no vehicle is selected, the selection is unchanged afterwards:
the display area is as it was, with no `veiculoId`, the new vehicle is stored
in the garage under the id the server gave, and the other keys of the garage
hold what they held. -/
theorem adicionar_nao_seleciona (fuso : Int) (p : Pagina) (f : Formulario) (agora : Nat)
    (idSalvo : String) (hm : jsTrim f.modelo ≠ "") (htipo : f.tipo ≠ "")
    (hsel : p.veiculoId = none) :
    (handleAdicionarVeiculo fuso p f agora (some idSalvo)).veiculoId = none ∧
      (handleAdicionarVeiculo fuso p f agora (some idSalvo)).displayArea = p.displayArea ∧
      ((handleAdicionarVeiculo fuso p f agora (some idSalvo)).garagem.obter idSalvo).isSome =
        true ∧
      ∀ k, k ≠ idSalvo →
        (handleAdicionarVeiculo fuso p f agora (some idSalvo)).garagem.obter k =
          p.garagem.obter k := by
  obtain ⟨v, hv⟩ := handleAdicionarVeiculo_sucesso fuso p f agora idSalvo hm htipo
  rw [hv]
  refine ⟨hsel, rfl, ?_, fun k hk => obter_atribuir_ne _ _ _ _ hk⟩
  simp only [obter_atribuir, Option.isSome_some]

/-- A confirmed deletion that the server accepts removes the vehicle from the
garage and leaves the rest of the page as it was: the refresh of the
interface throws before it looks at the selection. -/
theorem handleExcluirVeiculo_sucesso (p : Pagina) (veiculoId : String)
    (hv : (p.garagem.obter veiculoId).isSome = true) :
    handleExcluirVeiculo p veiculoId true true =
      { p with garagem := p.garagem.remover veiculoId } := by
  obtain ⟨v, hv2⟩ := Option.isSome_iff_exists.mp hv
  simp only [handleExcluirVeiculo, hv2, if_true]
  rfl

/-- C24, counterexample: the only vehicle of the garage, `v2`, is the active
one; after its confirmed, successful deletion the garage is empty but the
display area still has `veiculoId = "v2"`, not "no selection". The same
happens when another vehicle remains: after `v1` is deleted the display area
still names `v1`. -/
theorem excluir_ativo_contraexemplo :
    paginaUmVeiculo.veiculoId = some "v2" ∧
      (handleExcluirVeiculo paginaUmVeiculo "v2" true true).garagem = [] ∧
      (handleExcluirVeiculo paginaUmVeiculo "v2" true true).veiculoId = some "v2" ∧
      paginaDoisVeiculos.veiculoId = some "v1" ∧
      (handleExcluirVeiculo paginaDoisVeiculos "v1" true true).garagem =
        [("v2", carroExemplo)] ∧
      (handleExcluirVeiculo paginaDoisVeiculos "v1" true true).veiculoId = some "v1" := by
  decide

/-- C24, amended: after a confirmed, successful `handleExcluirVeiculo` of the
active vehicle, for every garage, the vehicle is no longer in the garage, the
other vehicles are as they were, and the display area still has the
`veiculoId` of the deleted vehicle: the refresh of the interface stops at the
call of a function that no file defines, before it reaches the selection. -/
theorem excluir_ativo_mantem_id (p : Pagina) (veiculoId : String)
    (hv : (p.garagem.obter veiculoId).isSome = true) (hsel : p.veiculoId = some veiculoId) :
    (handleExcluirVeiculo p veiculoId true true).veiculoId = some veiculoId ∧
      (handleExcluirVeiculo p veiculoId true true).displayArea = p.displayArea ∧
      (handleExcluirVeiculo p veiculoId true true).garagem.obter veiculoId = none ∧
      ∀ k, k ≠ veiculoId →
        (handleExcluirVeiculo p veiculoId true true).garagem.obter k = p.garagem.obter k := by
  rw [handleExcluirVeiculo_sucesso p veiculoId hv]
  exact ⟨hsel, rfl, obter_remover _ _, fun k hk => obter_remover_ne _ _ _ hk⟩

/-- C24 at a garage of two vehicles of which `v1` is the active one: after
`v1` is deleted the display area still names `v1`, and `v2` is still in the
garage and is not selected. -/
theorem excluir_ativo_mantem_id_witness :
    (handleExcluirVeiculo paginaDoisVeiculos "v1" true true).veiculoId = some "v1" ∧
      (handleExcluirVeiculo paginaDoisVeiculos "v1" true true).garagem.obter "v1" = none ∧
      (handleExcluirVeiculo paginaDoisVeiculos "v1" true true).garagem.obter "v2" =
        paginaDoisVeiculos.garagem.obter "v2" :=
  ⟨(excluir_ativo_mantem_id paginaDoisVeiculos "v1" (by decide) (by decide)).1,
    (excluir_ativo_mantem_id paginaDoisVeiculos "v1" (by decide) (by decide)).2.2.1,
    (excluir_ativo_mantem_id paginaDoisVeiculos "v1" (by decide) (by decide)).2.2.2 "v2"
      (by decide)⟩

/-- C25, the defect: the owner of the stored truck `v1` sends a `PUT` whose
body is `owner: "64b7f0c2a1d3e4f5a6b7c8da"`; the answer is 200 and the
document now belongs to that other account, so the next `PUT` of the former
owner is answered 401 and the new owner can delete the vehicle. -/
theorem put_troca_dono :
    findById [documentoExemplo] "v1" = some documentoExemplo ∧
      documentoExemplo.owner = "64b7f0c2a1d3e4f5a6b7c8d9" ∧
      putVeiculo [documentoExemplo] "64b7f0c2a1d3e4f5a6b7c8d9" "v1" corpoTrocaDono =
        ([{ documentoExemplo with owner := "64b7f0c2a1d3e4f5a6b7c8da" }], 200) ∧
      putVeiculo [{ documentoExemplo with owner := "64b7f0c2a1d3e4f5a6b7c8da" }]
        "64b7f0c2a1d3e4f5a6b7c8d9" "v1" { corpoTrocaDono with owner := .ausente } =
        ([{ documentoExemplo with owner := "64b7f0c2a1d3e4f5a6b7c8da" }], 401) ∧
      deleteVeiculo [{ documentoExemplo with owner := "64b7f0c2a1d3e4f5a6b7c8da" }]
        "64b7f0c2a1d3e4f5a6b7c8da" "v1" = ([], 200) := by
  decide!

/-- A `POST` stores nothing but a document owned by the caller. -/
theorem post_define_dono (store : List Documento) (usuario : String) (corpo : Corpo) :
    ∀ d ∈ (postVeiculo store usuario corpo).1, d ∈ store ∨ d.owner = usuario := by
  intro d hd
  unfold postVeiculo at hd
  split_ifs at hd
  · rcases List.mem_append.mp hd with h | h
    · exact Or.inl h
    · rw [List.mem_singleton] at h
      exact Or.inr (by rw [h])
  · exact Or.inl hd

/-- A document found by `findById` is in the store under the given id. -/
theorem findById_owner {store : List Documento} {id : String} {d : Documento}
    (h : findById store id = some d) : d ∈ store ∧ d._id = id := by
  unfold findById at h
  exact ⟨List.mem_of_find?_eq_some h, by simpa using List.find?_some h⟩

/-- A `PUT` or `DELETE` from a caller who is not the owner leaves the store as
it was. -/
theorem nao_dono_nao_altera (store : List Documento) (usuario id : String) (corpo : Corpo)
    (h : ∀ d, findById store id = some d → d.owner ≠ usuario) :
    (putVeiculo store usuario id corpo).1 = store ∧ (deleteVeiculo store usuario id).1 = store := by
  unfold putVeiculo deleteVeiculo
  cases hf : findById store id with
  | none => exact ⟨rfl, rfl⟩
  | some d =>
    have hne := h d hf
    simp only [hne, ne_eq, not_false_eq_true, if_true, and_self]

/-- C28, the defect: when `JWT_SECRET` is not set, or is empty, the token that
the login issues for the user `u1` is refused by the middleware ten seconds
later; with the secret `abc` it is accepted. -/
theorem token_recusado_sem_segredo :
    authMiddleware none (.bearer (loginToken none "u1" 0)) 10 = none ∧
      authMiddleware (some "") (.bearer (loginToken (some "") "u1" 0)) 10 = none ∧
      authMiddleware (some "abc") (.bearer (loginToken (some "abc") "u1" 0)) 10 = some "u1" := by
  decide

/-- With a non-empty `JWT_SECRET`, the token of a login is accepted until it
expires, with the id of the user who logged in. -/
theorem token_aceito_com_segredo (segredo userId : String) (emitido agora : Int)
    (hs : segredo ≠ "") (ht : agora < emitido + 3600) :
    authMiddleware (some segredo) (.bearer (loginToken (some segredo) userId emitido)) agora =
      some userId := by
  simp only [authMiddleware, jwtVerify, loginToken, jwtSign, hs, ne_eq, not_false_eq_true, if_true,
    ht, and_self]

/-- C22, amended, at three records: a truck record is loaded as a `Caminhao`,
a record with the tag `Moto` as a `CarroBase`, and a record without a tag is
skipped. -/
theorem carregarVeiculos_etiqueta_witness :
    (∃ v, reconstruir 0 registroCapacidadeNegativa = some v ∧
        (carregarVeiculos 0 ([] ++ [registroCapacidadeNegativa])).obter "v1" = some v ∧
        v.id = "v1" ∧ v.tipoVeiculo = "Caminhao") ∧
      (∃ v, reconstruir 0 { registroSemEtiqueta with tipoVeiculo := .texto "Moto" } = some v ∧
        (carregarVeiculos 0
          ([] ++ [{ registroSemEtiqueta with tipoVeiculo := .texto "Moto" }])).obter "v9" =
          some v ∧
        v.id = "v9" ∧ v.tipoVeiculo = "CarroBase") ∧
      (reconstruir 0 registroSemEtiqueta = none ∧
        carregarVeiculos 0 ([] ++ [registroSemEtiqueta]) = carregarVeiculos 0 []) :=
  ⟨(carregarVeiculos_etiqueta 0 [] registroCapacidadeNegativa (by decide) (by decide)).1
      (by decide),
    (carregarVeiculos_etiqueta 0 [] { registroSemEtiqueta with tipoVeiculo := .texto "Moto" }
      (by decide) (by decide)).1 (by decide),
    (carregarVeiculos_etiqueta 0 [] registroSemEtiqueta (by decide) (by decide)).2 (Or.inl rfl)⟩

/-- C23 at a page with an empty garage and nothing selected: after the
`Fusca` is added it is in the garage and still nothing is selected. -/
theorem adicionar_nao_seleciona_witness :
    (handleAdicionarVeiculo 0 paginaVazia formularioFusca 1700000000000
        (some "v1700000000000")).veiculoId = none ∧
      ((handleAdicionarVeiculo 0 paginaVazia formularioFusca 1700000000000
        (some "v1700000000000")).garagem.obter "v1700000000000").isSome = true :=
  ⟨(adicionar_nao_seleciona 0 paginaVazia formularioFusca 1700000000000 "v1700000000000"
      (by decide) (by decide) rfl).1,
    (adicionar_nao_seleciona 0 paginaVazia formularioFusca 1700000000000 "v1700000000000"
      (by decide) (by decide) rfl).2.2.1⟩

/-! ## Numbers with overflow -/

/-- The bound beyond which a number is `Infinity` is far above the speeds and
constants of the vehicles. -/
theorem limiteInfinito_grande : (1000 : ℚ) < limiteInfinito := by
  unfold limiteInfinito
  norm_num

/-- The three outcomes of taking the Number value of an exact result. -/
theorem deExato_casos (q : ℚ) :
    (JSNum.deExato q = .pinf ∧ limiteInfinito ≤ q) ∨
      (JSNum.deExato q = .ninf ∧ q ≤ -limiteInfinito) ∨
      (JSNum.deExato q = .fin q ∧ -limiteInfinito < q ∧ q < limiteInfinito) := by
  unfold JSNum.deExato
  by_cases h1 : limiteInfinito ≤ q
  · exact Or.inl ⟨if_pos h1, h1⟩
  · by_cases h2 : q ≤ -limiteInfinito
    · exact Or.inr (Or.inl ⟨by rw [if_neg h1, if_pos h2], h2⟩)
    · exact Or.inr (Or.inr ⟨by rw [if_neg h1, if_neg h2], not_le.mp h2, not_le.mp h1⟩)

/-- A result of small magnitude is its own Number value. -/
theorem deExato_pequeno (q : ℚ) (h0 : -1000 ≤ q) (h1 : q ≤ 1000) : JSNum.deExato q = .fin q := by
  have h := limiteInfinito_grande
  rcases deExato_casos q with ⟨_, h2⟩ | ⟨_, h2⟩ | ⟨e, _⟩
  · linarith
  · linarith
  · exact e

/-- The Number value of an exact result is never `NaN`. -/
theorem deExato_ne_nan (q : ℚ) : JSNum.deExato q ≠ .nan := by
  rcases deExato_casos q with ⟨e, _⟩ | ⟨e, _⟩ | ⟨e, _⟩ <;> rw [e] <;> simp

/-- The divisor `capacidadeCarga * 1.5 || 1` is a number other than zero, or
an infinity. -/
theorem divisor_casos (cap : JSNum) :
    (∃ d : ℚ, (cap.vezes (.fin (3 / 2))).ou (.fin 1) = .fin d ∧ d ≠ 0) ∨
      (cap.vezes (.fin (3 / 2))).ou (.fin 1) = .pinf ∨
      (cap.vezes (.fin (3 / 2))).ou (.fin 1) = .ninf := by
  cases cap with
  | nan => exact Or.inl ⟨1, by simp [JSNum.vezes, JSNum.ou, JSVal.truthy], one_ne_zero⟩
  | fin c =>
    simp only [JSNum.vezes]
    rcases deExato_casos (c * (3 / 2)) with ⟨e, _⟩ | ⟨e, _⟩ | ⟨e, _⟩
    · rw [e]; exact Or.inr (Or.inl (by simp [JSNum.ou, JSVal.truthy]))
    · rw [e]; exact Or.inr (Or.inr (by simp [JSNum.ou, JSVal.truthy]))
    · rw [e]
      by_cases hz : c * (3 / 2) = 0
      · exact Or.inl ⟨1, by simp [JSNum.ou, JSVal.truthy, hz], one_ne_zero⟩
      · exact Or.inl ⟨c * (3 / 2), by simp [JSNum.ou, JSVal.truthy, hz], hz⟩
  | pinf =>
    exact Or.inr (Or.inl (by norm_num [JSNum.vezes, JSNum.ou, JSVal.truthy]))
  | ninf =>
    exact Or.inr (Or.inr (by norm_num [JSNum.vezes, JSNum.ou, JSVal.truthy]))

/-- With a load that is a finite number the load factor is never `NaN`. -/
theorem fatorCarga_ne_nan (cap : JSNum) (g : ℚ) : Duplo.Caminhao.fatorCarga cap (.fin g) ≠ .nan := by
  unfold Duplo.Caminhao.fatorCarga
  rcases divisor_casos cap with ⟨d, e, hd⟩ | e | e <;> rw [e]
  · simp only [JSNum.dividido, if_neg hd]
    rcases deExato_casos (g / d) with ⟨e2, _⟩ | ⟨e2, _⟩ | ⟨e2, _⟩ <;> rw [e2] <;>
      simp [JSNum.menos, JSNum.oposto, JSNum.mais, deExato_ne_nan]
  · simp [JSNum.dividido, JSNum.menos, JSNum.oposto, JSNum.mais, deExato_ne_nan]
  · simp [JSNum.dividido, JSNum.menos, JSNum.oposto, JSNum.mais, deExato_ne_nan]

/-- `Math.max(1, Math.round(8 * x))` of a number other than `NaN` is a number
that is at least 1, or `Infinity`. -/
theorem maximo_arredondado (x : JSNum) (h : x ≠ .nan) :
    (∃ i : ℚ, (JSNum.fin 1).maximo ((JSNum.fin 8).vezes x).arredondado = .fin i ∧ 1 ≤ i) ∨
      (JSNum.fin 1).maximo ((JSNum.fin 8).vezes x).arredondado = .pinf := by
  cases x with
  | nan => exact absurd rfl h
  | fin f =>
    simp only [JSNum.vezes]
    rcases deExato_casos (8 * f) with ⟨e, _⟩ | ⟨e, _⟩ | ⟨e, _⟩ <;> rw [e]
    · exact Or.inr rfl
    · exact Or.inl ⟨1, rfl, le_refl 1⟩
    · exact Or.inl ⟨max 1 (arredondar (8 * f) : ℚ), rfl, le_max_left _ _⟩
  | pinf => exact Or.inr (by norm_num [JSNum.vezes, JSNum.arredondado, JSNum.maximo])
  | ninf => exact Or.inl ⟨1, by norm_num [JSNum.vezes, JSNum.arredondado, JSNum.maximo], le_refl 1⟩

/-- With a load that is a finite number, the increment of a truck is a number
that is at least 1, or `Infinity`. -/
theorem incremento_carga_finita (cap : JSNum) (g : ℚ) :
    (∃ i : ℚ, Duplo.Caminhao.incremento cap (.fin g) = .fin i ∧ 1 ≤ i) ∨
      Duplo.Caminhao.incremento cap (.fin g) = .pinf :=
  maximo_arredondado _ (fatorCarga_ne_nan cap g)

/-- Adding an increment that is at least 1, or `Infinity`, to a speed that is
not negative and capping the sum gives a number up to the cap, larger than
the speed by at least 1 unless it is the cap. -/
theorem acelerar_em_faixa (x m : ℚ) (inc : JSNum) (h0 : 0 ≤ x)
    (hinc : (∃ i : ℚ, inc = .fin i ∧ 1 ≤ i) ∨ inc = .pinf) :
    ∃ y : ℚ, ((JSNum.fin x).mais inc).minimo (.fin m) = .fin y ∧ min (x + 1) m ≤ y ∧ y ≤ m := by
  rcases hinc with ⟨i, e, hi⟩ | e <;> rw [e]
  · simp only [JSNum.mais]
    have h := limiteInfinito_grande
    rcases deExato_casos (x + i) with ⟨e2, _⟩ | ⟨e2, h2⟩ | ⟨e2, _⟩ <;> rw [e2]
    · exact ⟨m, rfl, min_le_right _ _, le_refl m⟩
    · linarith
    · refine ⟨min (x + i) m, rfl, ?_, min_le_right _ _⟩
      exact min_le_min (by linarith) (le_refl m)
  · exact ⟨m, rfl, min_le_right _ _, le_refl m⟩

/-! ## Invariants of the driving operations, with overflow -/

namespace Duplo

/-- A property kept by every call holds after any sequence of calls. -/
theorem executarTodas_mantem (P : Veiculo → Prop)
    (passo : ∀ v op, P v → P (v.executar op)) (ops : List Operacao) :
    ∀ v, P v → P (v.executarTodas ops) := by
  induction ops with
  | nil => intro v hv; simpa [Veiculo.executarTodas] using hv
  | cons op ops ih =>
    intro v hv
    have := ih (v.executar op) (passo v op hv)
    simpa [Veiculo.executarTodas] using this

/-- What a constructor returns: off, standing still and of the class asked
for. -/
theorem construir_inicial {fuso : Int} {var : Variante} {id modelo cor img placa : Texto}
    {ano cnh : JSVal} {v : Veiculo}
    (h : construir fuso var id modelo cor img placa ano cnh = some v) :
    v.ligado = false ∧ v.velocidade = .fin 0 ∧ v.variante = var := by
  unfold construir at h
  by_cases hc : (!id.truthy || !modelo.truthy) = true
  · rw [if_pos hc] at h
    cases h
  · rw [if_neg hc] at h
    cases h
    exact ⟨rfl, rfl, rfl⟩

/-- What `carregar` does to the vehicle: nothing, or a weight above zero is
added to the load of a truck and the sum is within the capacity. -/
theorem carregar_casos (v : Veiculo) (peso : JSVal) :
    v.carregar peso = v ∨
      ∃ cap carga, v.variante = .caminhao cap carga ∧ parseInt peso ≠ .nan ∧
        (parseInt peso).menorOuIgual (.fin 0) = false ∧
        (carga.mais (parseInt peso)).menorOuIgual cap = true ∧
        v.carregar peso = { v with variante := .caminhao cap (carga.mais (parseInt peso)) } := by
  unfold Veiculo.carregar
  cases hv : v.variante with
  | carroBase => exact Or.inl rfl
  | carroEsportivo t => exact Or.inl rfl
  | caminhao cap carga =>
    by_cases h1 : parseInt peso = .nan ∨ (parseInt peso).menorOuIgual (.fin 0) = true
    · simp only [if_pos h1]; exact Or.inl trivial
    · by_cases h2 : (carga.mais (parseInt peso)).menorOuIgual cap = true
      · simp only [if_neg h1, if_pos h2]
        refine Or.inr ⟨cap, carga, rfl, fun e => h1 (Or.inl e), ?_, h2, rfl⟩
        cases hb : (parseInt peso).menorOuIgual (.fin 0) with
        | true => exact absurd (Or.inr hb) h1
        | false => rfl
      · simp only [if_neg h1, if_neg h2]; exact Or.inl trivial

/-- A weight above zero added to a load that is not negative, or `Infinity`,
gives such a load again; and a sum that is `Infinity` fits only a capacity
that is `Infinity`. -/
theorem carga_somada (cap carga peso : JSNum)
    (hc : (∃ g : ℚ, carga = .fin g ∧ 0 ≤ g) ∨ (carga = .pinf ∧ cap = .pinf))
    (hn : peso ≠ .nan) (hp : peso.menorOuIgual (.fin 0) = false)
    (hle : (carga.mais peso).menorOuIgual cap = true) :
    ((∃ g : ℚ, carga.mais peso = .fin g ∧ 0 ≤ g) ∨ (carga.mais peso = .pinf ∧ cap = .pinf)) ∧
      (carga = .pinf → carga.mais peso = .pinf) := by
  have hcap : ∀ c : JSNum, JSNum.menorOuIgual .pinf c = true → c = .pinf := by
    intro c h
    cases c <;> simp [JSNum.menorOuIgual] at h ⊢
  cases peso with
  | nan => exact absurd rfl hn
  | ninf => simp [JSNum.menorOuIgual] at hp
  | pinf =>
    rcases hc with ⟨g, e, _⟩ | ⟨e, ec⟩
    · subst e
      exact ⟨Or.inr ⟨rfl, hcap cap hle⟩, fun e => by cases e⟩
    · subst e
      exact ⟨Or.inr ⟨rfl, ec⟩, fun _ => rfl⟩
  | fin n =>
    have hn0 : 0 < n := by
      simp only [JSNum.menorOuIgual, decide_eq_false_iff_not, not_le] at hp
      exact hp
    rcases hc with ⟨g, e, hg⟩ | ⟨e, ec⟩
    · subst e
      refine ⟨?_, fun e => by cases e⟩
      simp only [JSNum.mais] at hle ⊢
      have h := limiteInfinito_grande
      rcases deExato_casos (g + n) with ⟨e2, _⟩ | ⟨e2, h2⟩ | ⟨e2, _⟩
      · rw [e2] at hle ⊢
        exact Or.inr ⟨rfl, hcap cap hle⟩
      · linarith
      · rw [e2]
        exact Or.inl ⟨g + n, rfl, by linarith⟩
    · subst e
      exact ⟨Or.inr ⟨rfl, ec⟩, fun _ => rfl⟩

/-- Every call keeps the load as `cargaOk` says and, while the load is not
`Infinity`, the speed within the limits of the class. -/
theorem invariante_executar (v : Veiculo) (op : Operacao) (h : v.invariante) :
    (v.executar op).invariante := by
  have h1000 := limiteInfinito_grande
  cases op with
  | carregar peso =>
    rcases carregar_casos v peso with e | ⟨cap, carga, hv, hn, hp, hle, e⟩
    · simpa only [Veiculo.executar, e] using h
    · obtain ⟨hc, hvel⟩ := h
      simp only [Veiculo.cargaOk, hv] at hc
      obtain ⟨hc2, hinf⟩ := carga_somada cap carga (parseInt peso) hc hn hp hle
      simp only [Veiculo.executar, e]
      refine ⟨by simpa only [Veiculo.cargaOk] using hc2, fun hfin => ?_⟩
      have hold : v.cargaInfinita = false := by
        cases hcg : carga with
        | pinf =>
          have := hinf hcg
          simp [Veiculo.cargaInfinita, this] at hfin
        | nan => simp [Veiculo.cargaInfinita, hv, hcg]
        | fin g => simp [Veiculo.cargaInfinita, hv, hcg]
        | ninf => simp [Veiculo.cargaInfinita, hv, hcg]
      obtain ⟨x, hx, hx0, hx1⟩ := hvel hold
      exact ⟨x, hx, hx0, by simpa only [Veiculo.velocidadeMaxima, hv] using hx1⟩
  | ligar =>
    simp only [Veiculo.executar, Veiculo.ligar]
    split_ifs
    · exact h
    · exact h
  | desligar =>
    simp only [Veiculo.executar, Veiculo.desligar]
    split_ifs
    · exact h
    · exact h
    · exact h
  | buzinar => exact h
  | ativarTurbo =>
    simp only [Veiculo.executar, Veiculo.ativarTurbo]
    cases hv : v.variante with
    | carroBase => exact h
    | caminhao cap carga => exact h
    | carroEsportivo t =>
      obtain ⟨_, hvel⟩ := h
      simp only
      split_ifs
      · refine ⟨trivial, fun _ => ?_⟩
        obtain ⟨x, hx, hx0, hx1⟩ := hvel (by simp [Veiculo.cargaInfinita, hv])
        exact ⟨x, hx, hx0, by simpa only [Veiculo.velocidadeMaxima, hv] using hx1⟩
      · exact ⟨by simp [Veiculo.cargaOk, hv], hvel⟩
  | frear =>
    obtain ⟨hc, hvel⟩ := h
    simp only [Veiculo.executar, Veiculo.frear]
    split_ifs with hpos
    · refine ⟨hc, fun hfin => ?_⟩
      obtain ⟨x, hx, hx0, hx1⟩ := hvel hfin
      have hm : v.velocidadeMaxima ≤ 250 := by
        unfold Veiculo.velocidadeMaxima
        cases v.variante <;> norm_num
      refine ⟨max 0 (x - 15), ?_, le_max_left _ _, ?_⟩
      · simp only [hx, JSNum.menos, JSNum.oposto, JSNum.mais]
        rw [deExato_pequeno (x + -15) (by linarith) (by linarith)]
        simp only [JSNum.maximo]
        rw [sub_eq_add_neg]
      · show max 0 (x - 15) ≤ v.velocidadeMaxima
        exact max_le (le_trans hx0 hx1) (le_trans (by linarith) hx1)
    · exact ⟨hc, hvel⟩
  | acelerar =>
    obtain ⟨hc, hvel⟩ := h
    simp only [Veiculo.executar, Veiculo.acelerar]
    cases hv : v.variante with
    | carroBase =>
      simp only
      split_ifs
      · refine ⟨by simp [Veiculo.cargaOk, hv], fun _ => ?_⟩
        obtain ⟨x, hx, hx0, _⟩ := hvel (by simp [Veiculo.cargaInfinita, hv])
        obtain ⟨y, hy, hy0, hy1⟩ := acelerar_em_faixa x 180 (.fin 10) hx0
          (Or.inl ⟨10, rfl, by norm_num⟩)
        refine ⟨y, by simp only [hx, hy], ?_, by simpa only [Veiculo.velocidadeMaxima, hv] using hy1⟩
        exact le_trans (le_min (by linarith) (by norm_num)) hy0
      · exact ⟨hc, hvel⟩
    | carroEsportivo t =>
      simp only
      by_cases hl : v.ligado = true
      · rw [if_pos hl]
        refine ⟨by simp [Veiculo.cargaOk, hv], fun _ => ?_⟩
        obtain ⟨x, hx, hx0, _⟩ := hvel (by simp [Veiculo.cargaInfinita, hv])
        obtain ⟨y, hy, hy0, hy1⟩ := acelerar_em_faixa x 250 (.fin (if t then 25 else 15)) hx0
          (Or.inl ⟨_, rfl, by cases t <;> norm_num⟩)
        refine ⟨y, by simp only [hx, hy], ?_, by simpa only [Veiculo.velocidadeMaxima, hv] using hy1⟩
        exact le_trans (le_min (by linarith) (by norm_num)) hy0
      · rw [if_neg hl]
        exact ⟨hc, hvel⟩
    | caminhao cap carga =>
      simp only
      split_ifs
      · refine ⟨by simpa only [Veiculo.cargaOk, hv] using hc, fun hfin => ?_⟩
        have hold : v.cargaInfinita = false := by
          simpa only [Veiculo.cargaInfinita, hv] using hfin
        obtain ⟨x, hx, hx0, _⟩ := hvel hold
        simp only [Veiculo.cargaOk, hv] at hc
        rcases hc with ⟨g, eg, _⟩ | ⟨eg, _⟩
        · subst eg
          obtain ⟨y, hy, hy0, hy1⟩ := acelerar_em_faixa x 140 _ hx0 (incremento_carga_finita cap g)
          refine ⟨y, by simp only [hx, hy], ?_,
            by simpa only [Veiculo.velocidadeMaxima, hv] using hy1⟩
          exact le_trans (le_min (by linarith) (by norm_num)) hy0
        · subst eg
          simp [Veiculo.cargaInfinita, hv] at hold
      · exact ⟨hc, hvel⟩

/-- No call changes the capacity of a vehicle. -/
theorem capacidadeCarga_mantida (v : Veiculo) (op : Operacao) :
    (v.executar op).capacidadeCarga = v.capacidadeCarga := by
  cases op with
  | carregar peso =>
    rcases carregar_casos v peso with e | ⟨cap, carga, hv, _, _, _, e⟩
    · simp only [Veiculo.executar, e]
    · simp only [Veiculo.executar, e, Veiculo.capacidadeCarga, hv]
  | ligar => simp only [Veiculo.executar, Veiculo.ligar]; split_ifs <;> rfl
  | desligar => simp only [Veiculo.executar, Veiculo.desligar]; split_ifs <;> rfl
  | buzinar => rfl
  | frear => simp only [Veiculo.executar, Veiculo.frear]; split_ifs <;> rfl
  | ativarTurbo =>
    simp only [Veiculo.executar, Veiculo.ativarTurbo]
    cases hv : v.variante with
    | carroBase => rfl
    | caminhao cap carga => rfl
    | carroEsportivo t =>
      simp only
      by_cases hl : v.ligado = true
      · rw [if_pos hl]; simp only [Veiculo.capacidadeCarga, hv]
      · rw [if_neg hl]
  | acelerar =>
    simp only [Veiculo.executar, Veiculo.acelerar]
    cases hv : v.variante with
    | carroBase =>
      simp only
      by_cases hl : v.ligado = true
      · rw [if_pos hl]; simp only [Veiculo.capacidadeCarga, hv]
      · rw [if_neg hl]
    | carroEsportivo t =>
      simp only
      by_cases hl : v.ligado = true
      · rw [if_pos hl]; simp only [Veiculo.capacidadeCarga, hv]
      · rw [if_neg hl]
    | caminhao cap carga =>
      simp only
      by_cases hl : v.ligado = true
      · rw [if_pos hl]; simp only [Veiculo.capacidadeCarga, hv]
      · rw [if_neg hl]

/-- No call changes the maximum speed of a vehicle. -/
theorem velocidadeMaxima_mantida (v : Veiculo) (op : Operacao) :
    (v.executar op).velocidadeMaxima = v.velocidadeMaxima := by
  cases op with
  | carregar peso =>
    rcases carregar_casos v peso with e | ⟨cap, carga, hv, _, _, _, e⟩
    · simp only [Veiculo.executar, e]
    · simp only [Veiculo.executar, e, Veiculo.velocidadeMaxima, hv]
  | ligar => simp only [Veiculo.executar, Veiculo.ligar]; split_ifs <;> rfl
  | desligar => simp only [Veiculo.executar, Veiculo.desligar]; split_ifs <;> rfl
  | buzinar => rfl
  | frear => simp only [Veiculo.executar, Veiculo.frear]; split_ifs <;> rfl
  | ativarTurbo =>
    simp only [Veiculo.executar, Veiculo.ativarTurbo]
    cases hv : v.variante with
    | carroBase => rfl
    | caminhao cap carga => rfl
    | carroEsportivo t =>
      simp only
      by_cases hl : v.ligado = true
      · rw [if_pos hl]; simp only [Veiculo.velocidadeMaxima, hv]
      · rw [if_neg hl]
  | acelerar =>
    simp only [Veiculo.executar, Veiculo.acelerar]
    cases hv : v.variante with
    | carroBase =>
      simp only
      by_cases hl : v.ligado = true
      · rw [if_pos hl]; simp only [Veiculo.velocidadeMaxima, hv]
      · rw [if_neg hl]
    | carroEsportivo t =>
      simp only
      by_cases hl : v.ligado = true
      · rw [if_pos hl]; simp only [Veiculo.velocidadeMaxima, hv]
      · rw [if_neg hl]
    | caminhao cap carga =>
      simp only
      by_cases hl : v.ligado = true
      · rw [if_pos hl]; simp only [Veiculo.velocidadeMaxima, hv]
      · rw [if_neg hl]

end Duplo

/-- C1, as stated, fails: a truck built with a capacity of four hundred digits
has `capacidadeCarga = Infinity`; loaded with the same weight it has
`cargaAtual = Infinity`, and switched on and accelerated once its speed is
`NaN`, which is neither at least 0 nor at most 140. -/
theorem velocidade_nan_contraexemplo :
    Duplo.Caminhao.novo 0 (.texto "v1") (.texto "Scania") (.texto "") .indefinido (.texto "")
        .undefined .undefined (.str Duplo.quatrocentosNoves) =
        some (Duplo.caminhaoExemplo .pinf) ∧
      ((Duplo.caminhaoExemplo .pinf).executarTodas
        [.carregar (.str Duplo.quatrocentosNoves), .ligar, .acelerar]).variante =
        .caminhao .pinf .pinf ∧
      ((Duplo.caminhaoExemplo .pinf).executarTodas
        [.carregar (.str Duplo.quatrocentosNoves), .ligar, .acelerar]).velocidade = .nan ∧
      (JSNum.fin 0).menorOuIgual .nan = false ∧ JSNum.nan.menorOuIgual (.fin 140) = false := by
  decide!

/-- C1, amended. For a vehicle built by any of the three constructors, from any
arguments, and after any sequence of `ligar`, `desligar`, `acelerar`, `frear`,
`buzinar`, `ativarTurbo` and `carregar` calls: while the load is not
`Infinity` the speed is a number that is at least 0 and at most the maximum
of its class (180, 250 or 140); and the load is `Infinity` only on a truck
that was built with the capacity `Infinity`. -/
theorem velocidade_dentro_dos_limites_carga_finita (fuso : Int)
    (id modelo cor img placa : Texto) (ano cnh capCarga : JSVal) (v : Duplo.Veiculo)
    (h : Duplo.CarroBase.novo fuso id modelo cor img placa ano cnh = some v ∨
      Duplo.CarroEsportivo.novo fuso id modelo cor img placa ano cnh = some v ∨
      Duplo.Caminhao.novo fuso id modelo cor img placa ano cnh capCarga = some v)
    (ops : List Operacao) :
    ((v.executarTodas ops).cargaInfinita = false →
        ∃ x : ℚ, (v.executarTodas ops).velocidade = .fin x ∧ 0 ≤ x ∧
          x ≤ (v.executarTodas ops).velocidadeMaxima) ∧
      ((v.executarTodas ops).cargaInfinita = true → v.variante = .caminhao .pinf (.fin 0)) ∧
      ((v.executarTodas ops).velocidadeMaxima = 180 ∧ v.variante = .carroBase ∨
        (v.executarTodas ops).velocidadeMaxima = 250 ∧ v.variante = .carroEsportivo false ∨
        (v.executarTodas ops).velocidadeMaxima = 140 ∧
          ∃ cap, v.variante = .caminhao cap (.fin 0)) := by
  have hini : v.velocidade = .fin 0 ∧
      (v.variante = .carroBase ∨ v.variante = .carroEsportivo false ∨
        ∃ cap, v.variante = .caminhao cap (.fin 0)) := by
    rcases h with h | h | h
    · obtain ⟨_, b, d⟩ := Duplo.construir_inicial h
      exact ⟨b, Or.inl d⟩
    · obtain ⟨_, b, d⟩ := Duplo.construir_inicial h
      exact ⟨b, Or.inr (Or.inl d)⟩
    · obtain ⟨_, b, d⟩ := Duplo.construir_inicial h
      exact ⟨b, Or.inr (Or.inr ⟨_, d⟩)⟩
  obtain ⟨hvel, hvar⟩ := hini
  have hinv0 : v.invariante := by
    refine ⟨?_, fun _ => ⟨0, hvel, le_refl 0, ?_⟩⟩
    · rcases hvar with e | e | ⟨cap, e⟩ <;> simp [Duplo.Veiculo.cargaOk, e]
    · rcases hvar with e | e | ⟨cap, e⟩ <;> simp [Duplo.Veiculo.velocidadeMaxima, e]
  obtain ⟨hc, hv⟩ := Duplo.executarTodas_mantem Duplo.Veiculo.invariante
    Duplo.invariante_executar ops v hinv0
  have hmax : (v.executarTodas ops).velocidadeMaxima = v.velocidadeMaxima :=
    Duplo.executarTodas_mantem (fun w => w.velocidadeMaxima = v.velocidadeMaxima)
      (fun w op hw => (Duplo.velocidadeMaxima_mantida w op).trans hw) ops v rfl
  have hcap : (v.executarTodas ops).capacidadeCarga = v.capacidadeCarga :=
    Duplo.executarTodas_mantem (fun w => w.capacidadeCarga = v.capacidadeCarga)
      (fun w op hw => (Duplo.capacidadeCarga_mantida w op).trans hw) ops v rfl
  refine ⟨hv, fun hinf => ?_, ?_⟩
  · cases hw : (v.executarTodas ops).variante with
    | carroBase => simp [Duplo.Veiculo.cargaInfinita, hw] at hinf
    | carroEsportivo t => simp [Duplo.Veiculo.cargaInfinita, hw] at hinf
    | caminhao cap carga =>
      simp only [Duplo.Veiculo.cargaOk, hw] at hc
      have hcp : cap = .pinf := by
        rcases hc with ⟨g, eg, _⟩ | ⟨_, ec⟩
        · simp [Duplo.Veiculo.cargaInfinita, hw, eg] at hinf
        · exact ec
      simp only [Duplo.Veiculo.capacidadeCarga, hw] at hcap
      rcases hvar with e | e | ⟨c0, e⟩
      · simp [e] at hcap
      · simp [e] at hcap
      · simp only [e, Option.some.injEq] at hcap
        rw [e, ← hcap, hcp]
  · rw [hmax]
    rcases hvar with e | e | ⟨cap, e⟩
    · exact Or.inl ⟨by simp [Duplo.Veiculo.velocidadeMaxima, e], e⟩
    · exact Or.inr (Or.inl ⟨by simp [Duplo.Veiculo.velocidadeMaxima, e], e⟩)
    · exact Or.inr (Or.inr ⟨by simp [Duplo.Veiculo.velocidadeMaxima, e], cap, e⟩)

/-- C1, amended, at a truck of capacity 100 that is switched on, loaded with
40 and accelerated twice: its speed is the number 12, within the limits. -/
theorem velocidade_dentro_dos_limites_carga_finita_witness :
    ((Duplo.caminhaoExemplo (.fin 100)).executarTodas
        [.ligar, .carregar (.str "40"), .acelerar, .acelerar]).velocidade = .fin 12 ∧
      ∃ x : ℚ, ((Duplo.caminhaoExemplo (.fin 100)).executarTodas
          [.ligar, .carregar (.str "40"), .acelerar, .acelerar]).velocidade = .fin x ∧ 0 ≤ x ∧
        x ≤ ((Duplo.caminhaoExemplo (.fin 100)).executarTodas
          [.ligar, .carregar (.str "40"), .acelerar, .acelerar]).velocidadeMaxima :=
  ⟨by decide!,
    (velocidade_dentro_dos_limites_carga_finita 0 (.texto "v1") (.texto "Scania") (.texto "")
      .indefinido (.texto "") .undefined .undefined (.str "100")
      (Duplo.caminhaoExemplo (.fin 100)) (Or.inr (Or.inr (by decide!)))
      [.ligar, .carregar (.str "40"), .acelerar, .acelerar]).1 (by decide!)⟩

/-! ## The increment and the load factor of a truck, with overflow -/

/-- The divisor computed by `Caminhao.acelerar`, `capacidadeCarga * 1.5 || 1`,
is the one the specification writes, `1.5 * capacidadeCarga`, or 1 when the
capacity is 0. -/
theorem divisor_especificado (cap : JSNum) (h : cap ≠ .nan) :
    (cap.vezes (.fin (3 / 2))).ou (.fin 1) =
      if cap = .fin 0 then .fin 1 else (JSNum.fin (3 / 2)).vezes cap := by
  cases cap with
  | nan => exact absurd rfl h
  | pinf =>
    rw [if_neg (by simp)]
    norm_num [JSNum.vezes, JSNum.ou, JSVal.truthy]
  | ninf =>
    rw [if_neg (by simp)]
    norm_num [JSNum.vezes, JSNum.ou, JSVal.truthy]
  | fin c =>
    by_cases hc : c = 0
    · subst hc
      have e : JSNum.deExato 0 = .fin 0 := deExato_pequeno 0 (by norm_num) (by norm_num)
      simp [JSNum.vezes, JSNum.ou, JSVal.truthy, e]
    · have hne : ¬ JSNum.fin c = JSNum.fin 0 := fun e => hc (by injection e)
      rw [if_neg hne]
      simp only [JSNum.vezes, mul_comm (3 / 2 : ℚ) c]
      rcases deExato_casos (c * (3 / 2)) with ⟨e, _⟩ | ⟨e, _⟩ | ⟨e, _⟩ <;> rw [e]
      · simp [JSNum.ou, JSVal.truthy]
      · simp [JSNum.ou, JSVal.truthy]
      · simp [JSNum.ou, JSVal.truthy, hc]

/-- The increment computed by `Caminhao.acelerar` is the one the specification
writes. -/
theorem incremento_especificado_numeros (cap carga : JSNum) (h : cap ≠ .nan) :
    Duplo.Caminhao.incremento cap carga = Duplo.incrementoEspecificado cap carga := by
  unfold Duplo.Caminhao.incremento Duplo.Caminhao.fatorCarga Duplo.incrementoEspecificado
  rw [divisor_especificado cap h]

/-- C13, as stated, fails: a truck built with a capacity of four hundred
digits, loaded with the same weight and switched on has capacity and load
`Infinity`; the increment of the formula is then `NaN`, not at least 1, and
`acelerar` takes the speed from 0 to `NaN`. -/
theorem caminhao_acelerar_nan_contraexemplo :
    (Duplo.caminhaoExemplo .pinf).executarTodas
        [.carregar (.str Duplo.quatrocentosNoves), .ligar] = Duplo.caminhaoSemLimite ∧
      Duplo.caminhaoSemLimite.velocidade = .fin 0 ∧
      Duplo.incrementoEspecificado .pinf .pinf = .nan ∧
      (JSNum.fin 1).menorOuIgual (Duplo.incrementoEspecificado .pinf .pinf) = false ∧
      Duplo.caminhaoSemLimite.acelerar.velocidade = .nan ∧
      (JSNum.fin 1).menorOuIgual Duplo.caminhaoSemLimite.acelerar.velocidade = false := by
  decide!

/-- C13, amended. For a truck that is on, with any load and any capacity,
`acelerar` sets the speed to
`min(velocidade + max(1, round(8 * (1 - cargaAtual / d))), 140)` with
`d = 1.5 * capacidadeCarga`, or 1 when the capacity is 0, and changes nothing
else; when the load is a finite number the increment is at least 1 (or
`Infinity`), so from a speed from 0 to 139 each call raises the speed by at
least 1, to at most 140. -/
theorem caminhao_acelerar_formula_numeros (v : Duplo.Veiculo) (cap carga : JSNum)
    (hv : v.variante = .caminhao cap carga) (hl : v.ligado = true) (hcap : cap ≠ .nan) :
    v.acelerar.velocidade =
        (v.velocidade.mais (Duplo.incrementoEspecificado cap carga)).minimo (.fin 140) ∧
      v.acelerar = { v with velocidade := v.acelerar.velocidade } ∧
      ∀ g : ℚ, carga = .fin g →
        ((∃ i : ℚ, Duplo.incrementoEspecificado cap carga = .fin i ∧ 1 ≤ i) ∨
          Duplo.incrementoEspecificado cap carga = .pinf) ∧
        ∀ x : Int, v.velocidade = .fin x → 0 ≤ x → x < 140 →
          ∃ y : ℚ, v.acelerar.velocidade = .fin y ∧ (x : ℚ) + 1 ≤ y ∧ y ≤ 140 := by
  have e : v.acelerar =
      { v with
        velocidade :=
          (v.velocidade.mais (Duplo.incrementoEspecificado cap carga)).minimo (.fin 140) } := by
    unfold Duplo.Veiculo.acelerar
    simp only [hv, hl, if_true, incremento_especificado_numeros cap carga hcap]
  rw [e]
  refine ⟨rfl, rfl, fun g hg => ?_⟩
  have hinc := incremento_carga_finita cap g
  rw [incremento_especificado_numeros cap (.fin g) hcap, ← hg] at hinc
  refine ⟨hinc, fun x hx h0 h140 => ?_⟩
  obtain ⟨y, hy, hy0, hy1⟩ := acelerar_em_faixa (x : ℚ) 140 _ (by exact_mod_cast h0) hinc
  refine ⟨y, by simp only [hx, hy], le_trans (le_min (le_refl _) ?_) hy0, hy1⟩
  have h139 : x + 1 ≤ 140 := by omega
  exact_mod_cast h139

/-- C13, amended, at a truck of capacity 100 carrying 40, on, at speed 30: the
increment is `round(8 * (1 - 40 / 150))`, that is 6, and the speed becomes 36. -/
theorem caminhao_acelerar_formula_numeros_witness :
    Duplo.caminhaoEmUso.acelerar.velocidade = .fin 36 ∧
      Duplo.incrementoEspecificado (.fin 100) (.fin 40) = .fin 6 ∧
      ∃ y : ℚ, Duplo.caminhaoEmUso.acelerar.velocidade = .fin y ∧ ((30 : Int) : ℚ) + 1 ≤ y ∧
        y ≤ 140 :=
  ⟨(caminhao_acelerar_formula_numeros Duplo.caminhaoEmUso (.fin 100) (.fin 40) rfl rfl
      (by decide)).1.trans (by decide!),
    by decide!,
    ((caminhao_acelerar_formula_numeros Duplo.caminhaoEmUso (.fin 100) (.fin 40) rfl rfl
      (by decide)).2.2 40 rfl).2 30 (by decide!) (by decide) (by decide)⟩

/-- With a load factor that is a number from 1/3 to 1, the increment is an
integer from 3 to 8. -/
theorem incremento_de_fator (cap carga : JSNum) (f : ℚ)
    (hf : Duplo.Caminhao.fatorCarga cap carga = .fin f) (h0 : 1 / 3 ≤ f) (h1 : f ≤ 1) :
    ∃ i : Int, Duplo.Caminhao.incremento cap carga = .fin i ∧ 3 ≤ i ∧ i ≤ 8 := by
  have h3 : 3 ≤ arredondar (8 * f) := by
    unfold arredondar
    rw [Int.le_floor]
    push_cast
    linarith
  have h8 : arredondar (8 * f) < 9 := by
    unfold arredondar
    rw [Int.floor_lt]
    push_cast
    linarith
  refine ⟨max 1 (arredondar (8 * f)), ?_, by omega, by omega⟩
  unfold Duplo.Caminhao.incremento
  rw [hf]
  simp only [JSNum.vezes]
  rw [deExato_pequeno (8 * f) (by linarith) (by linarith)]
  simp only [JSNum.arredondado, JSNum.maximo]
  congr 1
  push_cast
  rfl

/-- The load factor of a truck whose load is a number from 0 to the capacity:
it is 1 when the capacity is `Infinity` or so large that `capacidadeCarga *
1.5` is, or when the load is 0; otherwise it is `1 - cargaAtual /
(capacidadeCarga * 1.5)`. -/
theorem fatorCarga_valor (cap : JSNum) (g : ℚ) (h0 : 0 ≤ g)
    (h1 : (JSNum.fin g).menorOuIgual cap = true) :
    (Duplo.Caminhao.fatorCarga cap (.fin g) = .fin 1 ∧
        (cap = .pinf ∨ g = 0 ∨ ∃ c : ℚ, cap = .fin c ∧ limiteInfinito ≤ c * (3 / 2))) ∨
      ∃ c : ℚ, cap = .fin c ∧ 0 < c ∧ g ≤ c ∧ c * (3 / 2) < limiteInfinito ∧
        Duplo.Caminhao.fatorCarga cap (.fin g) = .fin (1 - g / (c * (3 / 2))) := by
  have h1000 := limiteInfinito_grande
  have hum : (JSNum.fin 1).menos (.fin 0) = .fin 1 := by
    simp only [JSNum.menos, JSNum.oposto, JSNum.mais, neg_zero, add_zero]
    exact deExato_pequeno 1 (by norm_num) (by norm_num)
  cases cap with
  | nan => simp [JSNum.menorOuIgual] at h1
  | ninf => simp [JSNum.menorOuIgual] at h1
  | pinf =>
    refine Or.inl ⟨?_, Or.inl rfl⟩
    unfold Duplo.Caminhao.fatorCarga
    have e : (JSNum.pinf.vezes (.fin (3 / 2))).ou (.fin 1) = .pinf := by
      norm_num [JSNum.vezes, JSNum.ou, JSVal.truthy]
    rw [e]
    simpa only [JSNum.dividido] using hum
  | fin c =>
    have hgc : g ≤ c := by
      simpa only [JSNum.menorOuIgual, decide_eq_true_eq] using h1
    unfold Duplo.Caminhao.fatorCarga
    simp only [JSNum.vezes]
    rcases deExato_casos (c * (3 / 2)) with ⟨e, hl⟩ | ⟨e, hl⟩ | ⟨e, _, hl⟩
    · rw [e]
      refine Or.inl ⟨?_, Or.inr (Or.inr ⟨c, rfl, hl⟩)⟩
      have e2 : JSNum.pinf.ou (.fin 1) = .pinf := by simp [JSNum.ou, JSVal.truthy]
      rw [e2]
      simpa only [JSNum.dividido] using hum
    · linarith
    · rw [e]
      by_cases hc : c = 0
      · have hg : g = 0 := by linarith
        subst hc
        subst hg
        refine Or.inl ⟨?_, Or.inr (Or.inl rfl)⟩
        have e2 : (JSNum.fin (0 * (3 / 2))).ou (.fin 1) = .fin 1 := by
          simp [JSNum.ou, JSVal.truthy]
        rw [e2]
        have e3 : (JSNum.fin 0).dividido (.fin 1) = .fin 0 := by
          simp only [JSNum.dividido, one_ne_zero, if_false, zero_div]
          exact deExato_pequeno 0 (by norm_num) (by norm_num)
        rw [e3]
        exact hum
      · have hcp : 0 < c := lt_of_le_of_ne (le_trans h0 hgc) (Ne.symm hc)
        have hd : 0 < c * (3 / 2) := by positivity
        refine Or.inr ⟨c, rfl, hcp, hgc, hl, ?_⟩
        have e2 : (JSNum.fin (c * (3 / 2))).ou (.fin 1) = .fin (c * (3 / 2)) := by
          simp [JSNum.ou, JSVal.truthy, hc]
        rw [e2]
        have hr0 : 0 ≤ g / (c * (3 / 2)) := div_nonneg h0 hd.le
        have hr1 : g / (c * (3 / 2)) ≤ 2 / 3 := by
          rw [div_le_iff₀ hd]
          linarith
        simp only [JSNum.dividido, if_neg (ne_of_gt hd)]
        rw [deExato_pequeno _ (by linarith) (by linarith)]
        simp only [JSNum.menos, JSNum.oposto, JSNum.mais]
        rw [deExato_pequeno _ (by linarith) (by linarith), sub_eq_add_neg]

/-- C26, as stated, fails: with capacity and load `Infinity`, the state of a
truck built with a capacity of four hundred digits and loaded with the same
weight, `0 <= cargaAtual <= capacidadeCarga` holds and the load factor and the
increment are `NaN`. -/
theorem fatorCarga_nan_contraexemplo :
    ((Duplo.caminhaoExemplo .pinf).carregar (.str Duplo.quatrocentosNoves)).variante =
        .caminhao .pinf .pinf ∧
      (JSNum.fin 0).menorOuIgual .pinf = true ∧ JSNum.pinf.menorOuIgual .pinf = true ∧
      Duplo.Caminhao.fatorCarga .pinf .pinf = .nan ∧
      Duplo.Caminhao.incremento .pinf .pinf = .nan := by
  decide!

/-- C26, amended. For a truck whose load is a finite number with
`0 <= cargaAtual <= capacidadeCarga`, the load factor is a number that is
strictly positive, at least 1/3 and at most 1: it is 1 when the truck is
empty, and 1/3 when a truck of positive capacity is full (and
`capacidadeCarga * 1.5` is within the range of a double); the increment of
`acelerar` is an integer from 3 to 8. -/
theorem fatorCarga_limites_carga_finita (cap : JSNum) (g : ℚ) (h0 : 0 ≤ g)
    (h1 : (JSNum.fin g).menorOuIgual cap = true) :
    ∃ f : ℚ, Duplo.Caminhao.fatorCarga cap (.fin g) = .fin f ∧ 0 < f ∧ 1 / 3 ≤ f ∧ f ≤ 1 ∧
      (g = 0 → f = 1) ∧
      (cap = .fin g → 0 < g → g * (3 / 2) < limiteInfinito → f = 1 / 3) ∧
      ∃ i : Int, Duplo.Caminhao.incremento cap (.fin g) = .fin i ∧ 3 ≤ i ∧ i ≤ 8 := by
  rcases fatorCarga_valor cap g h0 h1 with ⟨e, hcaso⟩ | ⟨c, ec, hc, hgc, hl, e⟩
  · refine ⟨1, e, by norm_num, by norm_num, le_refl 1, fun _ => rfl, fun hcap hg hlim => ?_,
      incremento_de_fator cap (.fin g) 1 e (by norm_num) (le_refl 1)⟩
    rcases hcaso with hp | hz | ⟨c, ec, hl⟩
    · rw [hp] at hcap; cases hcap
    · linarith
    · rw [ec] at hcap
      injection hcap with hcg
      rw [hcg] at hl
      linarith
  · have hd : 0 < c * (3 / 2) := by positivity
    have hr0 : 0 ≤ g / (c * (3 / 2)) := div_nonneg h0 hd.le
    have hr1 : g / (c * (3 / 2)) ≤ 2 / 3 := by
      rw [div_le_iff₀ hd]
      linarith
    refine ⟨1 - g / (c * (3 / 2)), e, by linarith, by linarith, by linarith, fun hg => ?_,
      fun hcap hg _ => ?_, incremento_de_fator cap (.fin g) _ e (by linarith) (by linarith)⟩
    · rw [hg]; simp
    · rw [ec] at hcap
      injection hcap with hcg
      rw [hcg]
      field_simp
      ring

/-- C26, amended, at the capacity 100: the factor is 1/3 at the load 100 and
1 at the load 0, and the increment of the full truck is 3. -/
theorem fatorCarga_limites_carga_finita_witness :
    Duplo.Caminhao.incremento (.fin 100) (.fin 100) = .fin 3 ∧
      (∃ f : ℚ, Duplo.Caminhao.fatorCarga (.fin 100) (.fin 100) = .fin f ∧ 0 < f ∧ 1 / 3 ≤ f ∧
        f ≤ 1 ∧ (100 = (0 : ℚ) → f = 1) ∧
        (JSNum.fin 100 = .fin 100 → 0 < (100 : ℚ) → (100 : ℚ) * (3 / 2) < limiteInfinito →
          f = 1 / 3) ∧
        ∃ i : Int, Duplo.Caminhao.incremento (.fin 100) (.fin 100) = .fin i ∧ 3 ≤ i ∧ i ≤ 8) :=
  ⟨by decide!, fatorCarga_limites_carga_finita (.fin 100) 100 (by norm_num) (by decide!)⟩

/-! ## Heavier trucks accelerate more slowly, with overflow -/

/-- Taking the Number value keeps the order. -/
theorem menorOuIgual_deExato (a b : ℚ) (h : a ≤ b) :
    (JSNum.deExato a).menorOuIgual (JSNum.deExato b) = true := by
  have h1000 := limiteInfinito_grande
  rcases deExato_casos a with ⟨ea, ha⟩ | ⟨ea, ha⟩ | ⟨ea, ha1, ha2⟩ <;>
    rcases deExato_casos b with ⟨eb, hb⟩ | ⟨eb, hb⟩ | ⟨eb, hb1, hb2⟩ <;>
    rw [ea, eb] <;> simp only [JSNum.menorOuIgual, decide_eq_true_eq] <;> linarith

/-- A Number value is at most `Infinity`. -/
theorem deExato_menorOuIgual_pinf (q : ℚ) : (JSNum.deExato q).menorOuIgual .pinf = true := by
  rcases deExato_casos q with ⟨e, _⟩ | ⟨e, _⟩ | ⟨e, _⟩ <;> rw [e] <;> rfl

/-- A Number value is at least `-Infinity`. -/
theorem ninf_menorOuIgual_deExato (q : ℚ) : JSNum.ninf.menorOuIgual (JSNum.deExato q) = true := by
  rcases deExato_casos q with ⟨e, _⟩ | ⟨e, _⟩ | ⟨e, _⟩ <;> rw [e] <;> rfl

/-- The comparison `x <= x` holds for every number other than `NaN`. -/
theorem menorOuIgual_refl (x : JSNum) (h : x ≠ .nan) : x.menorOuIgual x = true := by
  cases x with
  | nan => exact absurd rfl h
  | fin q => simp [JSNum.menorOuIgual]
  | pinf => rfl
  | ninf => rfl

/-- The expression `1 - x` reverses the order. -/
theorem menos_um_anti (x y : JSNum) (h : x.menorOuIgual y = true) :
    ((JSNum.fin 1).menos y).menorOuIgual ((JSNum.fin 1).menos x) = true := by
  cases x <;> cases y <;>
    simp only [JSNum.menorOuIgual, JSNum.menos, JSNum.oposto, JSNum.mais, decide_eq_true_eq,
      Bool.false_eq_true] at h ⊢ <;>
    first
      | exact deExato_menorOuIgual_pinf _
      | exact ninf_menorOuIgual_deExato _
      | exact menorOuIgual_deExato _ _ (by linarith)

/-- The expression `8 * x` keeps the order. -/
theorem vezes_oito_mono (x y : JSNum) (h : x.menorOuIgual y = true) :
    ((JSNum.fin 8).vezes x).menorOuIgual ((JSNum.fin 8).vezes y) = true := by
  cases x <;> cases y <;>
    simp only [JSNum.menorOuIgual, JSNum.vezes, decide_eq_true_eq,
      Bool.false_eq_true] at h ⊢ <;>
    first
      | exact menorOuIgual_deExato _ _ (by linarith)
      | (norm_num; exact deExato_menorOuIgual_pinf _)
      | (norm_num; exact ninf_menorOuIgual_deExato _)
      | norm_num

/-- `Math.round` keeps the order. -/
theorem arredondado_mono (x y : JSNum) (h : x.menorOuIgual y = true) :
    x.arredondado.menorOuIgual y.arredondado = true := by
  cases x <;> cases y <;>
    simp only [JSNum.menorOuIgual, JSNum.arredondado, decide_eq_true_eq,
      Bool.false_eq_true] at h ⊢
  unfold arredondar
  exact_mod_cast Int.floor_le_floor (by linarith)

/-- `Math.max(1, x)` keeps the order. -/
theorem maximo_um_mono (x y : JSNum) (h : x.menorOuIgual y = true) :
    ((JSNum.fin 1).maximo x).menorOuIgual ((JSNum.fin 1).maximo y) = true := by
  cases x <;> cases y <;>
    simp only [JSNum.menorOuIgual, JSNum.maximo, decide_eq_true_eq,
      Bool.false_eq_true, le_refl] at h ⊢
  · exact max_le_max (le_refl 1) h
  · exact le_max_left _ _

/-- Adding to a finite number keeps the order. -/
theorem mais_mono (a : ℚ) (x y : JSNum) (h : x.menorOuIgual y = true) :
    ((JSNum.fin a).mais x).menorOuIgual ((JSNum.fin a).mais y) = true := by
  cases x <;> cases y <;>
    simp only [JSNum.menorOuIgual, JSNum.mais, decide_eq_true_eq,
      Bool.false_eq_true] at h ⊢ <;>
    first
      | exact deExato_menorOuIgual_pinf _
      | exact ninf_menorOuIgual_deExato _
      | exact menorOuIgual_deExato _ _ (by linarith)

/-- `Math.min(x, m)` keeps the order. -/
theorem minimo_mono (m : ℚ) (x y : JSNum) (h : x.menorOuIgual y = true) :
    (x.minimo (.fin m)).menorOuIgual (y.minimo (.fin m)) = true := by
  cases x <;> cases y <;>
    simp only [JSNum.menorOuIgual, JSNum.minimo, decide_eq_true_eq,
      Bool.false_eq_true, le_refl] at h ⊢
  · exact min_le_min h (le_refl m)
  · exact min_le_right _ _

/-- With a divisor above zero, or `Infinity`, a larger finite load gives a
larger quotient. -/
theorem dividido_mono (g1 g2 : ℚ) (d : JSNum) (h : g2 ≤ g1)
    (hd : (∃ q : ℚ, d = .fin q ∧ 0 < q) ∨ d = .pinf) :
    ((JSNum.fin g2).dividido d).menorOuIgual ((JSNum.fin g1).dividido d) = true := by
  rcases hd with ⟨q, e, hq⟩ | e <;> rw [e]
  · simp only [JSNum.dividido, if_neg (ne_of_gt hq)]
    exact menorOuIgual_deExato _ _ (div_le_div_of_nonneg_right h hq.le)
  · simp [JSNum.dividido, JSNum.menorOuIgual]

/-- With a capacity that is not negative, the divisor
`capacidadeCarga * 1.5 || 1` is a number above zero, or `Infinity`. -/
theorem divisor_positivo (cap : JSNum) (h : (JSNum.fin 0).menorOuIgual cap = true) :
    (∃ q : ℚ, (cap.vezes (.fin (3 / 2))).ou (.fin 1) = .fin q ∧ 0 < q) ∨
      (cap.vezes (.fin (3 / 2))).ou (.fin 1) = .pinf := by
  have h1000 := limiteInfinito_grande
  cases cap with
  | nan => simp [JSNum.menorOuIgual] at h
  | ninf => simp [JSNum.menorOuIgual] at h
  | pinf => exact Or.inr (by norm_num [JSNum.vezes, JSNum.ou, JSVal.truthy])
  | fin c =>
    have hc : 0 ≤ c := by simpa only [JSNum.menorOuIgual, decide_eq_true_eq] using h
    simp only [JSNum.vezes]
    rcases deExato_casos (c * (3 / 2)) with ⟨e, _⟩ | ⟨e, hl⟩ | ⟨e, _⟩ <;> rw [e]
    · exact Or.inr (by simp [JSNum.ou, JSVal.truthy])
    · linarith
    · by_cases hz : c * (3 / 2) = 0
      · exact Or.inl ⟨1, by simp [JSNum.ou, JSVal.truthy, hz], one_pos⟩
      · refine Or.inl ⟨c * (3 / 2), by simp [JSNum.ou, JSVal.truthy, hz], ?_⟩
        exact lt_of_le_of_ne (by positivity) (Ne.symm hz)

/-- With a capacity that is not negative, a larger finite load never gives a
larger increment. -/
theorem incremento_antitono_numeros (cap : JSNum) (g1 g2 : ℚ)
    (hcap : (JSNum.fin 0).menorOuIgual cap = true) (h : g2 ≤ g1) :
    (Duplo.Caminhao.incremento cap (.fin g1)).menorOuIgual
      (Duplo.Caminhao.incremento cap (.fin g2)) = true := by
  unfold Duplo.Caminhao.incremento Duplo.Caminhao.fatorCarga
  exact maximo_um_mono _ _ (arredondado_mono _ _ (vezes_oito_mono _ _
    (menos_um_anti _ _ (dividido_mono g1 g2 _ h (divisor_positivo cap hcap)))))

/-- The loop of `carregarGaragem` rebuilds a stored truck of capacity -100
with the load 150: the load of a record is assigned without a look at the
capacity. -/
theorem reconstruir_capacidade_negativa :
    reconstruir 0 registroCapacidadeNegativa =
      some { caminhaoExemplo (-100) with variante := .caminhao (-100) 150 } := by
  decide!

/-- C27, as stated, fails. Of two trucks of capacity `Infinity` that are on and
standing still, the one with the load `Infinity` has speed `NaN` after
`acelerar` and the empty one has speed 8, and `NaN <= 8` is false; the first
is the state of a truck built with a capacity of four hundred digits, loaded
with the same weight and switched on. And of two trucks of capacity -100 that
are on and standing still, the one with the load 150, as `carregarGaragem`
rebuilds it from a stored record, reaches 16 and the empty one 8. -/
theorem mais_carga_mais_rapido_contraexemplo :
    (Duplo.caminhaoExemplo .pinf).executarTodas
        [.carregar (.str Duplo.quatrocentosNoves), .ligar] = Duplo.caminhaoSemLimite ∧
      (Duplo.caminhaoExemplo .pinf).executarTodas [.ligar] =
        { Duplo.caminhaoSemLimite with variante := .caminhao .pinf (.fin 0) } ∧
      (JSNum.fin 0).menorOuIgual .pinf = true ∧
      Duplo.caminhaoSemLimite.acelerar.velocidade = .nan ∧
      ({ Duplo.caminhaoSemLimite with
          variante := .caminhao .pinf (.fin 0) } : Duplo.Veiculo).acelerar.velocidade = .fin 8 ∧
      JSNum.nan.menorOuIgual (.fin 8) = false ∧
      ({ Duplo.caminhaoSemLimite with
          variante := .caminhao (.fin (-100)) (.fin 150) } : Duplo.Veiculo).acelerar.velocidade =
        .fin 16 ∧
      ({ Duplo.caminhaoSemLimite with
          variante := .caminhao (.fin (-100)) (.fin 0) } : Duplo.Veiculo).acelerar.velocidade =
        .fin 8 ∧
      (JSNum.fin 16).menorOuIgual (.fin 8) = false := by
  decide!

/-- C27, amended: two trucks that are on, with the same capacity, which is not
negative, the same speed, a finite number, and loads that are finite numbers;
if the first carries at least as much as the second, then after one
`acelerar` each the speed of the first is less than or equal to the speed of
the second. -/
theorem caminhao_mais_carga_mais_lento_numeros (a b : Duplo.Veiculo) (cap : JSNum)
    (g1 g2 x : ℚ)
    (ha : a.variante = .caminhao cap (.fin g1)) (hb : b.variante = .caminhao cap (.fin g2))
    (hla : a.ligado = true) (hlb : b.ligado = true)
    (hva : a.velocidade = .fin x) (hvb : b.velocidade = .fin x)
    (hcap : (JSNum.fin 0).menorOuIgual cap = true) (h : g2 ≤ g1) :
    a.acelerar.velocidade.menorOuIgual b.acelerar.velocidade = true := by
  have ea : a.acelerar.velocidade =
      ((JSNum.fin x).mais (Duplo.Caminhao.incremento cap (.fin g1))).minimo (.fin 140) := by
    unfold Duplo.Veiculo.acelerar
    simp only [ha, hla, if_true, hva]
  have eb : b.acelerar.velocidade =
      ((JSNum.fin x).mais (Duplo.Caminhao.incremento cap (.fin g2))).minimo (.fin 140) := by
    unfold Duplo.Veiculo.acelerar
    simp only [hb, hlb, if_true, hvb]
  rw [ea, eb]
  exact minimo_mono 140 _ _ (mais_mono x _ _ (incremento_antitono_numeros cap g1 g2 hcap h))

/-- C27, amended, at two trucks of capacity 100 at the speed 30, the first
with the load 100 and the second with the load 40: they reach 33 and 36. -/
theorem caminhao_mais_carga_mais_lento_numeros_witness :
    ({ Duplo.caminhaoEmUso with
        variante := .caminhao (.fin 100) (.fin 100) } : Duplo.Veiculo).acelerar.velocidade =
        .fin 33 ∧
      Duplo.caminhaoEmUso.acelerar.velocidade = .fin 36 ∧
      (({ Duplo.caminhaoEmUso with
          variante := .caminhao (.fin 100) (.fin 100) } : Duplo.Veiculo).acelerar.velocidade).menorOuIgual
        Duplo.caminhaoEmUso.acelerar.velocidade = true :=
  ⟨by decide!, by decide!,
    caminhao_mais_carga_mais_lento_numeros
      { Duplo.caminhaoEmUso with variante := .caminhao (.fin 100) (.fin 100) }
      Duplo.caminhaoEmUso (.fin 100) 100 40 30 rfl rfl rfl rfl rfl rfl (by decide!)
      (by norm_num)⟩

end Garagem
